import Mathlib

/-!
# libfm: file launcher and progress observer

A shallow embedding of `src/base/fm-file-launcher.c` (`fm_launch_desktop_entry`,
`fm_launch_files`, `fm_launch_paths`), of the observer callbacks of
`src/gtk/fm-progress-dlg.c` and of `fm_askv` of `src/gtk/fm-gtk-utils.c`.

Everything outside the repository that the C code calls (GIO, GLib, libc, the
callbacks stored in `FmFileLauncher`) is an explicit oracle: a field of `Env`
or of `FmFileLauncher`.  Every call that is visible from outside is recorded,
in order, as an `Effect`.
-/

namespace LibFm

/-! ## Data model -/

/-- A `GError`: domain (the quark's string), code and message. -/
structure GError where
  domain : String
  code : Nat
  message : String
deriving DecidableEq, Repr

/-- The error domain `G_IO_ERROR`. -/
def G_IO_ERROR : String := "g-io-error-quark"

/-- GIO's `G_IO_ERROR_FAILED`. -/
def G_IO_ERROR_FAILED : Nat := 0

/-- GIO's `G_IO_ERROR_CANCELLED`. -/
def G_IO_ERROR_CANCELLED : Nat := 19

/-- GIO's `G_IO_ERROR_FAILED_HANDLED`. -/
def G_IO_ERROR_FAILED_HANDLED : Nat := 30

/-- An `FmMimeType`; `type` is what `fm_mime_type_get_type` returns (`none` for `NULL`).
Mime types are interned, so pointer equality is equality of the record. -/
structure FmMimeType where
  type : Option String
deriving DecidableEq, Repr

/-- The interned mime type returned by `_fm_mime_type_get_inode_directory()`. -/
def inode_directory : FmMimeType := ⟨some "inode/directory"⟩

/-- An `FmPath` seen through `fm_path_to_str`, `fm_path_to_uri` and `fm_path_is_native`. -/
structure FmPath where
  str : String
  uri : String
  native : Bool
deriving DecidableEq, Repr

/-- An `FmFileInfo` seen through the accessors `fm_launch_files` uses. -/
structure FmFileInfo where
  path : FmPath
  disp_name : String
  mime_type : Option FmMimeType
  target : String
  is_dir : Bool
  is_desktop_entry : Bool
  is_shortcut : Bool
  is_executable_type : Bool
deriving DecidableEq, Repr

/-- A `GAppInfo`, identified by name. -/
structure GAppInfo where
  name : String
deriving DecidableEq, Repr

/-- The answers of the `exec_file` callback (`FmFileLauncherExecAction`). -/
inductive FmFileLauncherExecAction where
  | EXEC
  | EXEC_IN_TERMINAL
  | EXEC_OPEN
  | EXEC_CANCEL
deriving DecidableEq, Repr

/-- The externally visible calls made by the launcher, in program order. -/
inductive Effect where
  /-- Call of `fm_app_info_launch_uris(app, uris, ctx, &err)` with a list of strings. -/
  | launch_uris (app : GAppInfo) (uris : List String)
  /-- Call of `fm_app_info_launch_uris(app, fis, ctx, &err)` of line 172, whose list holds the file info. -/
  | launch_infos (app : GAppInfo) (fis : List FmFileInfo)
  /-- Call of `fm_app_info_launch(app, NULL, ctx, &err)`, with the working directory it runs in. -/
  | launch (app : GAppInfo) (cwd : String)
  /-- Call of `chdir(dir)` and whether it returned 0. -/
  | chdir (dir : String) (ok : Bool)
  /-- Call of `g_warning(msg)`. -/
  | warning (msg : String)
  /-- Call of `launcher->error(ctx, err, NULL, user_data)` with the callback registered. -/
  | error (err : GError)
  /-- Call of `launcher->error(...)` executed while `launcher->error` is `NULL`. -/
  | null_call
  /-- Call of `launcher->exec_file(fi, user_data)`. -/
  | exec_file (fi : FmFileInfo)
  /-- Call of `launcher->get_app(fis, mime_type, user_data, NULL)`. -/
  | get_app (fis : List FmFileInfo) (mime_type : Option FmMimeType)
  /-- Call of `launcher->open_folder(ctx, folders, user_data, &err)`. -/
  | open_folder (folders : List FmFileInfo)
deriving DecidableEq, Repr

/-- The `GHashTable` of `fm_launch_files`: content type to the list of file infos,
entries kept in the order in which their keys were first inserted. -/
abbrev Buckets := List (String × List FmFileInfo)

/-- The world outside the repository.  A launch returns `none` on success and
`some err` when it fails and sets `err` (the `GError` convention). -/
structure Env where
  path_is_absolute : String → Bool
  desktop_app_info_new_from_filename : String → Option GAppInfo
  desktop_app_info_new : String → Option GAppInfo
  app_info_launch_uris : GAppInfo → List String → Option GError
  app_info_launch_infos : GAppInfo → List FmFileInfo → Option GError
  /-- Result of `fm_app_info_launch(app, NULL, ...)` run in the given working directory. -/
  app_info_launch : GAppInfo → String → Option GError
  file_test_is_executable : String → Bool
  uri_parse_scheme : String → Option String
  default_for_uri_scheme : String → Option GAppInfo
  default_for_type : String → Option GAppInfo
  mime_type_from_file_name : String → FmMimeType
  shell_quote : String → String
  /-- Result of `fm_app_info_create_from_commandline(quoted, NULL, flags, NULL)`; the flag is
  `G_APP_INFO_CREATE_NEEDS_TERMINAL`. -/
  create_from_commandline : String → Bool → Option GAppInfo
  path_get_dirname : String → String
  /-- Result of `chdir(dir)`: `none` when it returns 0, otherwise the `errno`. -/
  chdir : String → Option Nat
  io_error_from_errno : Nat → Nat
  strerror : Nat → String
  /-- The order in which `g_hash_table_iter_next` yields the entries: unspecified by
  GLib, so any rearrangement of the entries. -/
  hash_iter : (es : Buckets) → { l : Buckets // l.Perm es }

/-- The callbacks of `FmFileLauncher`; `none` is a `NULL` pointer. -/
structure FmFileLauncher where
  get_app : Option (List FmFileInfo → Option FmMimeType → Option GAppInfo)
  open_folder : Option (List FmFileInfo → Option GError)
  exec_file : Option (FmFileInfo → FmFileLauncherExecAction)
  error : Option (GError → Option FmFileInfo → Bool)

/-! ## fm_launch_desktop_entry -/

/-- The function `fm_launch_desktop_entry`: the returned flag and the calls it makes. -/
def fm_launch_desktop_entry (env : Env) (launcher : FmFileLauncher)
    (file_or_id : String) (uris : List String) : Bool × List Effect :=
  let app :=
    if env.path_is_absolute file_or_id then env.desktop_app_info_new_from_filename file_or_id
    else env.desktop_app_info_new file_or_id
  match app with
  | some a =>
    match env.app_info_launch_uris a uris with
    | none => (true, [Effect.launch_uris a uris])
    | some err =>
      (false, Effect.launch_uris a uris ::
        (if launcher.error.isSome then [Effect.error err] else []))
  | none =>
    if launcher.error.isSome then
      (false, [Effect.error ⟨G_IO_ERROR, G_IO_ERROR_FAILED,
        "Invalid desktop entry file: '" ++ file_or_id ++ "'"⟩])
    else (false, [])

/-! ## fm_launch_files: the scan of the input list -/

/-- The mutable state of the `for` loop of `fm_launch_files`. -/
structure ScanState where
  /-- The hash table `hash`. -/
  hash : Buckets
  /-- The list `folders`, newest first (built with `g_list_prepend`). -/
  folders : List FmFileInfo
  /-- The working directory of the process. -/
  cwd : String
  /-- Set once a `NULL` function pointer has been called; nothing runs afterwards. -/
  crashed : Bool
deriving DecidableEq, Repr

/-- The function `g_hash_table_lookup`, `NULL` (the empty list) for an absent key. -/
def g_hash_table_lookup (hash : Buckets) (key : String) : List FmFileInfo :=
  match hash with
  | [] => []
  | (k, v) :: rest => if k = key then v else g_hash_table_lookup rest key

/-- The function `g_hash_table_insert`: replaces the value of an existing key, adds a new entry
otherwise. -/
def g_hash_table_insert (hash : Buckets) (key : String) (value : List FmFileInfo) : Buckets :=
  match hash with
  | [] => [(key, value)]
  | (k, v) :: rest =>
    if k = key then (k, value) :: rest else (k, v) :: g_hash_table_insert rest key value

/-- Lines 196-198 and 293-295: look the list up, prepend, store it back. -/
def bucket_prepend (hash : Buckets) (type : String) (fi : FmFileInfo) : Buckets :=
  g_hash_table_insert hash type (fi :: g_hash_table_lookup hash type)

/-- How the `_try_execute:` block is left. -/
inductive ExecFlow where
  /-- A `continue` of the loop, with the working directory the process is left in. -/
  | next (cwd : String)
  /-- A `break` out of the `switch` (or no `exec_file`): control reaches line 287. -/
  | fall_through
deriving DecidableEq, Repr

/-- The directory a process is in after a successful `chdir(dir)` made in `cwd0`: `dir`
itself when it is an absolute path, the path `dir` below `cwd0` when it is relative. -/
def chdir_target (env : Env) (cwd0 : String) (dir : String) : String :=
  if env.path_is_absolute dir then dir else cwd0 ++ "/" ++ dir

/-- Lines 232-277: `FM_FILE_LAUNCHER_EXEC` and `FM_FILE_LAUNCHER_EXEC_IN_TERMINAL`. -/
def run_executable (env : Env) (launcher : FmFileLauncher) (cwd0 : String)
    (filename : String) (needs_terminal : Bool) : ExecFlow × List Effect :=
  match env.create_from_commandline (env.shell_quote filename) needs_terminal with
  | none => (ExecFlow.fall_through, [])
  | some app =>
    let run_path := env.path_get_dirname filename
    -- `if(run_path && strcmp(run_path, "."))`: the saved `cwd`, where we are now, the calls
    let sw : Option String × String × List Effect :=
      if run_path ≠ "." then
        match env.chdir run_path with
        | none => (some cwd0, chdir_target env cwd0 run_path, [Effect.chdir run_path true])
        | some errno =>
          (none, cwd0, Effect.chdir run_path false ::
            (if launcher.error.isSome then
              [Effect.error ⟨G_IO_ERROR, env.io_error_from_errno errno,
                "Cannot set working directory to '" ++ run_path ++ "': " ++ env.strerror errno⟩]
             else []))
      else (none, cwd0, [])
    let l : List Effect :=
      Effect.launch app sw.2.1 ::
        (match env.app_info_launch app sw.2.1 with
         | none => []
         | some err => if launcher.error.isSome then [Effect.error err] else [])
    -- `if(cwd) /* return back */`
    let back : String × List Effect :=
      match sw.1 with
      | none => (sw.2.1, [])
      | some cwd =>
        match env.chdir cwd with
        | none => (cwd, [Effect.chdir cwd true])
        | some _ => (sw.2.1, [Effect.chdir cwd false,
                      Effect.warning "fm_launch_files(): chdir() failed"])
    (ExecFlow.next back.1, sw.2.2 ++ l ++ back.2)

/-- The block at the label `_try_execute:` (lines 219-285). -/
def try_execute (env : Env) (launcher : FmFileLauncher) (cwd0 : String)
    (fi : FmFileInfo) (filename : String) : ExecFlow × List Effect :=
  match launcher.exec_file with
  | none => (ExecFlow.fall_through, [])
  | some exec_file =>
    match exec_file fi with
    | FmFileLauncherExecAction.EXEC_IN_TERMINAL =>
      let r := run_executable env launcher cwd0 filename true
      (r.1, Effect.exec_file fi :: r.2)
    | FmFileLauncherExecAction.EXEC =>
      let r := run_executable env launcher cwd0 filename false
      (r.1, Effect.exec_file fi :: r.2)
    | FmFileLauncherExecAction.EXEC_OPEN => (ExecFlow.fall_through, [Effect.exec_file fi])
    | FmFileLauncherExecAction.EXEC_CANCEL => (ExecFlow.next cwd0, [Effect.exec_file fi])

/-- Lines 290-304: the bucket of the file info's own content type. -/
def typed_path (launcher : FmFileLauncher) (st : ScanState) (fi : FmFileInfo) :
    ScanState × List Effect :=
  match fi.mime_type.bind (fun m => m.type) with
  | some type => ({ st with hash := bucket_prepend st.hash type fi }, [])
  | none =>
    if launcher.error.isSome then
      (st, [Effect.error ⟨G_IO_ERROR, G_IO_ERROR_FAILED,
        "Could not determine content type of '" ++ fi.disp_name ++ "' to launch"⟩])
    else (st, [])

/-- The block `_try_execute:` followed, when it is left by `break`, by lines 287-304. -/
def execute_or_type (env : Env) (launcher : FmFileLauncher) (st : ScanState)
    (fi : FmFileInfo) (filename : String) : ScanState × List Effect :=
  match try_execute env launcher st.cwd fi filename with
  | (ExecFlow.next cwd, effs) => ({ st with cwd := cwd }, effs)
  | (ExecFlow.fall_through, effs) =>
    let r := typed_path launcher st fi
    (r.1, effs ++ r.2)

/-- The test of lines 161-165. -/
def scheme_is_internal (scheme : String) : Bool :=
  scheme == "file" || scheme == "trash" || scheme == "network" ||
  scheme == "computer" || scheme == "menu"

/-- Lines 168-186: a shortcut whose target has a scheme that is not handled internally. -/
def launch_scheme (env : Env) (launcher : FmFileLauncher) (st : ScanState)
    (fi : FmFileInfo) (scheme : String) : ScanState × List Effect :=
  let r : Option GError × List Effect :=
    match env.default_for_uri_scheme scheme with
    | some app => (env.app_info_launch_infos app [fi], [Effect.launch_infos app [fi]])
    | none =>
      if launcher.error.isSome then
        (some ⟨G_IO_ERROR, G_IO_ERROR_FAILED,
          "No default application is set to launch URIs " ++ scheme ++ "://"⟩, [])
      else (none, [])
  match r.1 with
  | none => (st, r.2)
  | some err =>
    -- `if (err) launcher->error(ctx, err, NULL, user_data);`
    if launcher.error.isSome then (st, r.2 ++ [Effect.error err])
    else ({ st with crashed := true }, r.2 ++ [Effect.null_call])

/-- Lines 190-209: a shortcut classified by the guessed content type of its target. -/
def shortcut_by_target (env : Env) (launcher : FmFileLauncher) (st : ScanState)
    (fi : FmFileInfo) : ScanState × List Effect :=
  let mime_type := env.mime_type_from_file_name fi.target
  if mime_type = inode_directory then ({ st with folders := fi :: st.folders }, [])
  else
    match mime_type.type with
    | some type => ({ st with hash := bucket_prepend st.hash type fi }, [])
    | none =>
      if launcher.error.isSome then
        (st, [Effect.error ⟨G_IO_ERROR, G_IO_ERROR_FAILED,
          "Could not determine content type of '" ++ fi.target ++ "' to launch"⟩])
      else (st, [])

/-- One iteration of the `for` loop of `fm_launch_files` (lines 126-305). -/
def handle (env : Env) (launcher : FmFileLauncher) (st : ScanState) (fi : FmFileInfo) :
    ScanState × List Effect :=
  if st.crashed then (st, [])
  else if launcher.open_folder.isSome && fi.is_dir then
    ({ st with folders := fi :: st.folders }, [])
  else if fi.is_desktop_entry then
    let filename := if fi.is_shortcut then fi.target else fi.path.str
    (st, (fm_launch_desktop_entry env launcher filename []).2)
  else if fi.path.native then
    if fi.is_shortcut then
      if env.file_test_is_executable fi.target then
        execute_or_type env launcher st fi fi.target
      else
        match env.uri_parse_scheme fi.target with
        | some scheme =>
          if scheme_is_internal scheme then shortcut_by_target env launcher st fi
          else launch_scheme env launcher st fi scheme
        | none => shortcut_by_target env launcher st fi
    else if fi.is_executable_type then
      if env.file_test_is_executable fi.path.str then
        execute_or_type env launcher st fi fi.path.str
      else typed_path launcher st fi
    else typed_path launcher st fi
  else typed_path launcher st fi

/-- The `for` loop of lines 124-306 over the input list. -/
def scan (env : Env) (launcher : FmFileLauncher) (st : ScanState) :
    List FmFileInfo → ScanState × List Effect
  | [] => (st, [])
  | fi :: rest =>
    let r := handle env launcher st fi
    let r2 := scan env launcher r.1 rest
    (r2.1, r.2 ++ r2.2)

/-! ## fm_launch_files: the buckets and the folders -/

/-- Lines 331-334: what a file info contributes to the list given to the handler. -/
def launch_id (fi : FmFileInfo) : String :=
  if fi.is_shortcut then fi.target else fi.path.uri

/-- Lines 315-323: the default handler of the type, else the handler picker. -/
def resolve_app (env : Env) (launcher : FmFileLauncher) (type : String)
    (fis : List FmFileInfo) : Option GAppInfo × List Effect :=
  match env.default_for_type type with
  | some app => (some app, [])
  | none =>
    match launcher.get_app with
    | some get_app =>
      -- `fm_file_info_get_mime_type((FmFileInfo*)fis->data)`
      let mime_type := fis.head?.bind (fun fi => fi.mime_type)
      (get_app fis mime_type, [Effect.get_app fis mime_type])
    | none => (none, [])

/-- One iteration of the `while` loop of lines 313-353: whether a `NULL` pointer was
called, and the calls made. -/
def launch_bucket (env : Env) (launcher : FmFileLauncher) (b : String × List FmFileInfo) :
    Bool × List Effect :=
  let r := resolve_app env launcher b.1 b.2
  let l : Option GError × List Effect :=
    match r.1 with
    | some app =>
      let uris := (b.2.map launch_id).reverse
      (env.app_info_launch_uris app uris, [Effect.launch_uris app uris])
    | none =>
      if launcher.error.isSome then
        (some ⟨G_IO_ERROR, G_IO_ERROR_FAILED,
          "No default application is set for MIME type " ++ b.1⟩, [])
      else (none, [])
  match l.1 with
  | none => (false, r.2 ++ l.2)
  | some err =>
    if launcher.error.isSome then (false, r.2 ++ l.2 ++ [Effect.error err])
    else (true, r.2 ++ l.2 ++ [Effect.null_call])

/-- The `while` loop of lines 313-353 over the entries in iteration order. -/
def launch_buckets (env : Env) (launcher : FmFileLauncher) :
    Buckets → Bool × List Effect
  | [] => (false, [])
  | b :: rest =>
    let r := launch_bucket env launcher b
    if r.1 then (true, r.2)
    else
      let r2 := launch_buckets env launcher rest
      (r2.1, r.2 ++ r2.2)

/-- Lines 357-372: the folder list is reversed and given to `open_folder`. -/
def open_folders (launcher : FmFileLauncher) (folders : List FmFileInfo) : List Effect :=
  if folders = [] then []
  else
    match launcher.open_folder with
    | some open_folder =>
      Effect.open_folder folders.reverse ::
        (match open_folder folders.reverse with
         | none => []
         | some err => if launcher.error.isSome then [Effect.error err] else [])
    | none => []

/-- What a call of `fm_launch_files` amounts to. -/
structure LaunchResult where
  /-- The returned `gboolean`; `none` when the process called a `NULL` pointer. -/
  ret : Option Bool
  /-- The calls made, in order. -/
  trace : List Effect
  /-- The working directory afterwards. -/
  cwd : String
deriving DecidableEq, Repr

/-- The function `fm_launch_files`, started in the working directory `cwd`. -/
def fm_launch_files (env : Env) (launcher : FmFileLauncher) (cwd : String)
    (file_infos : List FmFileInfo) : LaunchResult :=
  let s := scan env launcher ⟨[], [], cwd, false⟩ file_infos
  if s.1.crashed then ⟨none, s.2, s.1.cwd⟩
  else
    let b := launch_buckets env launcher (env.hash_iter s.1.hash).val
    if b.1 then ⟨none, s.2 ++ b.2, s.1.cwd⟩
    else ⟨some true, s.2 ++ b.2 ++ open_folders launcher s.1.folders, s.1.cwd⟩

/-! ## The progress display (fm-progress-dlg.c) -/

/-- The dialog response `RESPONSE_OVERWRITE` (line 43). -/
def RESPONSE_OVERWRITE : Int := 1

/-- The dialog response `RESPONSE_RENAME` (line 44). -/
def RESPONSE_RENAME : Int := 2

/-- The dialog response `RESPONSE_SKIP` (line 45). -/
def RESPONSE_SKIP : Int := 3

/-- Modelled from the spec: the header fm-file-ops-job.h is not among the sources;
`FM_FILE_OP_CANCEL` is 0. -/
def FM_FILE_OP_CANCEL : Int := 0

/-- Modelled from the spec: the header fm-file-ops-job.h is not among the sources;
`FM_FILE_OP_OVERWRITE` is 1. -/
def FM_FILE_OP_OVERWRITE : Int := 1

/-- Modelled from the spec: the header fm-file-ops-job.h is not among the sources;
`FM_FILE_OP_RENAME` is 2. -/
def FM_FILE_OP_RENAME : Int := 2

/-- Modelled from the spec: the header fm-file-ops-job.h is not among the sources;
`FM_FILE_OP_SKIP` is 4. -/
def FM_FILE_OP_SKIP : Int := 4

/-- The answers of an error handler (`FmJobErrorAction`). -/
inductive FmJobErrorAction where
  | FM_JOB_CONTINUE
  | FM_JOB_RETRY
  | FM_JOB_ABORT
deriving DecidableEq, Repr

/-- The fields of `struct _FmProgressDisplay` that the callbacks read or write
(the widgets are reduced to what is stored in them). -/
structure FmProgressDisplay where
  /-- Whether `data->dlg` is set. -/
  dlg : Bool
  default_opt : Int
  cur_file : Option String
  old_cur_file : Option String
  delay_timeout : Nat
  update_timeout : Nat
  /-- The `GTimer`, if created, and whether it is running. -/
  timer : Option Bool
  has_error : Bool
  /-- The pieces of text inserted into `error_buf`, in order. -/
  error_buf : List String
  /-- Whether `error_pane` is shown. -/
  error_pane_visible : Bool
deriving DecidableEq, Repr

/-- The function `on_show_dlg` (lines 432-559): builds the dialog unless the current main-loop
source is destroyed.  The argument is the answer of
`g_source_is_destroyed(g_main_current_source())`. -/
def on_show_dlg (data : FmProgressDisplay) (source_destroyed : Bool) : FmProgressDisplay :=
  if source_destroyed then data
  else { data with dlg := true, error_buf := [], error_pane_visible := false,
                   update_timeout := 1, delay_timeout := 0 }

/-- The function `ensure_dlg` (lines 561-570). -/
def ensure_dlg (data : FmProgressDisplay) (source_destroyed : Bool) : FmProgressDisplay :=
  let data1 := if data.delay_timeout ≠ 0 then { data with delay_timeout := 0 } else data
  if !data1.dlg then on_show_dlg data1 source_destroyed else data1

/-- The calls `g_timer_stop` and `g_timer_continue` under `if(data->timer)`. -/
def set_timer (data : FmProgressDisplay) (running : Bool) : FmProgressDisplay :=
  match data.timer with
  | some _ => { data with timer := some running }
  | none => data

/-- The function `on_percent` (lines 84-118): it only writes to widgets. -/
def on_percent (data : FmProgressDisplay) (_percent : Nat) : FmProgressDisplay := data

/-- The function `on_cur_file` (lines 120-127). -/
def on_cur_file (data : FmProgressDisplay) (cur_file : String) : FmProgressDisplay :=
  { data with cur_file := some cur_file }

/-- Lines 157-171 of `on_error`: the text added to the error log.  The buffer and the pane
exist only once the dialog has been built. -/
def log_error (data : FmProgressDisplay) (err : GError) : FmProgressDisplay :=
  if data.dlg then
    let name : List String :=
      match data.cur_file, data.old_cur_file with
      | some f, _ => [f, ": "]
      | none, some f => [f, ": "]
      | none, none => []
    { data with error_buf := data.error_buf ++ name ++ [err.message, "\n"],
                error_pane_visible := true }
  else data

/-- The function `on_error` (lines 129-176). -/
def on_error (data : FmProgressDisplay) (err : GError) (source_destroyed : Bool) :
    FmJobErrorAction × FmProgressDisplay :=
  if err.domain = G_IO_ERROR ∧ err.code = G_IO_ERROR_CANCELLED then
    (FmJobErrorAction.FM_JOB_ABORT, data)
  else if err.domain = G_IO_ERROR ∧ err.code = G_IO_ERROR_FAILED_HANDLED then
    (FmJobErrorAction.FM_JOB_CONTINUE, data)
  else
    let d1 := set_timer data false
    let d2 := { d1 with has_error := true }
    let d3 := ensure_dlg d2 source_destroyed
    let d4 := log_error d3 err
    (FmJobErrorAction.FM_JOB_CONTINUE, set_timer d4 true)

/-- The function `fm_askv` of fm-gtk-utils.c (lines 72-94); `response` is what
`gtk_dialog_run` returns.  The statement `ret == -1;` of line 91 assigns nothing. -/
def fm_askv (_options : List String) (response : Int) : Int :=
  if response ≥ 1 then response - 1 else response

/-- The function `on_ask` (lines 178-182).  Line 181 calls an `fm_askv` with four
arguments (parent, title, question, options); the `fm_askv` of fm-gtk-utils.c takes
three, so the function called is not among the sources: `ret` is the value that call
returns, and `on_ask` hands it back as it is. -/
def on_ask (data : FmProgressDisplay) (_options : List String) (ret : Int)
    (source_destroyed : Bool) : Int × FmProgressDisplay :=
  (ret, ensure_dlg data source_destroyed)

/-- What the user does with the ask-rename dialog when it is run. -/
structure AskRenameDialog where
  /-- The value returned by `gtk_dialog_run`. -/
  response : Int
  /-- The state of the `apply_all` toggle. -/
  apply_all : Bool
  /-- The text of the `filename` entry. -/
  filename : String
deriving DecidableEq, Repr

/-- What a call of `on_ask_rename` amounts to. -/
structure AskRenameResult where
  /-- The returned `gint`. -/
  res : Int
  /-- The value stored into `*new_name`, if any. -/
  new_name : Option String
  /-- Whether `gtk_dialog_run` was called. -/
  dialog_run : Bool
  data : FmProgressDisplay
deriving DecidableEq, Repr

/-- The `switch(res)` of lines 283-297 of `on_ask_rename`. -/
def rename_verdict (response : Int) : Int :=
  if response = RESPONSE_RENAME then FM_FILE_OP_RENAME
  else if response = RESPONSE_OVERWRITE then FM_FILE_OP_OVERWRITE
  else if response = RESPONSE_SKIP then FM_FILE_OP_SKIP
  else FM_FILE_OP_CANCEL

/-- Lines 299-303 of `on_ask_rename`: the verdict is cached under "apply to all". -/
def cache_verdict (data : FmProgressDisplay) (apply_all : Bool) (res : Int) :
    FmProgressDisplay :=
  if apply_all then
    if res = RESPONSE_OVERWRITE ∨ res = FM_FILE_OP_SKIP then { data with default_opt := res }
    else data
  else data

/-- The function `on_ask_rename` (lines 197-311). -/
def on_ask_rename (data : FmProgressDisplay) (ui : AskRenameDialog) (source_destroyed : Bool) :
    AskRenameResult :=
  if data.default_opt ≠ 0 then ⟨data.default_opt, none, false, data⟩
  else
    let d1 := ensure_dlg (set_timer data false) source_destroyed
    let res := rename_verdict ui.response
    let new_name := if ui.response = RESPONSE_RENAME then some ui.filename else none
    let d2 := cache_verdict d1 ui.apply_all res
    ⟨res, new_name, true, set_timer d2 true⟩

/-- The function `on_prepared` (lines 572-575): `g_timer_new` returns a running timer. -/
def on_prepared (data : FmProgressDisplay) : FmProgressDisplay :=
  { data with timer := some true }

/-- The function `on_cancelled` (lines 384-387). -/
def on_cancelled (data : FmProgressDisplay) : FmProgressDisplay := data

/-- The function `on_finished` (lines 313-382), as far as the display goes: `none` when the
display has been destroyed by `fm_progress_display_destroy`. -/
def on_finished (data : FmProgressDisplay) : Option FmProgressDisplay :=
  if data.dlg then
    if data.has_error then some data else none
  else none

/-- The function `on_update_dlg` (lines 405-420), the 500 ms timeout. -/
def on_update_dlg (data : FmProgressDisplay) (source_destroyed : Bool) : FmProgressDisplay :=
  match source_destroyed, data.cur_file with
  | false, some f => { data with old_cur_file := some f, cur_file := none }
  | _, _ => data

/-- The function `fm_file_ops_job_run_with_progress` (lines 594-622): the display is allocated
with `g_slice_new0`; `none` when `fm_job_run_async` fails.  `delay_id` is the source
id returned by `g_timeout_add`. -/
def fm_file_ops_job_run_with_progress (delay_id : Nat) (run_async_ok : Bool) :
    Option FmProgressDisplay :=
  let data : FmProgressDisplay :=
    { dlg := false, default_opt := 0, cur_file := none, old_cur_file := none,
      delay_timeout := delay_id, update_timeout := 0, timer := none, has_error := false,
      error_buf := [], error_pane_visible := false }
  if run_async_ok then some data else none

/-- GTK's `GTK_RESPONSE_DELETE_EVENT`. -/
def GTK_RESPONSE_DELETE_EVENT : Int := -4

/-- GTK's `GTK_RESPONSE_CANCEL`. -/
def GTK_RESPONSE_CANCEL : Int := -6

/-- GTK's `GTK_RESPONSE_CLOSE`. -/
def GTK_RESPONSE_CLOSE : Int := -7

/-- The function `on_response` (lines 389-403), as far as the display goes (`data->job` is
set from creation on): `none` when the display has been destroyed. -/
def on_response (data : FmProgressDisplay) (id : Int) : Option FmProgressDisplay :=
  if id = GTK_RESPONSE_CANCEL ∨ id = GTK_RESPONSE_DELETE_EVENT then
    if id ≠ GTK_RESPONSE_CANCEL then none else some data
  else if id = GTK_RESPONSE_CLOSE then none
  else some data

/-- The function `on_progress_dialog_destroy` (lines 422-430): the display is destroyed. -/
def on_progress_dialog_destroy (_data : FmProgressDisplay) : Option FmProgressDisplay := none

/-- The callbacks that can run on a display: the eight signal handlers connected in
lines 606-613, the timeouts `on_show_dlg` and `on_update_dlg`, and the handlers
`on_response` and `on_progress_dialog_destroy` of the dialog. -/
inductive Callback where
  | percent (percent : Nat)
  | cur_file (cur_file : String)
  | error (err : GError) (source_destroyed : Bool)
  | ask (options : List String) (ret : Int) (source_destroyed : Bool)
  | ask_rename (ui : AskRenameDialog) (source_destroyed : Bool)
  | prepared
  | finished
  | cancelled
  | show_dlg (source_destroyed : Bool)
  | update_dlg (source_destroyed : Bool)
  | response (id : Int)
  | dialog_destroyed
deriving DecidableEq, Repr

/-- What a callback hands back to its caller. -/
inductive Reply where
  | nothing
  | error_action (action : FmJobErrorAction)
  | ask (ret : Int)
  | ask_rename (res : Int) (new_name : Option String) (dialog_run : Bool)
deriving DecidableEq, Repr

/-- Runs one callback on a display: its reply and the display afterwards (`none` once
destroyed). -/
def deliver (data : FmProgressDisplay) : Callback → Reply × Option FmProgressDisplay
  | Callback.percent p => (Reply.nothing, some (on_percent data p))
  | Callback.cur_file f => (Reply.nothing, some (on_cur_file data f))
  | Callback.error err sd =>
    let r := on_error data err sd
    (Reply.error_action r.1, some r.2)
  | Callback.ask options ret sd =>
    let r := on_ask data options ret sd
    (Reply.ask r.1, some r.2)
  | Callback.ask_rename ui sd =>
    let r := on_ask_rename data ui sd
    (Reply.ask_rename r.res r.new_name r.dialog_run, some r.data)
  | Callback.prepared => (Reply.nothing, some (on_prepared data))
  | Callback.finished => (Reply.nothing, on_finished data)
  | Callback.cancelled => (Reply.nothing, some (on_cancelled data))
  | Callback.show_dlg sd => (Reply.nothing, some (on_show_dlg data sd))
  | Callback.update_dlg sd => (Reply.nothing, some (on_update_dlg data sd))
  | Callback.response id => (Reply.nothing, on_response data id)
  | Callback.dialog_destroyed => (Reply.nothing, on_progress_dialog_destroy data)

/-- Runs a sequence of callbacks on a display; for each one that runs, its reply and the
display after it.  Nothing runs once the display is destroyed (its handlers are
disconnected in lines 626-636). -/
def deliver_all (data : FmProgressDisplay) : List Callback → List (Reply × Option FmProgressDisplay)
  | [] => []
  | c :: rest =>
    let r := deliver data c
    match r.2 with
    | some d => r :: deliver_all d rest
    | none => [r]

/-- The display after a sequence of callbacks has run on it; `none` once destroyed. -/
def display_after (data : FmProgressDisplay) : List Callback → Option FmProgressDisplay
  | [] => some data
  | c :: rest =>
    match (deliver data c).2 with
    | some d => display_after d rest
    | none => none

/-- A display on which errors have been logged (sample data). -/
def sample_display : FmProgressDisplay :=
  { dlg := true, default_opt := 0, cur_file := some "a.txt", old_cur_file := none,
    delay_timeout := 0, update_timeout := 1, timer := some true, has_error := false,
    error_buf := [], error_pane_visible := false }

/-! ## Vocabulary of the properties -/

/-- The file name with which an iteration of the loop arrives at `_try_execute:`, when it
does: the target of a native shortcut with an executable target (lines 150-156), or the
path of a native file of an executable type that is executable (lines 211-218). -/
def exec_filename (env : Env) (launcher : FmFileLauncher) (fi : FmFileInfo) : Option String :=
  if (launcher.open_folder.isSome && fi.is_dir) || fi.is_desktop_entry || !fi.path.native then
    none
  else if fi.is_shortcut then
    if env.file_test_is_executable fi.target then some fi.target else none
  else if fi.is_executable_type && env.file_test_is_executable fi.path.str then
    some fi.path.str
  else none

/-- Whether an effect is a call of the registered error callback. -/
def is_error_call : Effect → Bool
  | Effect.error _ => true
  | _ => false

/-- Whether an effect is a call of `open_folder`. -/
def is_open_folder_call : Effect → Bool
  | Effect.open_folder _ => true
  | _ => false

/-- Whether an effect is a launch of a handler with a list of identifiers. -/
def is_launch_uris : Effect → Bool
  | Effect.launch_uris _ _ => true
  | _ => false

/-- The refs that the loop puts on the folder list when a folder opener is registered:
every directory (line 130), and every native shortcut that is no desktop entry, whose
target is not executable, has no scheme other than the five internal ones, and has
`inode/directory` as the guessed content type of its target (lines 147-193). -/
def folder_ref (env : Env) (fi : FmFileInfo) : Bool :=
  fi.is_dir ||
  (!fi.is_desktop_entry && fi.path.native && fi.is_shortcut &&
    !env.file_test_is_executable fi.target &&
    (match env.uri_parse_scheme fi.target with
     | some scheme => scheme_is_internal scheme
     | none => true) &&
    decide (env.mime_type_from_file_name fi.target = inode_directory))

/-- Whether the block `_try_execute:` is left by `break` (or skipped because no `exec_file`
is registered), so that the ref goes on to lines 287-304: the callback answers
`FM_FILE_LAUNCHER_EXEC_OPEN`, or it answers Run or Run-in-terminal and the command-line
application cannot be created. -/
def falls_through (env : Env) (launcher : FmFileLauncher) (fi : FmFileInfo)
    (filename : String) : Bool :=
  match launcher.exec_file with
  | none => true
  | some exec_file =>
    match exec_file fi with
    | FmFileLauncherExecAction.EXEC_IN_TERMINAL =>
      (env.create_from_commandline (env.shell_quote filename) true).isNone
    | FmFileLauncherExecAction.EXEC =>
      (env.create_from_commandline (env.shell_quote filename) false).isNone
    | FmFileLauncherExecAction.EXEC_OPEN => true
    | FmFileLauncherExecAction.EXEC_CANCEL => false

/-- The content type under which a ref is put into a bucket by lines 290-296, if it is:
the ref is not grouped as a directory, is no desktop entry, is not a native shortcut
handled by lines 157-209, is not run directly and not cancelled, and its content type
is known. -/
def typed_key (env : Env) (launcher : FmFileLauncher) (fi : FmFileInfo) : Option String :=
  if (launcher.open_folder.isSome && fi.is_dir) || fi.is_desktop_entry then none
  else if fi.path.native && fi.is_shortcut && !env.file_test_is_executable fi.target then none
  else
    match exec_filename env launcher fi with
    | some filename =>
      if falls_through env launcher fi filename then fi.mime_type.bind (fun m => m.type)
      else none
    | none => fi.mime_type.bind (fun m => m.type)

/-- The table obtained by putting the refs of a list into their buckets one after the
other (`key` gives the bucket of a ref, `none` for a ref that joins none). -/
def group (key : FmFileInfo → Option String) : Buckets → List FmFileInfo → Buckets
  | h, [] => h
  | h, fi :: rest =>
    match key fi with
    | some t => group key (bucket_prepend h t fi) rest
    | none => group key h rest


/-! ## Sample data -/

/-- The error set by a launch that fails in the sample environments. -/
def spawn_failed : GError := ⟨G_IO_ERROR, G_IO_ERROR_FAILED, "Failed to execute child process"⟩

/-- A sample environment: `text/plain` and `image/png` have default handlers,
`/bin/run.sh` is executable, `/gone` cannot be entered, the handler of `mailto` fails. -/
def sample_env : Env where
  path_is_absolute := fun s => s.data.head? = some '/'
  desktop_app_info_new_from_filename :=
    fun s => if s = "/usr/share/applications/calc.desktop" then some ⟨"calc"⟩ else none
  desktop_app_info_new := fun _ => none
  app_info_launch_uris := fun a _ => if a.name = "broken" then some spawn_failed else none
  app_info_launch_infos := fun a _ => if a.name = "mailer" then some spawn_failed else none
  app_info_launch := fun a _ => if a.name = "'/bin/fail.sh'" then some spawn_failed else none
  file_test_is_executable := fun s => s = "/bin/run.sh" || s = "/bin/fail.sh"
  uri_parse_scheme := fun s => if s = "mailto:someone@example.org" then some "mailto" else none
  default_for_uri_scheme := fun s => if s = "mailto" then some ⟨"mailer"⟩ else none
  default_for_type := fun t =>
    if t = "text/plain" then some ⟨"editor"⟩
    else if t = "image/png" then some ⟨"viewer"⟩
    else if t = "audio/mpeg" then some ⟨"broken"⟩
    else none
  mime_type_from_file_name := fun s =>
    if s = "/home/user/music/" then inode_directory
    else if s = "/home/user/notes.xyz" then ⟨some "application/x-xyz"⟩
    else ⟨some "text/plain"⟩
  shell_quote := fun s => "'" ++ s ++ "'"
  create_from_commandline := fun s _ => some ⟨s⟩
  path_get_dirname := fun s => if s = "/bin/run.sh" ∨ s = "/bin/fail.sh" then "/bin" else "."
  chdir := fun d => if d = "/gone" then some 2 else none
  io_error_from_errno := fun _ => 1
  strerror := fun _ => "No such file or directory"
  hash_iter := fun es => ⟨es, List.Perm.refl es⟩

/-- The sample environment with every handler launch failing. -/
def failing_env : Env :=
  { sample_env with app_info_launch_uris := fun _ _ => some spawn_failed }

/-- A launcher without any callback. -/
def bare_launcher : FmFileLauncher := ⟨none, none, none, none⟩

/-- A launcher with an error callback only. -/
def error_launcher : FmFileLauncher := ⟨none, none, none, some (fun _ _ => true)⟩

/-- A launcher whose `exec_file` answers with a fixed action, with an error callback. -/
def exec_launcher (act : FmFileLauncherExecAction) : FmFileLauncher :=
  ⟨none, none, some (fun _ => act), some (fun _ _ => true)⟩

/-- A launcher with a folder opener and an error callback. -/
def folder_launcher : FmFileLauncher := ⟨none, some (fun _ => none), none, some (fun _ _ => true)⟩

/-- A launcher with a handler picker that offers nothing, and an error callback. -/
def picker_launcher : FmFileLauncher :=
  ⟨some (fun _ _ => none), none, none, some (fun _ _ => true)⟩

/-- A plain native file of the given name and content type. -/
def plain_file (name : String) (type : String) : FmFileInfo :=
  { path := ⟨"/home/user/" ++ name, "file:///home/user/" ++ name, true⟩,
    disp_name := name, mime_type := some ⟨some type⟩, target := "",
    is_dir := false, is_desktop_entry := false, is_shortcut := false,
    is_executable_type := false }

/-- A native shortcut file of the given name pointing to the given target. -/
def shortcut_file (name : String) (target : String) : FmFileInfo :=
  { plain_file name "inode/x-shortcut" with target := target, is_shortcut := true }

/-- The executable script `/bin/run.sh`. -/
def run_sh : FmFileInfo :=
  { path := ⟨"/bin/run.sh", "file:///bin/run.sh", true⟩,
    disp_name := "run.sh", mime_type := some ⟨some "application/x-shellscript"⟩, target := "",
    is_dir := false, is_desktop_entry := false, is_shortcut := false,
    is_executable_type := true }

/-- A desktop entry file. -/
def calc_desktop : FmFileInfo :=
  { path := ⟨"/usr/share/applications/calc.desktop",
             "file:///usr/share/applications/calc.desktop", true⟩,
    disp_name := "Calculator", mime_type := some ⟨some "application/x-desktop"⟩, target := "",
    is_dir := false, is_desktop_entry := true, is_shortcut := false,
    is_executable_type := false }

/-- A directory. -/
def music_dir : FmFileInfo :=
  { path := ⟨"/home/user/music", "file:///home/user/music", true⟩,
    disp_name := "music", mime_type := some inode_directory, target := "",
    is_dir := true, is_desktop_entry := false, is_shortcut := false,
    is_executable_type := false }

/-- A desktop file of `Type=Link` whose URL is a directory: a desktop entry and a shortcut. -/
def link_desktop : FmFileInfo :=
  { path := ⟨"/home/user/Desktop/music.desktop", "file:///home/user/Desktop/music.desktop", true⟩,
    disp_name := "Music", mime_type := some ⟨some "application/x-desktop"⟩,
    target := "/home/user/music/",
    is_dir := false, is_desktop_entry := true, is_shortcut := true,
    is_executable_type := false }

/-! ## Vocabulary of the properties (continued) -/

/-- Lines 70-73 of `fm_launch_desktop_entry`: the application a desktop entry resolves to,
by file name when `file_or_id` is an absolute path and by id otherwise. -/
def desktop_entry_app (env : Env) (file_or_id : String) : Option GAppInfo :=
  if env.path_is_absolute file_or_id then env.desktop_app_info_new_from_filename file_or_id
  else env.desktop_app_info_new file_or_id

/-- Whether an effect is a call of `launcher->error` made while it is `NULL`. -/
def is_null_call : Effect → Bool
  | Effect.null_call => true
  | _ => false

/-- Whether an effect belongs to the executable decision: the call of `exec_file` or the
direct launch of the command-line application. -/
def is_exec_decision : Effect → Bool
  | Effect.exec_file _ => true
  | Effect.launch _ _ => true
  | _ => false

/-- Whether an effect is a `chdir` call. -/
def is_chdir : Effect → Bool
  | Effect.chdir _ _ => true
  | _ => false

/-- Whether the iteration of the loop on a ref arrives at line 290: the ref is not grouped
as a directory, is no desktop entry, is not a native shortcut handled by lines 157-209,
and is neither run directly nor cancelled. -/
def reaches_typed_path (env : Env) (launcher : FmFileLauncher) (fi : FmFileInfo) : Bool :=
  if (launcher.open_folder.isSome && fi.is_dir) || fi.is_desktop_entry then false
  else if fi.path.native && fi.is_shortcut && !env.file_test_is_executable fi.target then false
  else
    match exec_filename env launcher fi with
    | some filename => falls_through env launcher fi filename
    | none => true

/-- Whether the iteration of the loop on a ref arrives at line 191, where a shortcut is
classified by the guessed content type of its target. -/
def reaches_target_type (env : Env) (launcher : FmFileLauncher) (fi : FmFileInfo) : Bool :=
  !(launcher.open_folder.isSome && fi.is_dir) && !fi.is_desktop_entry && fi.path.native &&
  fi.is_shortcut && !env.file_test_is_executable fi.target &&
  (match env.uri_parse_scheme fi.target with
   | some scheme => scheme_is_internal scheme
   | none => true)

/-- A ref on one of the two typed paths whose content type cannot be determined: its own
type at line 291, or the guessed type of its target at line 194. -/
def type_undetermined (env : Env) (launcher : FmFileLauncher) (fi : FmFileInfo) : Bool :=
  (reaches_typed_path env launcher fi && (fi.mime_type.bind (fun m => m.type)).isNone) ||
  (reaches_target_type env launcher fi && (env.mime_type_from_file_name fi.target).type.isNone)

/-- The sample environment with an executable script in `/gone`, a directory that cannot
be entered, and an executable `run.sh` in the working directory. -/
def gone_env : Env :=
  { sample_env with
    file_test_is_executable := fun s => s = "/gone/tool.sh" || s = "run.sh"
    path_get_dirname := fun s => if s = "/gone/tool.sh" then "/gone" else "." }

/-- The executable script `/gone/tool.sh`. -/
def gone_tool : FmFileInfo :=
  { path := ⟨"/gone/tool.sh", "file:///gone/tool.sh", true⟩,
    disp_name := "tool.sh", mime_type := some ⟨some "application/x-shellscript"⟩, target := "",
    is_dir := false, is_desktop_entry := false, is_shortcut := false,
    is_executable_type := true }

/-- The sample environment knowing the schemes `smb` and `gopher`, both without handler,
and a file name whose content type cannot be guessed. -/
def scheme_env : Env :=
  { sample_env with
    uri_parse_scheme := fun s =>
      if s = "smb://server/share" then some "smb"
      else if s = "gopher://example.org/" then some "gopher"
      else none
    default_for_uri_scheme := fun _ => none
    mime_type_from_file_name := fun s =>
      if s = "/home/user/unknown" then ⟨none⟩ else ⟨some "text/plain"⟩ }

/-- A native file whose content type is unknown. -/
def untyped_file : FmFileInfo :=
  { plain_file "blob" "" with mime_type := none }

/-- A native shortcut to a network share, flagged as a directory. -/
def share_shortcut : FmFileInfo :=
  { shortcut_file "share.lnk" "smb://server/share" with is_dir := true }

/-- What the run of the file-info job hands back to `fm_launch_paths`.  The job itself
(fm-file-info-job.c, fm-job.c) is not among the sources and is taken as an oracle. -/
structure QueryOutcome where
  /-- The value returned by `fm_job_run_sync_with_mainloop`. -/
  ret : Bool
  /-- The list `job->file_infos` after the run. -/
  file_infos : List FmFileInfo
  /-- The errors the job raised while it ran, in order, each with the file info that
  `fm_file_info_job_get_current` gave at that time. -/
  raised : List (GError × Option FmFileInfo)
deriving DecidableEq, Repr

/-- The file-info job as `fm_launch_paths` uses it: the paths added to it and the handler
connected to its "error" signal give the outcome of the run. -/
abbrev FileInfoJob :=
  List FmPath → (GError → Option FmFileInfo → FmJobErrorAction) → QueryOutcome

/-- The function `on_query_target_info_error` (lines 383-391): the answer given to the
job, and the calls of `launcher->error` made (error and current file info). -/
def on_query_target_info_error (launcher : FmFileLauncher) (err : GError)
    (current : Option FmFileInfo) : FmJobErrorAction × List (GError × Option FmFileInfo) :=
  match launcher.error with
  | some error =>
    if !error err current then (FmJobErrorAction.FM_JOB_RETRY, [(err, current)])
    else (FmJobErrorAction.FM_JOB_CONTINUE, [(err, current)])
  | none => (FmJobErrorAction.FM_JOB_CONTINUE, [])

/-- What a call of `fm_launch_paths` amounts to. -/
structure PathsResult where
  /-- The returned `gboolean`; `none` when the process called a `NULL` pointer. -/
  ret : Option Bool
  /-- The calls of `launcher->error` made by the error handler of the query. -/
  error_calls : List (GError × Option FmFileInfo)
  /-- The call of `fm_launch_files`, when it is made. -/
  launch : Option LaunchResult
deriving DecidableEq, Repr

/-- The function `fm_launch_paths` (lines 406-430). -/
def fm_launch_paths (env : Env) (job : FileInfoJob) (launcher : FmFileLauncher)
    (cwd : String) (paths : List FmPath) : PathsResult :=
  let q := job paths (fun err current => (on_query_target_info_error launcher err current).1)
  let calls := q.raised.flatMap
    (fun r => (on_query_target_info_error launcher r.1 r.2).2)
  if q.ret then
    if q.file_infos ≠ [] then
      let r := fm_launch_files env launcher cwd q.file_infos
      ⟨r.ret, calls, some r⟩
    else ⟨some false, calls, none⟩
  else ⟨some false, calls, none⟩

/-- A file-info job that succeeds for every path and gives, for each path added, the plain
shortcut to a `mailto:` address at that path (sample data). -/
def mail_job : FileInfoJob :=
  fun paths _ =>
    ⟨true, paths.map (fun p =>
      { shortcut_file "mail.lnk" "mailto:someone@example.org" with path := p }), []⟩

/-! ## The job behind a progress display -/

/-- Modelled from the spec: the run states of a Job (section 4.4, "Pending, Preparing,
Running, then Succeeded, Failed or Cancelled").  The job engine (fm-job.c,
fm-file-ops-job.c) is not among the sources. -/
inductive JobState where
  | Pending
  | Preparing
  | Running
  | Succeeded
  | Failed
  | Cancelled
deriving DecidableEq, Repr

/-- A job together with the progress display attached to it by
`fm_file_ops_job_run_with_progress`; `display` is `none` once
`fm_progress_display_destroy` has disconnected the handlers. -/
structure JobSystem where
  state : JobState
  /-- Set by `fm_job_cancel`. -/
  cancel_requested : Bool
  display : Option FmProgressDisplay
deriving DecidableEq, Repr

/-- Modelled from the spec: what happens to a running job (sections 4.4 and 5): the job is
stepped, an item is named, progresses, fails, asks or collides, the owner requests
cancellation, the item in flight completes, the last item has completed.  The last four
are what happens to the dialog of the display: a response, its destruction, and the two
timeouts. -/
inductive JobEvent where
  | step
  | current_item (name : String)
  | percent (percent : Nat)
  | item_error (err : GError) (fatal : Bool) (source_destroyed : Bool)
  | ask (options : List String) (ret : Int) (source_destroyed : Bool)
  | conflict (ui : AskRenameDialog) (source_destroyed : Bool)
  | cancel
  | item_done
  | all_done
  | dialog_response (id : Int)
  | dialog_destroyed
  | show_timeout (source_destroyed : Bool)
  | update_timeout (source_destroyed : Bool)
deriving DecidableEq, Repr

/-- A signal of the job reaches the handler connected in lines 606-613 as long as the
display is attached: the display afterwards, the reply, and the callback delivered. -/
def notify (sys : JobSystem) (c : Callback) : JobSystem × Option Reply × List Callback :=
  match sys.display with
  | some d => ({ sys with display := (deliver d c).2 }, some (deliver d c).1, [c])
  | none => (sys, none, [])

/-- Modelled from the spec: the terminal notification (section 4.4): "finished", preceded
by "cancelled" for a cancelled job; the job is then in its terminal state. -/
def job_finish (sys : JobSystem) (final : JobState) : JobSystem × List Callback :=
  let s1 := if final = JobState.Cancelled then notify sys Callback.cancelled else (sys, none, [])
  let s2 := notify s1.1 Callback.finished
  ({ s2.1 with state := final }, s1.2.2 ++ s2.2.2)

/-- Modelled from the spec: the cancellation request `fm_job_cancel` (section 4.4, "may be
requested at any point while in Preparing or Running"); the job engine is not among the
sources. -/
def job_cancel (sys : JobSystem) : JobSystem :=
  if sys.state = JobState.Preparing ∨ sys.state = JobState.Running then
    { sys with cancel_requested := true }
  else sys

/-- The function `fm_progress_display_destroy` (lines 624-664) in the system: the job is
cancelled and the handlers are disconnected. -/
def display_destroy (sys : JobSystem) : JobSystem :=
  { job_cancel sys with display := none }

/-- Modelled from the spec: one event of a job with its display (sections 4.4, 5 and 7), and
the callbacks of lines 606-613 delivered to the display in consequence.  A terminal job
emits nothing; an error verdict Abort, or a conflict verdict Cancel, requests
cancellation; a fatal error ends the job as Failed; a cancellation takes effect when the
item in flight completes.  The events of the dialog follow `on_response` (lines 389-403)
and `on_progress_dialog_destroy` (lines 422-430). -/
def job_step (sys : JobSystem) (ev : JobEvent) : JobSystem × List Callback :=
  match ev with
  | JobEvent.step =>
    if sys.state = JobState.Pending then
      let n := notify sys Callback.prepared
      ({ n.1 with state := JobState.Preparing }, n.2.2)
    else if sys.state = JobState.Preparing then ({ sys with state := JobState.Running }, [])
    else (sys, [])
  | JobEvent.current_item name =>
    if sys.state = JobState.Running then
      let n := notify sys (Callback.cur_file name)
      (n.1, n.2.2)
    else (sys, [])
  | JobEvent.percent p =>
    if sys.state = JobState.Running then
      let n := notify sys (Callback.percent p)
      (n.1, n.2.2)
    else (sys, [])
  | JobEvent.item_error err fatal sd =>
    if sys.state = JobState.Running then
      let n := notify sys (Callback.error err sd)
      if fatal then
        let f := job_finish n.1 JobState.Failed
        (f.1, n.2.2 ++ f.2)
      else if n.2.1 = some (Reply.error_action FmJobErrorAction.FM_JOB_ABORT) then
        (job_cancel n.1, n.2.2)
      else (n.1, n.2.2)
    else (sys, [])
  | JobEvent.ask options response sd =>
    if sys.state = JobState.Running then
      let n := notify sys (Callback.ask options response sd)
      (n.1, n.2.2)
    else (sys, [])
  | JobEvent.conflict ui sd =>
    if sys.state = JobState.Running then
      let n := notify sys (Callback.ask_rename ui sd)
      match n.2.1 with
      | some (Reply.ask_rename res _ _) =>
        if res = FM_FILE_OP_CANCEL then (job_cancel n.1, n.2.2) else (n.1, n.2.2)
      | _ => (n.1, n.2.2)
    else (sys, [])
  | JobEvent.cancel => (job_cancel sys, [])
  | JobEvent.item_done =>
    if sys.state = JobState.Running ∧ sys.cancel_requested = true then
      job_finish sys JobState.Cancelled
    else (sys, [])
  | JobEvent.all_done =>
    if sys.state = JobState.Running then
      if sys.cancel_requested then job_finish sys JobState.Cancelled
      else job_finish sys JobState.Succeeded
    else (sys, [])
  | JobEvent.dialog_response id =>
    match sys.display with
    | some d =>
      if d.dlg then
        if id = GTK_RESPONSE_CANCEL ∨ id = GTK_RESPONSE_DELETE_EVENT then
          if id ≠ GTK_RESPONSE_CANCEL then (display_destroy sys, [])
          else (job_cancel sys, [])
        else if id = GTK_RESPONSE_CLOSE then (display_destroy sys, [])
        else (sys, [])
      else (sys, [])
    | none => (sys, [])
  | JobEvent.dialog_destroyed =>
    match sys.display with
    | some d => if d.dlg then (display_destroy sys, []) else (sys, [])
    | none => (sys, [])
  | JobEvent.show_timeout sd =>
    match sys.display with
    | some d => ({ sys with display := some (on_show_dlg d sd) }, [])
    | none => (sys, [])
  | JobEvent.update_timeout sd =>
    match sys.display with
    | some d => ({ sys with display := some (on_update_dlg d sd) }, [])
    | none => (sys, [])

/-- A run of a job with its display: the system afterwards and the callbacks delivered to
the display, in order. -/
def job_run (sys : JobSystem) : List JobEvent → JobSystem × List Callback
  | [] => (sys, [])
  | ev :: rest =>
    let r := job_step sys ev
    let r2 := job_run r.1 rest
    (r2.1, r.2 ++ r2.2)

/-- The `while` loop of lines 80-86 of `fm_askv`: every option becomes a button of the
dialog, with the response ids counted upwards from `id`. -/
def add_buttons : Int → List String → List (String × Int)
  | _, [] => []
  | id, option :: rest => (option, id) :: add_buttons (id + 1) rest

/-- The buttons of the dialog of `fm_askv`, each with its response id (`guint id = 1`). -/
def fm_askv_buttons (options : List String) : List (String × Int) :=
  add_buttons 1 options

/-- GTK's `GTK_RESPONSE_NONE`, returned by `gtk_dialog_run` when the dialog is destroyed
while it runs. -/
def GTK_RESPONSE_NONE : Int := -1

/-! ## Sample data (continued) -/

/-- The executable script `/bin/fail.sh`, whose launch fails in the sample environment. -/
def fail_sh : FmFileInfo :=
  { path := ⟨"/bin/fail.sh", "file:///bin/fail.sh", true⟩,
    disp_name := "fail.sh", mime_type := some ⟨some "application/x-shellscript"⟩, target := "",
    is_dir := false, is_desktop_entry := false, is_shortcut := false,
    is_executable_type := true }

/-- A launcher whose `exec_file` answers `FM_FILE_LAUNCHER_EXEC`, without error callback. -/
def run_launcher : FmFileLauncher :=
  ⟨none, none, some (fun _ => FmFileLauncherExecAction.EXEC), none⟩

/-- The sample environment with the trash can: `trash:///` is no executable file, has the
scheme `trash`, and its name, ending in a slash, is guessed to be a directory. -/
def trash_env : Env :=
  { sample_env with
    uri_parse_scheme := fun s => if s = "trash:///" then some "trash" else none
    mime_type_from_file_name := fun s =>
      if s = "trash:///" then inode_directory else ⟨some "text/plain"⟩ }

/-! ## Vocabulary of the properties (executables opened as documents) -/

/-- Whether an effect is the direct launch of a command line (line 262). -/
def is_direct_launch : Effect → Bool
  | Effect.launch _ _ => true
  | _ => false

/-- A ref that is not executable and goes straight to line 290: not grouped as a
directory, no desktop entry, no shortcut, and not of an executable type. -/
def plain_typed_ref (launcher : FmFileLauncher) (fi : FmFileInfo) : Bool :=
  !(launcher.open_folder.isSome && fi.is_dir) && !fi.is_desktop_entry &&
  !fi.is_shortcut && !fi.is_executable_type

/-! ## Vocabulary of the properties (what becomes of a ref) -/

/-- Whether an effect is the launch of an application: a handler given a list of
identifiers (lines 78 and 338), a scheme handler (line 172) or a command line (line 262). -/
def is_launch : Effect → Bool
  | Effect.launch_uris _ _ => true
  | Effect.launch_infos _ _ => true
  | Effect.launch _ _ => true
  | _ => false

/-- The sample environment with an executable `tools/run.sh`, named relative to the working
directory. -/
def tools_env : Env :=
  { sample_env with
    file_test_is_executable := fun s => s = "tools/run.sh"
    path_get_dirname := fun s => if s = "tools/run.sh" then "tools" else "." }

theorem handle_of_crashed (env : Env) (launcher : FmFileLauncher) (st : ScanState)
    (fi : FmFileInfo) (h : st.crashed = true) : handle env launcher st fi = (st, []) := by
  simp [handle, h]

theorem scan_append (env : Env) (launcher : FmFileLauncher) (st : ScanState)
    (l1 l2 : List FmFileInfo) :
    scan env launcher st (l1 ++ l2) =
      ((scan env launcher (scan env launcher st l1).1 l2).1,
       (scan env launcher st l1).2 ++ (scan env launcher (scan env launcher st l1).1 l2).2) := by
  induction l1 generalizing st with
  | nil => simp [scan]
  | cons fi rest ih => simp [scan, ih, List.append_assoc]

/-- A ref whose iteration leaves the loop state as it is can be dropped from the input:
the state after the scan and the calls made for all other refs are the same. -/
theorem scan_frame (env : Env) (launcher : FmFileLauncher) (fi : FmFileInfo)
    (hfi : ∀ st : ScanState, (handle env launcher st fi).1 = st)
    (st0 : ScanState) (l1 l2 : List FmFileInfo) :
    (scan env launcher st0 (l1 ++ fi :: l2)).1 = (scan env launcher st0 (l1 ++ l2)).1 ∧
    (scan env launcher st0 (l1 ++ fi :: l2)).2 =
      (scan env launcher st0 l1).2 ++ (handle env launcher (scan env launcher st0 l1).1 fi).2 ++
        (scan env launcher (scan env launcher st0 l1).1 l2).2 ∧
    (scan env launcher st0 (l1 ++ l2)).2 =
      (scan env launcher st0 l1).2 ++ (scan env launcher (scan env launcher st0 l1).1 l2).2 := by
  simp [scan_append, scan, hfi, List.append_assoc]

theorem handle_exec (env : Env) (launcher : FmFileLauncher) (st : ScanState)
    (fi : FmFileInfo) (filename : String) (hreach : st.crashed = false)
    (hexec : exec_filename env launcher fi = some filename) :
    handle env launcher st fi = execute_or_type env launcher st fi filename := by
  unfold exec_filename at hexec
  unfold handle
  by_cases h1 : (launcher.open_folder.isSome && fi.is_dir) = true
  · simp [h1] at hexec
  by_cases h2 : fi.is_desktop_entry = true
  · simp [h2] at hexec
  by_cases h3 : fi.path.native = true
  · by_cases h4 : fi.is_shortcut = true
    · by_cases h5 : env.file_test_is_executable fi.target = true
      · simp [h1, h2, h3, h4, h5] at hexec
        subst hexec
        simp [hreach, h1, h2, h3, h4, h5]
      · simp [h1, h2, h3, h4, h5] at hexec
    · by_cases h5 : fi.is_executable_type = true
      · by_cases h6 : env.file_test_is_executable fi.path.str = true
        · simp [h1, h2, h3, h4, h5, h6] at hexec
          subst hexec
          simp [hreach, h1, h2, h3, h4, h5, h6]
        · simp [h1, h2, h3, h4, h5, h6] at hexec
      · simp [h1, h2, h3, h4, h5] at hexec
  · simp [h1, h2, h3] at hexec

/-! ## Properties -/

/-- When the loop reaches it, a desktop-entry ref that is not grouped as a directory is
launched on its own through `fm_launch_desktop_entry` (no file list); its iteration leaves
the buckets and the folder list as they are, and the scan of a list containing it ends in
the same loop state, with the same calls for the other refs, as the scan of the list
without it. -/
theorem desktop_entry_launched_standalone (env : Env) (launcher : FmFileLauncher)
    (st : ScanState) (fi : FmFileInfo)
    (hreach : st.crashed = false)
    (hdir : (launcher.open_folder.isSome && fi.is_dir) = false)
    (hde : fi.is_desktop_entry = true) :
    handle env launcher st fi =
      (st, (fm_launch_desktop_entry env launcher
              (if fi.is_shortcut then fi.target else fi.path.str) []).2) ∧
    ∀ (st0 : ScanState) (l1 l2 : List FmFileInfo),
      (scan env launcher st0 (l1 ++ fi :: l2)).1 = (scan env launcher st0 (l1 ++ l2)).1 ∧
      (scan env launcher st0 (l1 ++ fi :: l2)).2 =
        (scan env launcher st0 l1).2 ++
          (handle env launcher (scan env launcher st0 l1).1 fi).2 ++
          (scan env launcher (scan env launcher st0 l1).1 l2).2 ∧
      (scan env launcher st0 (l1 ++ l2)).2 =
        (scan env launcher st0 l1).2 ++
          (scan env launcher (scan env launcher st0 l1).1 l2).2 := by
  have hstep : ∀ s : ScanState, (handle env launcher s fi).1 = s := by
    intro s
    unfold handle
    cases hc : s.crashed <;> simp [hdir, hde]
  refine ⟨?_, fun st0 l1 l2 => scan_frame env launcher fi hstep st0 l1 l2⟩
  unfold handle
  simp [hreach, hdir, hde]

/-- The desktop entry on the sample data, between two text files. -/
theorem desktop_entry_launched_standalone_witness :
    (handle sample_env error_launcher ⟨[], [], "/home/user", false⟩ calc_desktop =
      (⟨[], [], "/home/user", false⟩, [Effect.launch_uris ⟨"calc"⟩ []])) ∧
    (scan sample_env error_launcher ⟨[], [], "/home/user", false⟩
        ([plain_file "a.txt" "text/plain"] ++ calc_desktop :: [plain_file "b.txt" "text/plain"])).1
      = (scan sample_env error_launcher ⟨[], [], "/home/user", false⟩
        ([plain_file "a.txt" "text/plain"] ++ [plain_file "b.txt" "text/plain"])).1 :=
  ⟨by
    have h := (desktop_entry_launched_standalone sample_env error_launcher
      ⟨[], [], "/home/user", false⟩ calc_desktop rfl rfl rfl).1
    rw [h]; decide,
   ((desktop_entry_launched_standalone sample_env error_launcher
      ⟨[], [], "/home/user", false⟩ calc_desktop rfl rfl rfl).2
      ⟨[], [], "/home/user", false⟩ [plain_file "a.txt" "text/plain"]
      [plain_file "b.txt" "text/plain"]).1⟩

/-- C3: when `exec_file` answers `FM_FILE_LAUNCHER_EXEC_CANCEL` for a ref that arrives at
`_try_execute:`, the only call made for that ref is the `exec_file` callback itself (no
launch, no `chdir`, no error callback), the loop state (buckets, folder list, working
directory) is left as it is, and the scan of a list containing the ref ends in the same
state, with the same calls for all other refs, as the scan of the list without it. -/
theorem exec_cancel_skips_ref (env : Env) (launcher : FmFileLauncher)
    (st : ScanState) (fi : FmFileInfo) (filename : String)
    (exec_file : FmFileInfo → FmFileLauncherExecAction)
    (hreach : st.crashed = false)
    (hexec : exec_filename env launcher fi = some filename)
    (hcb : launcher.exec_file = some exec_file)
    (hcancel : exec_file fi = FmFileLauncherExecAction.EXEC_CANCEL) :
    handle env launcher st fi = (st, [Effect.exec_file fi]) ∧
    ∀ (st0 : ScanState) (l1 l2 : List FmFileInfo),
      (scan env launcher st0 (l1 ++ fi :: l2)).1 = (scan env launcher st0 (l1 ++ l2)).1 ∧
      (scan env launcher st0 (l1 ++ fi :: l2)).2 =
        (scan env launcher st0 l1).2 ++
          (if (scan env launcher st0 l1).1.crashed then [] else [Effect.exec_file fi]) ++
          (scan env launcher (scan env launcher st0 l1).1 l2).2 ∧
      (scan env launcher st0 (l1 ++ l2)).2 =
        (scan env launcher st0 l1).2 ++
          (scan env launcher (scan env launcher st0 l1).1 l2).2 := by
  have hstep : ∀ s : ScanState, s.crashed = false →
      handle env launcher s fi = (s, [Effect.exec_file fi]) := by
    intro s hs
    rw [handle_exec env launcher s fi filename hs hexec]
    simp [execute_or_type, try_execute, hcb, hcancel]
  have hstate : ∀ s : ScanState, (handle env launcher s fi).1 = s := by
    intro s
    cases hc : s.crashed
    · rw [hstep s hc]
    · rw [handle_of_crashed env launcher s fi hc]
  refine ⟨hstep st hreach, fun st0 l1 l2 => ?_⟩
  have hf := scan_frame env launcher fi hstate st0 l1 l2
  refine ⟨hf.1, ?_, hf.2.2⟩
  rw [hf.2.1]
  cases hc : (scan env launcher st0 l1).1.crashed
  · rw [hstep _ hc]; simp
  · rw [handle_of_crashed env launcher _ fi hc]; simp

/-- Witness of C3 on the sample data: `exec_file` answers Cancel for `/bin/run.sh`. -/
theorem exec_cancel_skips_ref_witness :
    handle sample_env (exec_launcher FmFileLauncherExecAction.EXEC_CANCEL)
        ⟨[], [], "/home/user", false⟩ run_sh =
      (⟨[], [], "/home/user", false⟩, [Effect.exec_file run_sh]) :=
  (exec_cancel_skips_ref sample_env (exec_launcher FmFileLauncherExecAction.EXEC_CANCEL)
    ⟨[], [], "/home/user", false⟩ run_sh "/bin/run.sh"
    (fun _ => FmFileLauncherExecAction.EXEC_CANCEL) rfl (by decide) rfl rfl).1

/-- C4, as stated, fails: `/bin/run.sh` is run directly from the working directory `/gone`,
which cannot be entered again; the launch succeeds, and the process is left in `/bin`. -/
theorem cwd_not_restored_counterexample :
    exec_filename sample_env (exec_launcher FmFileLauncherExecAction.EXEC) run_sh =
        some "/bin/run.sh" ∧
    sample_env.app_info_launch ⟨"'/bin/run.sh'"⟩ "/bin" = none ∧
    handle sample_env (exec_launcher FmFileLauncherExecAction.EXEC)
        ⟨[], [], "/gone", false⟩ run_sh =
      (⟨[], [], "/bin", false⟩,
       [Effect.exec_file run_sh, Effect.chdir "/bin" true,
        Effect.launch ⟨"'/bin/run.sh'"⟩ "/bin", Effect.chdir "/gone" false,
        Effect.warning "fm_launch_files(): chdir() failed"]) ∧
    (handle sample_env (exec_launcher FmFileLauncherExecAction.EXEC)
        ⟨[], [], "/gone", false⟩ run_sh).1.cwd ≠ "/gone" := by
  decide

/-- C4, amended: for every direct execution of an executable ref (exec decision Run or
Run-in-terminal, command-line application created), whether the launch succeeds or fails,
the working directory after the ref has been handled equals the working directory before
it, provided the saved directory can be entered again (`chdir` back to it succeeds), or the
switch to the directory of the executable failed, or that directory is "."
(no switch is made). -/
theorem cwd_restored_after_exec (env : Env) (launcher : FmFileLauncher)
    (st : ScanState) (fi : FmFileInfo) (filename : String)
    (exec_file : FmFileInfo → FmFileLauncherExecAction) (app : GAppInfo)
    (hreach : st.crashed = false)
    (hexec : exec_filename env launcher fi = some filename)
    (hcb : launcher.exec_file = some exec_file)
    (hrun : exec_file fi = FmFileLauncherExecAction.EXEC ∨
            exec_file fi = FmFileLauncherExecAction.EXEC_IN_TERMINAL)
    (happ : env.create_from_commandline (env.shell_quote filename)
              (decide (exec_file fi = FmFileLauncherExecAction.EXEC_IN_TERMINAL)) = some app)
    (hback : env.chdir st.cwd = none ∨ env.chdir (env.path_get_dirname filename) ≠ none ∨
             env.path_get_dirname filename = ".") :
    (handle env launcher st fi).1.cwd = st.cwd ∧
    (handle env launcher st fi).1.hash = st.hash ∧
    (handle env launcher st fi).1.folders = st.folders := by
  rw [handle_exec env launcher st fi filename hreach hexec]
  have key : ∀ nt : Bool, env.create_from_commandline (env.shell_quote filename) nt = some app →
      ∃ effs, (run_executable env launcher st.cwd filename nt) = (ExecFlow.next st.cwd, effs) := by
    intro nt hnt
    unfold run_executable
    simp only [hnt]
    by_cases hdot : env.path_get_dirname filename = "."
    · simp [hdot]
    · cases hsw : env.chdir (env.path_get_dirname filename) with
      | some errno => simp [hdot, hsw]
      | none =>
        rcases hback with hb | hb | hb
        · simp [hdot, hsw, hb]
        · exact absurd hsw hb
        · exact absurd hb hdot
  rcases hrun with h | h
  · rw [h] at happ
    obtain ⟨effs, he⟩ := key false (by simpa using happ)
    simp [execute_or_type, try_execute, hcb, h, he]
  · rw [h] at happ
    obtain ⟨effs, he⟩ := key true (by simpa using happ)
    simp [execute_or_type, try_execute, hcb, h, he]

/-- Witness of C4 (amended) on the sample data: `/bin/run.sh` run from `/home/user`. -/
theorem cwd_restored_after_exec_witness :
    (handle sample_env (exec_launcher FmFileLauncherExecAction.EXEC)
        ⟨[], [], "/home/user", false⟩ run_sh).1.cwd = "/home/user" :=
  (cwd_restored_after_exec sample_env (exec_launcher FmFileLauncherExecAction.EXEC)
    ⟨[], [], "/home/user", false⟩ run_sh "/bin/run.sh"
    (fun _ => FmFileLauncherExecAction.EXEC) ⟨"'/bin/run.sh'"⟩ rfl (by decide) rfl
    (Or.inl rfl) (by decide) (Or.inl (by decide))).1

/-! ### The progress display -/

theorem set_timer_default_opt (d : FmProgressDisplay) (b : Bool) :
    (set_timer d b).default_opt = d.default_opt := by
  unfold set_timer; cases d.timer <;> rfl

theorem set_timer_has_error (d : FmProgressDisplay) (b : Bool) :
    (set_timer d b).has_error = d.has_error := by
  unfold set_timer; cases d.timer <;> rfl

theorem ensure_dlg_default_opt (d : FmProgressDisplay) (sd : Bool) :
    (ensure_dlg d sd).default_opt = d.default_opt := by
  unfold ensure_dlg on_show_dlg
  by_cases h1 : d.delay_timeout = 0 <;> cases hd : d.dlg <;> cases sd <;> simp [h1, hd]

theorem ensure_dlg_has_error (d : FmProgressDisplay) (sd : Bool) :
    (ensure_dlg d sd).has_error = d.has_error := by
  unfold ensure_dlg on_show_dlg
  by_cases h1 : d.delay_timeout = 0 <;> cases hd : d.dlg <;> cases sd <;> simp [h1, hd]

theorem log_error_default_opt (d : FmProgressDisplay) (err : GError) :
    (log_error d err).default_opt = d.default_opt := by
  unfold log_error; cases d.dlg <;> simp

theorem log_error_has_error (d : FmProgressDisplay) (err : GError) :
    (log_error d err).has_error = d.has_error := by
  unfold log_error; cases d.dlg <;> simp

theorem on_show_dlg_fields (d : FmProgressDisplay) (sd : Bool) :
    (on_show_dlg d sd).default_opt = d.default_opt ∧
    (on_show_dlg d sd).has_error = d.has_error := by
  unfold on_show_dlg
  cases sd <;> simp

theorem on_response_eq (d d2 : FmProgressDisplay) (id : Int)
    (h : on_response d id = some d2) : d2 = d := by
  unfold on_response at h
  split at h
  · split at h
    · simp at h
    · simp at h; exact h.symm
  · split at h
    · simp at h
    · simp at h; exact h.symm

theorem on_update_dlg_fields (d : FmProgressDisplay) (sd : Bool) :
    (on_update_dlg d sd).default_opt = d.default_opt ∧
    (on_update_dlg d sd).has_error = d.has_error := by
  unfold on_update_dlg
  cases sd <;> cases d.cur_file <;> simp

theorem on_error_default_opt (d : FmProgressDisplay) (err : GError) (sd : Bool) :
    (on_error d err sd).2.default_opt = d.default_opt := by
  unfold on_error
  split
  · rfl
  · split
    · rfl
    · simp [set_timer_default_opt, log_error_default_opt, ensure_dlg_default_opt]

theorem on_error_has_error_mono (d : FmProgressDisplay) (err : GError) (sd : Bool)
    (h : d.has_error = true) : (on_error d err sd).2.has_error = true := by
  unfold on_error
  split
  · exact h
  · split
    · exact h
    · simp [set_timer_has_error, log_error_has_error, ensure_dlg_has_error]

theorem cache_verdict_has_error (d : FmProgressDisplay) (a : Bool) (res : Int) :
    (cache_verdict d a res).has_error = d.has_error := by
  unfold cache_verdict
  cases a
  · simp
  · by_cases h : res = RESPONSE_OVERWRITE ∨ res = FM_FILE_OP_SKIP <;> simp [h]

theorem on_ask_rename_has_error (d : FmProgressDisplay) (ui : AskRenameDialog) (sd : Bool) :
    (on_ask_rename d ui sd).data.has_error = d.has_error := by
  unfold on_ask_rename
  by_cases h : d.default_opt = 0
  · simp [h, set_timer_has_error, cache_verdict_has_error, ensure_dlg_has_error]
  · simp [h]

/-- With a cached verdict, `on_ask_rename` answers it without running the dialog. -/
theorem on_ask_rename_of_default (d : FmProgressDisplay) (ui : AskRenameDialog) (sd : Bool)
    (h : d.default_opt ≠ 0) :
    on_ask_rename d ui sd = ⟨d.default_opt, none, false, d⟩ := by
  unfold on_ask_rename; simp [h]

/-- Every callback keeps a cached verdict, and `on_ask_rename` answers it silently. -/
theorem deliver_keeps_default (d : FmProgressDisplay) (c : Callback) (v : Int)
    (hv : v ≠ 0) (hd : d.default_opt = v) :
    (∀ d2, (deliver d c).2 = some d2 → d2.default_opt = v) ∧
    (∀ res n ran, (deliver d c).1 = Reply.ask_rename res n ran →
      res = v ∧ n = none ∧ ran = false) := by
  cases c with
  | percent p => simp [deliver, on_percent, hd]
  | cur_file f => simp [deliver, on_cur_file, hd]
  | error err sd => simp [deliver, on_error_default_opt, hd]
  | ask options response sd => simp [deliver, on_ask, ensure_dlg_default_opt, hd]
  | ask_rename ui sd =>
    have h0 : d.default_opt ≠ 0 := by rw [hd]; exact hv
    simp only [deliver, on_ask_rename_of_default d ui sd h0]
    refine ⟨fun d2 h2 => ?_, fun res n ran h2 => ?_⟩
    · simp at h2; rw [← h2]; exact hd
    · simp at h2; exact ⟨by rw [← h2.1, hd], h2.2.1.symm, h2.2.2⟩
  | prepared => simp [deliver, on_prepared, hd]
  | finished =>
    refine ⟨fun d2 h2 => ?_, fun res n ran h2 => by simp [deliver] at h2⟩
    simp only [deliver, on_finished] at h2
    split at h2
    · split at h2
      · simp at h2; rw [← h2]; exact hd
      · simp at h2
    · simp at h2
  | cancelled => simp [deliver, on_cancelled, hd]
  | show_dlg sd => simp [deliver, (on_show_dlg_fields d sd).1, hd]
  | update_dlg sd => simp [deliver, (on_update_dlg_fields d sd).1, hd]
  | response id =>
    refine ⟨fun d2 h2 => ?_, fun res n ran h2 => by simp [deliver] at h2⟩
    simp only [deliver] at h2
    rw [on_response_eq d d2 id h2]; exact hd
  | dialog_destroyed => simp [deliver, on_progress_dialog_destroy]

theorem deliver_all_keeps_default (v : Int) (hv : v ≠ 0) (later : List Callback) :
    ∀ (d : FmProgressDisplay), d.default_opt = v →
    ∀ r ∈ deliver_all d later,
      (∀ d2, r.2 = some d2 → d2.default_opt = v) ∧
      (∀ res n ran, r.1 = Reply.ask_rename res n ran → res = v ∧ n = none ∧ ran = false) := by
  induction later with
  | nil => intro d _ r hr; simp [deliver_all] at hr
  | cons c rest ih =>
    intro d hd r hr
    have hk := deliver_keeps_default d c v hv hd
    simp only [deliver_all] at hr
    cases h2 : (deliver d c).2 with
    | none =>
      rw [h2] at hr
      simp at hr
      subst hr
      exact hk
    | some d1 =>
      rw [h2] at hr
      simp only [List.mem_cons] at hr
      rcases hr with hr | hr
      · subst hr; exact hk
      · exact ih d1 (hk.1 d1 h2) r hr

/-- Callbacks other than `on_ask_rename` leave `default_opt` as it is. -/
theorem deliver_other_default_opt (d : FmProgressDisplay) (c : Callback)
    (hc : ∀ ui sd, c ≠ Callback.ask_rename ui sd) (d2 : FmProgressDisplay)
    (h : (deliver d c).2 = some d2) : d2.default_opt = d.default_opt := by
  cases c with
  | percent p => simp [deliver, on_percent] at h; rw [← h]
  | cur_file f => simp [deliver, on_cur_file] at h; rw [← h]
  | error err sd => simp [deliver] at h; rw [← h]; exact on_error_default_opt d err sd
  | ask options response sd =>
    simp [deliver, on_ask] at h; rw [← h]; exact ensure_dlg_default_opt d sd
  | ask_rename ui sd => exact absurd rfl (hc ui sd)
  | prepared => simp [deliver, on_prepared] at h; rw [← h]
  | finished =>
    simp only [deliver, on_finished] at h
    split at h
    · split at h
      · simp at h; rw [← h]
      · simp at h
    · simp at h
  | cancelled => simp [deliver, on_cancelled] at h; rw [← h]
  | show_dlg sd => simp [deliver] at h; rw [← h]; exact (on_show_dlg_fields d sd).1
  | update_dlg sd => simp [deliver] at h; rw [← h]; exact (on_update_dlg_fields d sd).1
  | response id => simp only [deliver] at h; rw [on_response_eq d d2 id h]
  | dialog_destroyed => simp [deliver, on_progress_dialog_destroy] at h

theorem display_after_other_default_opt (pre : List Callback) :
    ∀ (d d1 : FmProgressDisplay), (∀ c ∈ pre, ∀ ui sd, c ≠ Callback.ask_rename ui sd) →
      display_after d pre = some d1 → d1.default_opt = d.default_opt := by
  induction pre with
  | nil => intro d d1 _ h; simp [display_after] at h; rw [h]
  | cons c rest ih =>
    intro d d1 hpre h
    simp only [display_after] at h
    cases h2 : (deliver d c).2 with
    | none => rw [h2] at h; simp at h
    | some d2 =>
      rw [h2] at h
      have h3 := ih d2 d1 (fun c' hc' => hpre c' (List.mem_cons_of_mem _ hc')) h
      rw [h3]
      exact deliver_other_default_opt d c (hpre c (List.mem_cons_self _ _)) d2 h2

/-- C5: once `on_ask_rename` has returned Overwrite or Skip with "apply to all" checked,
every later `on_ask_rename` call on that display, whatever callbacks run in between,
returns the same verdict without running the dialog, and the cached default stays that
verdict; and the display created by `fm_file_ops_job_run_with_progress` starts with no
cached verdict, so the first `on_ask_rename` call on it runs the dialog. -/
theorem sticky_verdict_within_one_display (d : FmProgressDisplay) (ui : AskRenameDialog)
    (sd : Bool)
    (hall : ui.apply_all = true)
    (hres : (on_ask_rename d ui sd).res = FM_FILE_OP_OVERWRITE ∨
            (on_ask_rename d ui sd).res = FM_FILE_OP_SKIP) :
    (∀ (later : List Callback), ∀ r ∈ deliver_all (on_ask_rename d ui sd).data later,
      (∀ d2, r.2 = some d2 → d2.default_opt = (on_ask_rename d ui sd).res) ∧
      (∀ res n ran, r.1 = Reply.ask_rename res n ran →
        res = (on_ask_rename d ui sd).res ∧ n = none ∧ ran = false)) ∧
    (∀ (delay_id : Nat), ∃ d0, fm_file_ops_job_run_with_progress delay_id true = some d0 ∧
      d0.default_opt = 0 ∧
      ∀ (pre : List Callback) (d1 : FmProgressDisplay),
        (∀ c ∈ pre, ∀ ui1 sd1, c ≠ Callback.ask_rename ui1 sd1) →
        display_after d0 pre = some d1 →
        ∀ ui1 sd1, (on_ask_rename d1 ui1 sd1).dialog_run = true) := by
  constructor
  · intro later
    have hv : (on_ask_rename d ui sd).res ≠ 0 := by
      rcases hres with h | h <;> rw [h] <;> decide
    refine deliver_all_keeps_default _ hv later _ ?_
    by_cases h0 : d.default_opt = 0
    · unfold on_ask_rename at hres ⊢
      simp only [h0, ne_eq, not_true_eq_false, if_false] at hres ⊢
      rw [set_timer_default_opt]
      unfold cache_verdict
      rcases hres with h | h
      · simp [hall, h, FM_FILE_OP_OVERWRITE, RESPONSE_OVERWRITE]
      · simp [hall, h]
    · rw [on_ask_rename_of_default d ui sd h0]
  · intro delay_id
    refine ⟨_, rfl, rfl, fun pre d1 hpre hd1 ui1 sd1 => ?_⟩
    have h := display_after_other_default_opt pre _ d1 hpre hd1
    unfold on_ask_rename
    simp [h]

/-- Witness of C5 on the sample display: Overwrite with "apply to all", then a conflict
for which the user would have chosen Rename. -/
theorem sticky_verdict_within_one_display_witness :
    (deliver (on_ask_rename sample_display ⟨RESPONSE_OVERWRITE, true, "a.txt"⟩ false).data
        (Callback.ask_rename ⟨RESPONSE_RENAME, false, "c.txt"⟩ false)).1 =
      Reply.ask_rename 1 none false ∧
    ((1 : Int) = (on_ask_rename sample_display ⟨RESPONSE_OVERWRITE, true, "a.txt"⟩ false).res ∧
      (none : Option String) = none ∧ false = false) :=
  ⟨by decide,
   ((sticky_verdict_within_one_display sample_display ⟨RESPONSE_OVERWRITE, true, "a.txt"⟩ false
      rfl (Or.inl (by decide))).1
      [Callback.ask_rename ⟨RESPONSE_RENAME, false, "c.txt"⟩ false]
      (deliver (on_ask_rename sample_display ⟨RESPONSE_OVERWRITE, true, "a.txt"⟩ false).data
        (Callback.ask_rename ⟨RESPONSE_RENAME, false, "c.txt"⟩ false))
      (by decide)).2 1 none false (by decide)⟩

/-- C6: for every error that is neither a cancellation (`G_IO_ERROR`, code
`G_IO_ERROR_CANCELLED`) nor already handled (`G_IO_ERROR`, code
`G_IO_ERROR_FAILED_HANDLED`), `on_error` returns `FM_JOB_CONTINUE` and `has_error` is set
afterwards; and no callback of the display turns a set `has_error` off. -/
theorem on_error_continues_and_flags (d : FmProgressDisplay) (err : GError) (sd : Bool)
    (hcancel : ¬ (err.domain = G_IO_ERROR ∧ err.code = G_IO_ERROR_CANCELLED))
    (hhandled : ¬ (err.domain = G_IO_ERROR ∧ err.code = G_IO_ERROR_FAILED_HANDLED)) :
    (on_error d err sd).1 = FmJobErrorAction.FM_JOB_CONTINUE ∧
    (on_error d err sd).2.has_error = true ∧
    ∀ (d1 d2 : FmProgressDisplay) (c : Callback),
      d1.has_error = true → (deliver d1 c).2 = some d2 → d2.has_error = true := by
  refine ⟨?_, ?_, ?_⟩
  · unfold on_error; simp [hcancel, hhandled]
  · unfold on_error
    simp [hcancel, hhandled, set_timer_has_error, log_error_has_error, ensure_dlg_has_error]
  · intro d1 d2 c h1 h2
    cases c with
    | percent p => simp [deliver, on_percent] at h2; rw [← h2]; exact h1
    | cur_file f => simp [deliver, on_cur_file] at h2; rw [← h2]; exact h1
    | error e s => simp [deliver] at h2; rw [← h2]; exact on_error_has_error_mono d1 e s h1
    | ask options response s =>
      simp [deliver, on_ask] at h2; rw [← h2, ensure_dlg_has_error]; exact h1
    | ask_rename ui s =>
      simp [deliver] at h2; rw [← h2, on_ask_rename_has_error]; exact h1
    | prepared => simp [deliver, on_prepared] at h2; rw [← h2]; exact h1
    | finished =>
      simp only [deliver, on_finished] at h2
      split at h2
      · simp [h1] at h2; rw [← h2]; exact h1
      · simp at h2
    | cancelled => simp [deliver, on_cancelled] at h2; rw [← h2]; exact h1
    | show_dlg s => simp [deliver] at h2; rw [← h2, (on_show_dlg_fields d1 s).2]; exact h1
    | update_dlg s => simp [deliver] at h2; rw [← h2, (on_update_dlg_fields d1 s).2]; exact h1
    | response id => simp only [deliver] at h2; rw [on_response_eq d1 d2 id h2]; exact h1
    | dialog_destroyed => simp [deliver, on_progress_dialog_destroy] at h2

/-- Witness of C6 on the sample display: a permission error. -/
theorem on_error_continues_and_flags_witness :
    (on_error sample_display ⟨G_IO_ERROR, 14, "Permission denied"⟩ false).1 =
        FmJobErrorAction.FM_JOB_CONTINUE ∧
    (on_error sample_display ⟨G_IO_ERROR, 14, "Permission denied"⟩ false).2.has_error = true :=
  ⟨(on_error_continues_and_flags sample_display ⟨G_IO_ERROR, 14, "Permission denied"⟩ false
      (by decide) (by decide)).1,
   (on_error_continues_and_flags sample_display ⟨G_IO_ERROR, 14, "Permission denied"⟩ false
      (by decide) (by decide)).2.1⟩

/-! ### With an error callback no `NULL` pointer is called -/

theorem launch_scheme_crashed (env : Env) (launcher : FmFileLauncher) (st : ScanState)
    (fi : FmFileInfo) (scheme : String) (herr : launcher.error.isSome = true) :
    (launch_scheme env launcher st fi scheme).1 = st := by
  unfold launch_scheme
  cases h1 : env.default_for_uri_scheme scheme with
  | none => simp [herr]
  | some app =>
    cases h2 : env.app_info_launch_infos app [fi] <;> simp [herr, h2]

theorem typed_path_crashed (launcher : FmFileLauncher) (st : ScanState) (fi : FmFileInfo) :
    (typed_path launcher st fi).1.crashed = st.crashed := by
  unfold typed_path
  cases fi.mime_type.bind (fun m => m.type) with
  | none => by_cases h : launcher.error.isSome = true <;> simp [h]
  | some t => simp

theorem shortcut_by_target_crashed (env : Env) (launcher : FmFileLauncher) (st : ScanState)
    (fi : FmFileInfo) : (shortcut_by_target env launcher st fi).1.crashed = st.crashed := by
  unfold shortcut_by_target
  by_cases h1 : env.mime_type_from_file_name fi.target = inode_directory
  · simp [h1]
  · cases h2 : (env.mime_type_from_file_name fi.target).type with
    | none => by_cases h : launcher.error.isSome = true <;> simp [h1, h2, h]
    | some t => simp [h1, h2]

theorem execute_or_type_crashed (env : Env) (launcher : FmFileLauncher) (st : ScanState)
    (fi : FmFileInfo) (filename : String) :
    (execute_or_type env launcher st fi filename).1.crashed = st.crashed := by
  unfold execute_or_type
  split
  · rfl
  · exact typed_path_crashed launcher st fi

theorem handle_not_crashed (env : Env) (launcher : FmFileLauncher) (st : ScanState)
    (fi : FmFileInfo) (herr : launcher.error.isSome = true) :
    (handle env launcher st fi).1.crashed = st.crashed := by
  unfold handle
  split
  · rfl
  split
  · rfl
  split
  · rfl
  split
  · split
    · split
      · exact execute_or_type_crashed env launcher st fi _
      · split
        · split
          · exact shortcut_by_target_crashed env launcher st fi
          · rw [launch_scheme_crashed env launcher st fi _ herr]
        · exact shortcut_by_target_crashed env launcher st fi
    · split
      · split
        · exact execute_or_type_crashed env launcher st fi _
        · exact typed_path_crashed launcher st fi
      · exact typed_path_crashed launcher st fi
  · exact typed_path_crashed launcher st fi

theorem scan_not_crashed (env : Env) (launcher : FmFileLauncher)
    (herr : launcher.error.isSome = true) (l : List FmFileInfo) :
    ∀ st : ScanState, (scan env launcher st l).1.crashed = st.crashed := by
  induction l with
  | nil => intro st; rfl
  | cons fi rest ih =>
    intro st
    simp only [scan]
    rw [ih, handle_not_crashed env launcher st fi herr]

theorem launch_bucket_not_crashed (env : Env) (launcher : FmFileLauncher)
    (b : String × List FmFileInfo) (herr : launcher.error.isSome = true) :
    (launch_bucket env launcher b).1 = false := by
  unfold launch_bucket
  simp only [herr, if_true]
  split <;> rfl

theorem launch_buckets_all (env : Env) (launcher : FmFileLauncher)
    (herr : launcher.error.isSome = true) (bs : Buckets) :
    launch_buckets env launcher bs =
      (false, bs.flatMap (fun b => (launch_bucket env launcher b).2)) := by
  induction bs with
  | nil => rfl
  | cons b rest ih =>
    simp [launch_buckets, launch_bucket_not_crashed env launcher b herr, ih]

/-- C7: with an error callback registered, every bucket of the table is processed, each by
itself: the calls of `fm_launch_files` are those of the scan, then for every bucket, in
iteration order, the calls of its own iteration, then those for the folders.  A bucket for
which neither the default lookup nor the picker yields a handler makes exactly one call of
the error callback (after the picker call, if any) whatever the number of its refs; a
bucket with a handler is launched with the identifiers of its refs. -/
theorem unresolved_bucket_reports_once (env : Env) (launcher : FmFileLauncher) (cwd : String)
    (file_infos : List FmFileInfo) (herr : launcher.error.isSome = true) :
    (fm_launch_files env launcher cwd file_infos).trace =
      (scan env launcher ⟨[], [], cwd, false⟩ file_infos).2 ++
      (env.hash_iter (scan env launcher ⟨[], [], cwd, false⟩ file_infos).1.hash).val.flatMap
        (fun b => (launch_bucket env launcher b).2) ++
      open_folders launcher (scan env launcher ⟨[], [], cwd, false⟩ file_infos).1.folders ∧
    (env.hash_iter (scan env launcher ⟨[], [], cwd, false⟩ file_infos).1.hash).val.Perm
      (scan env launcher ⟨[], [], cwd, false⟩ file_infos).1.hash ∧
    (∀ b : String × List FmFileInfo, (resolve_app env launcher b.1 b.2).1 = none →
      (launch_bucket env launcher b).2 =
        (resolve_app env launcher b.1 b.2).2 ++
          [Effect.error ⟨G_IO_ERROR, G_IO_ERROR_FAILED,
            "No default application is set for MIME type " ++ b.1⟩] ∧
      ((launch_bucket env launcher b).2.filter is_error_call).length = 1 ∧
      ((launch_bucket env launcher b).2.filter is_launch_uris).length = 0) ∧
    (∀ (b : String × List FmFileInfo) (app : GAppInfo),
      (resolve_app env launcher b.1 b.2).1 = some app →
      ((launch_bucket env launcher b).2.filter is_launch_uris) =
        [Effect.launch_uris app (b.2.map launch_id).reverse]) := by
  have hres : ∀ b : String × List FmFileInfo,
      ∀ e ∈ (resolve_app env launcher b.1 b.2).2,
        is_error_call e = false ∧ is_launch_uris e = false := by
    intro b e he
    unfold resolve_app at he
    cases h1 : env.default_for_type b.1 with
    | some a => simp [h1] at he
    | none =>
      cases h2 : launcher.get_app with
      | none => simp [h1, h2] at he
      | some g =>
        simp [h1, h2] at he
        subst he
        exact ⟨rfl, rfl⟩
  have hf1 : ∀ b : String × List FmFileInfo,
      (resolve_app env launcher b.1 b.2).2.filter is_error_call = [] := by
    intro b
    rw [List.filter_eq_nil_iff]
    intro e he
    simp [(hres b e he).1]
  have hf2 : ∀ b : String × List FmFileInfo,
      (resolve_app env launcher b.1 b.2).2.filter is_launch_uris = [] := by
    intro b
    rw [List.filter_eq_nil_iff]
    intro e he
    simp [(hres b e he).2]
  refine ⟨?_, (env.hash_iter _).property, ?_, ?_⟩
  · unfold fm_launch_files
    have hc := scan_not_crashed env launcher herr file_infos ⟨[], [], cwd, false⟩
    simp only [hc, launch_buckets_all env launcher herr]
    simp
  · intro b hb
    have h1 : (launch_bucket env launcher b).2 =
        (resolve_app env launcher b.1 b.2).2 ++
          [Effect.error ⟨G_IO_ERROR, G_IO_ERROR_FAILED,
            "No default application is set for MIME type " ++ b.1⟩] := by
      unfold launch_bucket
      simp [hb, herr]
    refine ⟨h1, ?_, ?_⟩
    · rw [h1, List.filter_append, hf1 b]; rfl
    · rw [h1, List.filter_append, hf2 b]; rfl
  · intro b app hb
    unfold launch_bucket
    simp only [hb, herr, if_true]
    cases h2 : env.app_info_launch_uris app (List.map launch_id b.2).reverse with
    | none => simp [List.filter_append, hf2 b, is_launch_uris]
    | some err => simp [List.filter_append, hf2 b, is_launch_uris]

/-- Witness of C7 on the sample data: two files of an unknown type around a text file. -/
theorem unresolved_bucket_reports_once_witness :
    (fm_launch_files sample_env picker_launcher "/home/user"
        [plain_file "a.bin" "application/x-unknown", plain_file "b.txt" "text/plain",
         plain_file "c.bin" "application/x-unknown"]).trace =
      [Effect.get_app [plain_file "c.bin" "application/x-unknown",
                       plain_file "a.bin" "application/x-unknown"]
                      (some ⟨some "application/x-unknown"⟩),
       Effect.error ⟨G_IO_ERROR, G_IO_ERROR_FAILED,
         "No default application is set for MIME type application/x-unknown"⟩,
       Effect.launch_uris ⟨"editor"⟩ ["file:///home/user/b.txt"]] := by
  rw [(unresolved_bucket_reports_once sample_env picker_launcher "/home/user"
        [plain_file "a.bin" "application/x-unknown", plain_file "b.txt" "text/plain",
         plain_file "c.bin" "application/x-unknown"] rfl).1]
  decide

/-! ### Calls of `open_folder` are made only after the buckets -/

theorem run_executable_no_open_folder (env : Env) (launcher : FmFileLauncher) (cwd0 : String)
    (filename : String) (nt : Bool) :
    (run_executable env launcher cwd0 filename nt).2.filter is_open_folder_call = [] := by
  unfold run_executable
  cases h0 : env.create_from_commandline (env.shell_quote filename) nt with
  | none => rfl
  | some app =>
    by_cases hdot : env.path_get_dirname filename = "."
    · cases h1 : env.app_info_launch app cwd0 <;>
        by_cases herr : launcher.error.isSome = true <;>
        simp [hdot, herr, h1, is_open_folder_call]
    · cases hsw : env.chdir (env.path_get_dirname filename) with
      | none =>
        cases h1 : env.app_info_launch app
            (chdir_target env cwd0 (env.path_get_dirname filename)) <;>
          cases h2 : env.chdir cwd0 <;>
          by_cases herr : launcher.error.isSome = true <;>
          simp [hdot, hsw, herr, h1, h2, is_open_folder_call]
      | some errno =>
        cases h1 : env.app_info_launch app cwd0 <;>
          by_cases herr : launcher.error.isSome = true <;>
          simp [hdot, hsw, herr, h1, is_open_folder_call]

theorem try_execute_no_open_folder (env : Env) (launcher : FmFileLauncher) (cwd0 : String)
    (fi : FmFileInfo) (filename : String) :
    (try_execute env launcher cwd0 fi filename).2.filter is_open_folder_call = [] := by
  unfold try_execute
  cases launcher.exec_file with
  | none => rfl
  | some f =>
    cases h : f fi <;>
      simp [h, List.filter_cons, is_open_folder_call, run_executable_no_open_folder]

theorem typed_path_no_open_folder (launcher : FmFileLauncher) (st : ScanState)
    (fi : FmFileInfo) :
    (typed_path launcher st fi).2.filter is_open_folder_call = [] := by
  unfold typed_path
  cases h0 : fi.mime_type.bind (fun m => m.type) with
  | none => by_cases h : launcher.error.isSome = true <;> simp [h, is_open_folder_call]
  | some t => simp

theorem execute_or_type_no_open_folder (env : Env) (launcher : FmFileLauncher)
    (st : ScanState) (fi : FmFileInfo) (filename : String) :
    (execute_or_type env launcher st fi filename).2.filter is_open_folder_call = [] := by
  unfold execute_or_type
  have h := try_execute_no_open_folder env launcher st.cwd fi filename
  split
  · rename_i cwd effs heq
    rw [heq] at h; exact h
  · rename_i effs heq
    rw [heq] at h
    simp [List.filter_append, typed_path_no_open_folder] at h ⊢
    exact h

theorem launch_scheme_no_open_folder (env : Env) (launcher : FmFileLauncher) (st : ScanState)
    (fi : FmFileInfo) (scheme : String) :
    (launch_scheme env launcher st fi scheme).2.filter is_open_folder_call = [] := by
  unfold launch_scheme
  cases h1 : env.default_for_uri_scheme scheme with
  | none => by_cases h : launcher.error.isSome = true <;> simp [h, is_open_folder_call]
  | some app =>
    cases h2 : env.app_info_launch_infos app [fi] <;>
      by_cases h : launcher.error.isSome = true <;> simp [h, h2, is_open_folder_call]

theorem shortcut_by_target_no_open_folder (env : Env) (launcher : FmFileLauncher)
    (st : ScanState) (fi : FmFileInfo) :
    (shortcut_by_target env launcher st fi).2.filter is_open_folder_call = [] := by
  unfold shortcut_by_target
  by_cases h1 : env.mime_type_from_file_name fi.target = inode_directory
  · simp [h1]
  · cases h2 : (env.mime_type_from_file_name fi.target).type with
    | none => by_cases h : launcher.error.isSome = true <;> simp [h1, h2, h, is_open_folder_call]
    | some t => simp [h1, h2]

theorem fm_launch_desktop_entry_no_open_folder (env : Env) (launcher : FmFileLauncher)
    (file_or_id : String) (uris : List String) :
    (fm_launch_desktop_entry env launcher file_or_id uris).2.filter is_open_folder_call = [] := by
  unfold fm_launch_desktop_entry
  generalize (if env.path_is_absolute file_or_id = true
    then env.desktop_app_info_new_from_filename file_or_id
    else env.desktop_app_info_new file_or_id) = app
  cases app with
  | none => by_cases h : launcher.error.isSome = true <;> simp [h, is_open_folder_call]
  | some a =>
    cases h2 : env.app_info_launch_uris a uris <;>
      by_cases h : launcher.error.isSome = true <;> simp [h, h2, is_open_folder_call]

theorem handle_no_open_folder (env : Env) (launcher : FmFileLauncher) (st : ScanState)
    (fi : FmFileInfo) :
    (handle env launcher st fi).2.filter is_open_folder_call = [] := by
  unfold handle
  split
  · rfl
  split
  · rfl
  split
  · exact fm_launch_desktop_entry_no_open_folder env launcher _ _
  split
  · split
    · split
      · exact execute_or_type_no_open_folder env launcher st fi _
      · split
        · split
          · exact shortcut_by_target_no_open_folder env launcher st fi
          · exact launch_scheme_no_open_folder env launcher st fi _
        · exact shortcut_by_target_no_open_folder env launcher st fi
    · split
      · split
        · exact execute_or_type_no_open_folder env launcher st fi _
        · exact typed_path_no_open_folder launcher st fi
      · exact typed_path_no_open_folder launcher st fi
  · exact typed_path_no_open_folder launcher st fi

theorem scan_no_open_folder (env : Env) (launcher : FmFileLauncher) (l : List FmFileInfo) :
    ∀ st : ScanState, (scan env launcher st l).2.filter is_open_folder_call = [] := by
  induction l with
  | nil => intro st; rfl
  | cons fi rest ih =>
    intro st
    simp [scan, List.filter_append, ih, handle_no_open_folder]

theorem launch_bucket_no_open_folder (env : Env) (launcher : FmFileLauncher)
    (b : String × List FmFileInfo) :
    (launch_bucket env launcher b).2.filter is_open_folder_call = [] := by
  have hres : (resolve_app env launcher b.1 b.2).2.filter is_open_folder_call = [] := by
    unfold resolve_app
    cases env.default_for_type b.1 with
    | some a => rfl
    | none =>
      cases launcher.get_app with
      | none => rfl
      | some g => simp [is_open_folder_call]
  unfold launch_bucket
  cases h1 : (resolve_app env launcher b.1 b.2).1 with
  | none =>
    by_cases h : launcher.error.isSome = true <;>
      simp [h, h1, List.filter_append, hres, is_open_folder_call]
  | some app =>
    cases h2 : env.app_info_launch_uris app (List.map launch_id b.2).reverse <;>
      by_cases h : launcher.error.isSome = true <;>
      simp [h, h1, h2, List.filter_append, hres, is_open_folder_call]

theorem launch_buckets_no_open_folder (env : Env) (launcher : FmFileLauncher) (bs : Buckets) :
    (launch_buckets env launcher bs).2.filter is_open_folder_call = [] := by
  induction bs with
  | nil => rfl
  | cons b rest ih =>
    simp only [launch_buckets]
    split
    · exact launch_bucket_no_open_folder env launcher b
    · simp [List.filter_append, ih, launch_bucket_no_open_folder]

/-! ### The folder list -/

theorem typed_path_folders (launcher : FmFileLauncher) (st : ScanState) (fi : FmFileInfo) :
    (typed_path launcher st fi).1.folders = st.folders := by
  unfold typed_path
  cases h0 : fi.mime_type.bind (fun m => m.type) with
  | none => by_cases h : launcher.error.isSome = true <;> simp [h]
  | some t => simp

theorem execute_or_type_folders (env : Env) (launcher : FmFileLauncher) (st : ScanState)
    (fi : FmFileInfo) (filename : String) :
    (execute_or_type env launcher st fi filename).1.folders = st.folders := by
  unfold execute_or_type
  split
  · rfl
  · exact typed_path_folders launcher st fi

theorem launch_scheme_folders (env : Env) (launcher : FmFileLauncher) (st : ScanState)
    (fi : FmFileInfo) (scheme : String) :
    (launch_scheme env launcher st fi scheme).1.folders = st.folders := by
  unfold launch_scheme
  cases h1 : env.default_for_uri_scheme scheme with
  | none => by_cases h : launcher.error.isSome = true <;> simp [h]
  | some app =>
    cases h2 : env.app_info_launch_infos app [fi] <;>
      by_cases h : launcher.error.isSome = true <;> simp [h, h2]

theorem shortcut_by_target_folders (env : Env) (launcher : FmFileLauncher) (st : ScanState)
    (fi : FmFileInfo) :
    (shortcut_by_target env launcher st fi).1.folders =
      if env.mime_type_from_file_name fi.target = inode_directory then fi :: st.folders
      else st.folders := by
  unfold shortcut_by_target
  by_cases h1 : env.mime_type_from_file_name fi.target = inode_directory
  · simp [h1]
  · cases h2 : (env.mime_type_from_file_name fi.target).type with
    | none => by_cases h : launcher.error.isSome = true <;> simp [h1, h2, h]
    | some t => simp [h1, h2]

theorem handle_folders (env : Env) (launcher : FmFileLauncher) (st : ScanState)
    (fi : FmFileInfo) (hof : launcher.open_folder.isSome = true) (hreach : st.crashed = false) :
    (handle env launcher st fi).1.folders =
      if folder_ref env fi then fi :: st.folders else st.folders := by
  unfold handle folder_ref
  by_cases h1 : fi.is_dir = true
  · simp [hreach, hof, h1]
  by_cases h2 : fi.is_desktop_entry = true
  · simp [hreach, hof, h1, h2]
  by_cases h3 : fi.path.native = true
  · by_cases h4 : fi.is_shortcut = true
    · by_cases h5 : env.file_test_is_executable fi.target = true
      · simp [hreach, hof, h1, h2, h3, h4, h5, execute_or_type_folders]
      · cases h6 : env.uri_parse_scheme fi.target with
        | none =>
          by_cases h7 : env.mime_type_from_file_name fi.target = inode_directory <;>
            simp [hreach, hof, h1, h2, h3, h4, h5, h6, h7, shortcut_by_target_folders]
        | some scheme =>
          by_cases h8 : scheme_is_internal scheme = true
          · by_cases h7 : env.mime_type_from_file_name fi.target = inode_directory <;>
              simp [hreach, hof, h1, h2, h3, h4, h5, h6, h7, h8, shortcut_by_target_folders]
          · simp [hreach, hof, h1, h2, h3, h4, h5, h6, h8, launch_scheme_folders]
    · by_cases h5 : fi.is_executable_type = true
      · by_cases h6 : env.file_test_is_executable fi.path.str = true
        · simp [hreach, hof, h1, h2, h3, h4, h5, h6, execute_or_type_folders]
        · simp [hreach, hof, h1, h2, h3, h4, h5, h6, typed_path_folders]
      · simp [hreach, hof, h1, h2, h3, h4, h5, typed_path_folders]
  · simp [hreach, hof, h1, h2, h3, typed_path_folders]

theorem scan_of_crashed (env : Env) (launcher : FmFileLauncher) (l : List FmFileInfo) :
    ∀ st : ScanState, st.crashed = true → (scan env launcher st l).1.crashed = true := by
  induction l with
  | nil => intro st h; exact h
  | cons fi rest ih =>
    intro st h
    simp only [scan]
    apply ih
    rw [handle_of_crashed env launcher st fi h]
    exact h

theorem scan_folders (env : Env) (launcher : FmFileLauncher)
    (hof : launcher.open_folder.isSome = true) (l : List FmFileInfo) :
    ∀ st : ScanState, (scan env launcher st l).1.crashed = false →
      (scan env launcher st l).1.folders = (l.filter (folder_ref env)).reverse ++ st.folders := by
  induction l with
  | nil => intro st _; rfl
  | cons fi rest ih =>
    intro st h
    simp only [scan] at h ⊢
    have hst : st.crashed = false := by
      cases hc : st.crashed
      · rfl
      · have := scan_of_crashed env launcher (fi :: rest) st hc
        simp only [scan] at this
        rw [this] at h
        exact absurd h (by decide)
    rw [ih _ h, handle_folders env launcher st fi hof hst]
    by_cases hf : folder_ref env fi = true
    · simp [hf, List.filter_cons]
    · simp [hf, List.filter_cons]


/-- C8, as stated, fails.  (1) `link_desktop` is a shortcut whose target has the directory
type, yet with a folder opener registered it is launched as a desktop entry and is absent
from the list given to `open_folder`.  (2) A batch without any directory ref, holding a
native shortcut to a directory, still makes one `open_folder` call. -/
theorem open_folder_argument_counterexample :
    (link_desktop.is_shortcut = true ∧
      sample_env.mime_type_from_file_name link_desktop.target = inode_directory ∧
      (fm_launch_files sample_env folder_launcher "/home/user" [music_dir, link_desktop]).trace =
        [Effect.error ⟨G_IO_ERROR, G_IO_ERROR_FAILED,
           "Invalid desktop entry file: '/home/user/music/'"⟩,
         Effect.open_folder [music_dir]]) ∧
    ((shortcut_file "music.lnk" "/home/user/music/").is_dir = false ∧
      (fm_launch_files sample_env folder_launcher "/home/user"
          [shortcut_file "music.lnk" "/home/user/music/"]).trace =
        [Effect.open_folder [shortcut_file "music.lnk" "/home/user/music/"]]) := by
  decide

/-- C8, amended: with a folder opener registered and the call returning, the calls of
`fm_launch_files` are those of the scan, then those of the bucket launches, then, if and
only if the list of folder refs of the batch is not empty, exactly one `open_folder` call
(followed at most by the report of its error).  Its argument lists, in input order, the
folder refs: every directory ref, and every native shortcut that is no desktop entry, whose
target is not executable, has no scheme outside file, trash, network, computer and menu,
and whose target has the directory type as guessed content type. -/
theorem open_folder_called_once (env : Env) (launcher : FmFileLauncher) (cwd : String)
    (file_infos : List FmFileInfo) (open_folder : List FmFileInfo → Option GError)
    (hof : launcher.open_folder = some open_folder)
    (hret : (fm_launch_files env launcher cwd file_infos).ret = some true) :
    (fm_launch_files env launcher cwd file_infos).trace =
      (scan env launcher ⟨[], [], cwd, false⟩ file_infos).2 ++
      (launch_buckets env launcher
        (env.hash_iter (scan env launcher ⟨[], [], cwd, false⟩ file_infos).1.hash).val).2 ++
      (if file_infos.filter (folder_ref env) = [] then []
       else Effect.open_folder (file_infos.filter (folder_ref env)) ::
        (match open_folder (file_infos.filter (folder_ref env)) with
         | none => []
         | some err => if launcher.error.isSome then [Effect.error err] else [])) ∧
    ((scan env launcher ⟨[], [], cwd, false⟩ file_infos).2 ++
      (launch_buckets env launcher
        (env.hash_iter (scan env launcher ⟨[], [], cwd, false⟩ file_infos).1.hash).val).2).filter
        is_open_folder_call = [] ∧
    (fm_launch_files env launcher cwd file_infos).trace.filter is_open_folder_call =
      (if file_infos.filter (folder_ref env) = [] then []
       else [Effect.open_folder (file_infos.filter (folder_ref env))]) := by
  have hofs : launcher.open_folder.isSome = true := by rw [hof]; rfl
  have hc : (scan env launcher ⟨[], [], cwd, false⟩ file_infos).1.crashed = false := by
    cases h : (scan env launcher ⟨[], [], cwd, false⟩ file_infos).1.crashed
    · rfl
    · unfold fm_launch_files at hret
      simp [h] at hret
  have hb : (launch_buckets env launcher
      (env.hash_iter (scan env launcher ⟨[], [], cwd, false⟩ file_infos).1.hash).val).1
        = false := by
    cases h : (launch_buckets env launcher
      (env.hash_iter (scan env launcher ⟨[], [], cwd, false⟩ file_infos).1.hash).val).1
    · rfl
    · unfold fm_launch_files at hret
      simp [hc, h] at hret
  have hfold := scan_folders env launcher hofs file_infos ⟨[], [], cwd, false⟩ hc
  simp only [List.append_nil] at hfold
  have hopen : open_folders launcher
      (scan env launcher ⟨[], [], cwd, false⟩ file_infos).1.folders =
      (if file_infos.filter (folder_ref env) = [] then []
       else Effect.open_folder (file_infos.filter (folder_ref env)) ::
        (match open_folder (file_infos.filter (folder_ref env)) with
         | none => []
         | some err => if launcher.error.isSome then [Effect.error err] else [])) := by
    unfold open_folders
    rw [hfold]
    by_cases he : file_infos.filter (folder_ref env) = []
    · simp [he]
    · simp [he, hof]
  have htrace : (fm_launch_files env launcher cwd file_infos).trace =
      (scan env launcher ⟨[], [], cwd, false⟩ file_infos).2 ++
      (launch_buckets env launcher
        (env.hash_iter (scan env launcher ⟨[], [], cwd, false⟩ file_infos).1.hash).val).2 ++
      open_folders launcher (scan env launcher ⟨[], [], cwd, false⟩ file_infos).1.folders := by
    unfold fm_launch_files
    simp [hc, hb]
  have hpre : ((scan env launcher ⟨[], [], cwd, false⟩ file_infos).2 ++
      (launch_buckets env launcher
        (env.hash_iter (scan env launcher ⟨[], [], cwd, false⟩ file_infos).1.hash).val).2).filter
        is_open_folder_call = [] := by
    rw [List.filter_append, scan_no_open_folder, launch_buckets_no_open_folder]
    rfl
  refine ⟨by rw [htrace, hopen], hpre, ?_⟩
  rw [htrace, hopen, List.filter_append, hpre]
  by_cases he : file_infos.filter (folder_ref env) = []
  · simp [he]
  · cases h1 : open_folder (file_infos.filter (folder_ref env)) <;>
      by_cases h2 : launcher.error.isSome = true <;>
      simp [he, h1, h2, is_open_folder_call]

/-- Witness of C8 (amended) on the sample data: a directory, a text file and a shortcut to
a directory. -/
theorem open_folder_called_once_witness :
    (fm_launch_files sample_env folder_launcher "/home/user"
        [music_dir, plain_file "a.txt" "text/plain",
         shortcut_file "music.lnk" "/home/user/music/"]).trace.filter is_open_folder_call =
      [Effect.open_folder [music_dir, shortcut_file "music.lnk" "/home/user/music/"]] := by
  rw [(open_folder_called_once sample_env folder_launcher "/home/user"
        [music_dir, plain_file "a.txt" "text/plain",
         shortcut_file "music.lnk" "/home/user/music/"] (fun _ => none) rfl (by decide)).2.2]
  decide

/-- C9: a native shortcut to `/home/user/notes.xyz` lands in the bucket keyed by the guessed
type of its target, `application/x-xyz`, which has no default handler; the handler picker
is then called with the shortcut's own type `inode/x-shortcut`, not with the key of the
bucket. -/
theorem picker_gets_type_of_first_ref :
    (scan sample_env picker_launcher ⟨[], [], "/home/user", false⟩
        [shortcut_file "notes.lnk" "/home/user/notes.xyz"]).1.hash =
      [("application/x-xyz", [shortcut_file "notes.lnk" "/home/user/notes.xyz"])] ∧
    (fm_launch_files sample_env picker_launcher "/home/user"
        [shortcut_file "notes.lnk" "/home/user/notes.xyz"]).trace =
      [Effect.get_app [shortcut_file "notes.lnk" "/home/user/notes.xyz"]
         (some ⟨some "inode/x-shortcut"⟩),
       Effect.error ⟨G_IO_ERROR, G_IO_ERROR_FAILED,
         "No default application is set for MIME type application/x-xyz"⟩] := by
  decide

/-- C10: without an error callback, a native shortcut to a `mailto:` address whose scheme
handler fails to launch makes `fm_launch_files` call the `NULL` pointer `launcher->error`
(line 182): the call does not return. -/
theorem null_error_callback_called :
    fm_launch_files sample_env bare_launcher "/home/user"
        [shortcut_file "mail.lnk" "mailto:someone@example.org"] =
      ⟨none,
       [Effect.launch_infos ⟨"mailer"⟩ [shortcut_file "mail.lnk" "mailto:someone@example.org"],
        Effect.null_call],
       "/home/user"⟩ := by
  decide

/-- C1: three refs on the typed path, `a.txt` and `c.txt` of type `text/plain` and `b.png` of
type `image/png`, both types with a default handler, no error callback registered, every
handler launch failing: in whatever order the hash table is iterated, the first bucket
launch fails, the `NULL` pointer `launcher->error` is called (line 349), and one handler
only has been launched, not one per content type. -/
theorem typed_batch_stops_at_failed_launch
    (it : (es : Buckets) → { l : Buckets // l.Perm es }) :
    (typed_key { failing_env with hash_iter := it } bare_launcher
        (plain_file "a.txt" "text/plain") = some "text/plain" ∧
     typed_key { failing_env with hash_iter := it } bare_launcher
        (plain_file "b.png" "image/png") = some "image/png" ∧
     typed_key { failing_env with hash_iter := it } bare_launcher
        (plain_file "c.txt" "text/plain") = some "text/plain" ∧
     failing_env.default_for_type "text/plain" = some ⟨"editor"⟩ ∧
     failing_env.default_for_type "image/png" = some ⟨"viewer"⟩) ∧
    (fm_launch_files { failing_env with hash_iter := it } bare_launcher "/home/user"
        [plain_file "a.txt" "text/plain", plain_file "b.png" "image/png",
         plain_file "c.txt" "text/plain"]).ret = none ∧
    ((fm_launch_files { failing_env with hash_iter := it } bare_launcher "/home/user"
        [plain_file "a.txt" "text/plain", plain_file "b.png" "image/png",
         plain_file "c.txt" "text/plain"]).trace.filter is_launch_uris).length = 1 := by
  refine ⟨⟨rfl, rfl, rfl, rfl, rfl⟩, ?_⟩
  have key : ∀ l : Buckets,
      l.Perm [("text/plain", [plain_file "c.txt" "text/plain", plain_file "a.txt" "text/plain"]),
              ("image/png", [plain_file "b.png" "image/png"])] →
      (launch_buckets { failing_env with hash_iter := it } bare_launcher l).1 = true ∧
      ((launch_buckets { failing_env with hash_iter := it } bare_launcher l).2.filter
        is_launch_uris).length = 1 := by
    intro l hl
    have hlen := hl.length_eq
    match l, hl, hlen with
    | [x, y], hl, _ =>
      have hx : x ∈ [("text/plain",
            [plain_file "c.txt" "text/plain", plain_file "a.txt" "text/plain"]),
           ("image/png", [plain_file "b.png" "image/png"])] :=
        hl.subset (List.mem_cons_self _ _)
      simp only [List.mem_cons, List.mem_singleton, List.not_mem_nil, or_false] at hx
      rcases hx with rfl | rfl
      · constructor <;> rfl
      · constructor <;> rfl
  have hfm : fm_launch_files { failing_env with hash_iter := it } bare_launcher "/home/user"
        [plain_file "a.txt" "text/plain", plain_file "b.png" "image/png",
         plain_file "c.txt" "text/plain"] =
      (if (launch_buckets { failing_env with hash_iter := it } bare_launcher
            (it [("text/plain",
                  [plain_file "c.txt" "text/plain", plain_file "a.txt" "text/plain"]),
                 ("image/png", [plain_file "b.png" "image/png"])]).val).1 = true
       then ⟨none, (launch_buckets { failing_env with hash_iter := it } bare_launcher
            (it [("text/plain",
                  [plain_file "c.txt" "text/plain", plain_file "a.txt" "text/plain"]),
                 ("image/png", [plain_file "b.png" "image/png"])]).val).2, "/home/user"⟩
       else ⟨some true, (launch_buckets { failing_env with hash_iter := it } bare_launcher
            (it [("text/plain",
                  [plain_file "c.txt" "text/plain", plain_file "a.txt" "text/plain"]),
                 ("image/png", [plain_file "b.png" "image/png"])]).val).2 ++ [], "/home/user"⟩) := by
    rfl
  have h := key _ (it [("text/plain",
                  [plain_file "c.txt" "text/plain", plain_file "a.txt" "text/plain"]),
                 ("image/png", [plain_file "b.png" "image/png"])]).property
  rw [hfm]
  simp only [h.1, if_true]
  exact ⟨trivial, h.2⟩

/-! ### Buckets of the typed path -/

theorem lookup_insert (h : Buckets) (k k2 : String) (v : List FmFileInfo) :
    g_hash_table_lookup (g_hash_table_insert h k v) k2 =
      if k2 = k then v else g_hash_table_lookup h k2 := by
  induction h with
  | nil =>
    by_cases hk : k2 = k
    · simp [g_hash_table_insert, g_hash_table_lookup, hk]
    · have hk2 : ¬ k = k2 := fun e => hk e.symm
      simp [g_hash_table_insert, g_hash_table_lookup, hk, hk2]
  | cons e rest ih =>
    obtain ⟨k1, v1⟩ := e
    by_cases h1 : k1 = k
    · by_cases hk : k2 = k
      · simp [g_hash_table_insert, g_hash_table_lookup, h1, hk]
      · have hk2 : ¬ k = k2 := fun e => hk e.symm
        simp [g_hash_table_insert, g_hash_table_lookup, h1, hk, hk2]
    · by_cases h2 : k1 = k2
      · have hk : ¬ k2 = k := fun e => h1 (h2.trans e)
        simp [g_hash_table_insert, g_hash_table_lookup, h1, h2, hk]
      · simp [g_hash_table_insert, g_hash_table_lookup, h1, h2, ih]

theorem keys_insert (h : Buckets) (k : String) (v : List FmFileInfo) :
    (g_hash_table_insert h k v).map Prod.fst =
      if k ∈ h.map Prod.fst then h.map Prod.fst else h.map Prod.fst ++ [k] := by
  induction h with
  | nil => simp [g_hash_table_insert]
  | cons e rest ih =>
    obtain ⟨k1, v1⟩ := e
    by_cases h1 : k1 = k
    · simp [g_hash_table_insert, h1]
    · have h1b : ¬ k = k1 := fun e => h1 e.symm
      by_cases h2 : k ∈ rest.map Prod.fst
      · simp only [g_hash_table_insert, h1, if_false, List.map_cons, ih, h2, if_true,
          List.mem_cons, h1b, false_or]
      · simp only [g_hash_table_insert, h1, if_false, List.map_cons, ih, h2,
          List.mem_cons, h1b, false_or, List.cons_append]

theorem lookup_of_mem (h : Buckets) (hn : (h.map Prod.fst).Nodup) (k : String)
    (v : List FmFileInfo) (hm : (k, v) ∈ h) : g_hash_table_lookup h k = v := by
  induction h with
  | nil => simp at hm
  | cons e rest ih =>
    obtain ⟨k1, v1⟩ := e
    simp only [List.map_cons, List.nodup_cons] at hn
    simp only [List.mem_cons, Prod.mk.injEq] at hm
    rcases hm with ⟨rfl, rfl⟩ | hm
    · simp [g_hash_table_lookup]
    · have hne : ¬ k1 = k := by
        intro e
        apply hn.1
        rw [e]
        exact List.mem_map_of_mem Prod.fst hm
      simp [g_hash_table_lookup, hne, ih hn.2 hm]

theorem group_lookup (key : FmFileInfo → Option String) (l : List FmFileInfo) :
    ∀ (h : Buckets) (t : String),
      g_hash_table_lookup (group key h l) t =
        (l.filter (fun fi => decide (key fi = some t))).reverse ++ g_hash_table_lookup h t := by
  induction l with
  | nil => intro h t; simp [group]
  | cons fi rest ih =>
    intro h t
    cases hk : key fi with
    | none => simp [group, hk, ih, List.filter_cons]
    | some t1 =>
      simp only [group, hk, ih, bucket_prepend, lookup_insert, List.filter_cons]
      by_cases ht : t = t1
      · subst ht; simp
      · have ht2 : ¬ t1 = t := fun e => ht e.symm
        simp [ht, ht2]

theorem group_keys (key : FmFileInfo → Option String) (l : List FmFileInfo) :
    ∀ (h : Buckets), (h.map Prod.fst).Nodup →
      ((group key h l).map Prod.fst).Nodup ∧
      ∀ t, t ∈ (group key h l).map Prod.fst ↔
        (t ∈ h.map Prod.fst ∨ ∃ fi ∈ l, key fi = some t) := by
  induction l with
  | nil => intro h hn; simp [group, hn]
  | cons fi rest ih =>
    intro h hn
    cases hk : key fi with
    | none =>
      simp only [group, hk]
      refine ⟨(ih h hn).1, fun t => ?_⟩
      rw [(ih h hn).2 t]
      simp [hk]
    | some t1 =>
      simp only [group, hk]
      have hkeys := keys_insert h t1 (fi :: g_hash_table_lookup h t1)
      have hn2 : ((bucket_prepend h t1 fi).map Prod.fst).Nodup := by
        unfold bucket_prepend
        rw [hkeys]
        by_cases hm : t1 ∈ h.map Prod.fst
        · simp only [hm, if_true]; exact hn
        · simp only [hm, if_false]
          rw [List.nodup_append]
          refine ⟨hn, List.nodup_singleton _, ?_⟩
          intro a ha hb
          simp only [List.mem_singleton] at hb
          subst hb
          exact hm ha
      refine ⟨(ih _ hn2).1, fun t => ?_⟩
      rw [(ih _ hn2).2 t]
      unfold bucket_prepend
      rw [hkeys]
      by_cases hm : t1 ∈ h.map Prod.fst
      · simp only [hm, if_true, List.mem_cons, exists_eq_or_imp, hk, Option.some.injEq]
        constructor
        · rintro (h1 | h1)
          · exact Or.inl h1
          · exact Or.inr (Or.inr h1)
        · rintro (h1 | h1 | h1)
          · exact Or.inl h1
          · subst h1; exact Or.inl hm
          · exact Or.inr h1
      · simp only [hm, if_false, List.mem_append, List.mem_singleton, List.mem_cons,
          exists_eq_or_imp, hk, Option.some.injEq, List.not_mem_nil, or_false]
        constructor
        · rintro ((h1 | h1) | h1)
          · exact Or.inl h1
          · exact Or.inr (Or.inl h1.symm)
          · exact Or.inr (Or.inr h1)
        · rintro (h1 | h1 | h1)
          · exact Or.inl (Or.inl h1)
          · exact Or.inl (Or.inr h1.symm)
          · exact Or.inr h1

theorem try_execute_of_falls_through (env : Env) (launcher : FmFileLauncher) (cwd0 : String)
    (fi : FmFileInfo) (filename : String)
    (hf : falls_through env launcher fi filename = true) :
    try_execute env launcher cwd0 fi filename =
      (ExecFlow.fall_through, if launcher.exec_file.isSome then [Effect.exec_file fi] else []) := by
  unfold falls_through at hf
  unfold try_execute
  cases he : launcher.exec_file with
  | none => simp
  | some f =>
    simp only [he] at hf
    cases ha : f fi with
    | EXEC =>
      simp only [ha] at hf
      simp only [Option.isNone_iff_eq_none] at hf
      simp [ha, run_executable, hf]
    | EXEC_IN_TERMINAL =>
      simp only [ha] at hf
      simp only [Option.isNone_iff_eq_none] at hf
      simp [ha, run_executable, hf]
    | EXEC_OPEN => simp [ha]
    | EXEC_CANCEL => simp [ha] at hf

theorem typed_path_of_type (launcher : FmFileLauncher) (st : ScanState) (fi : FmFileInfo)
    (t : String) (ht : fi.mime_type.bind (fun m => m.type) = some t) :
    typed_path launcher st fi = ({ st with hash := bucket_prepend st.hash t fi }, []) := by
  unfold typed_path
  simp [ht]

theorem execute_or_type_of_falls_through (env : Env) (launcher : FmFileLauncher)
    (st : ScanState) (fi : FmFileInfo) (filename : String) (t : String)
    (hf : falls_through env launcher fi filename = true)
    (ht : fi.mime_type.bind (fun m => m.type) = some t) :
    execute_or_type env launcher st fi filename =
      ({ st with hash := bucket_prepend st.hash t fi },
       if launcher.exec_file.isSome then [Effect.exec_file fi] else []) := by
  unfold execute_or_type
  rw [try_execute_of_falls_through env launcher st.cwd fi filename hf]
  simp [typed_path_of_type launcher st fi t ht]

theorem handle_typed (env : Env) (launcher : FmFileLauncher) (st : ScanState)
    (fi : FmFileInfo) (t : String) (hreach : st.crashed = false)
    (hkey : typed_key env launcher fi = some t) :
    (handle env launcher st fi).1 = { st with hash := bucket_prepend st.hash t fi } ∧
    (handle env launcher st fi).2.filter is_launch_uris = [] := by
  have hex : ∀ filename, falls_through env launcher fi filename = true →
      fi.mime_type.bind (fun m => m.type) = some t →
      (execute_or_type env launcher st fi filename).1 =
        { st with hash := bucket_prepend st.hash t fi } ∧
      (execute_or_type env launcher st fi filename).2.filter is_launch_uris = [] := by
    intro filename hf ht
    rw [execute_or_type_of_falls_through env launcher st fi filename t hf ht]
    cases launcher.exec_file <;> simp [is_launch_uris]
  have hty : fi.mime_type.bind (fun m => m.type) = some t →
      (typed_path launcher st fi).1 = { st with hash := bucket_prepend st.hash t fi } ∧
      (typed_path launcher st fi).2.filter is_launch_uris = [] := by
    intro ht
    rw [typed_path_of_type launcher st fi t ht]
    simp
  unfold typed_key exec_filename at hkey
  by_cases h1 : (launcher.open_folder.isSome && fi.is_dir) = true
  · simp [h1] at hkey
  by_cases h2 : fi.is_desktop_entry = true
  · simp [h2] at hkey
  by_cases h3 : fi.path.native = true
  · by_cases h4 : fi.is_shortcut = true
    · by_cases h5 : env.file_test_is_executable fi.target = true
      · simp [h1, h2, h3, h4, h5] at hkey
        have hh : handle env launcher st fi = execute_or_type env launcher st fi fi.target := by
          unfold handle; simp [hreach, h1, h2, h3, h4, h5]
        rw [hh]
        exact hex _ hkey.1 hkey.2
      · simp [h1, h2, h3, h4, h5] at hkey
    · by_cases h5 : fi.is_executable_type = true
      · by_cases h6 : env.file_test_is_executable fi.path.str = true
        · simp [h1, h2, h3, h4, h5, h6] at hkey
          have hh : handle env launcher st fi =
              execute_or_type env launcher st fi fi.path.str := by
            unfold handle; simp [hreach, h1, h2, h3, h4, h5, h6]
          rw [hh]
          exact hex _ hkey.1 hkey.2
        · simp [h1, h2, h3, h4, h5, h6] at hkey
          have hh : handle env launcher st fi = typed_path launcher st fi := by
            unfold handle; simp [hreach, h1, h2, h3, h4, h5, h6]
          rw [hh]
          exact hty hkey
      · simp [h1, h2, h3, h4, h5] at hkey
        have hh : handle env launcher st fi = typed_path launcher st fi := by
          unfold handle; simp [hreach, h1, h2, h3, h4, h5]
        rw [hh]
        exact hty hkey
  · simp [h1, h2, h3] at hkey
    have hh : handle env launcher st fi = typed_path launcher st fi := by
      unfold handle; simp [hreach, h1, h2, h3]
    rw [hh]
    exact hty hkey

theorem scan_typed (env : Env) (launcher : FmFileLauncher) (l : List FmFileInfo) :
    ∀ st : ScanState, st.crashed = false →
      (∀ fi ∈ l, (typed_key env launcher fi).isSome = true) →
      (scan env launcher st l).1 =
        { st with hash := group (typed_key env launcher) st.hash l } ∧
      (scan env launcher st l).2.filter is_launch_uris = [] := by
  induction l with
  | nil => intro st _ _; simp [scan, group]
  | cons fi rest ih =>
    intro st hst hl
    have hfi := hl fi (List.mem_cons_self _ _)
    obtain ⟨t, ht⟩ := Option.isSome_iff_exists.mp hfi
    have hh := handle_typed env launcher st fi t hst ht
    have hrest := ih (handle env launcher st fi).1 (by rw [hh.1]; exact hst)
      (fun f hf => hl f (List.mem_cons_of_mem _ hf))
    simp only [scan, group, ht, List.filter_append, hh.2, hrest.2, List.append_nil]
    rw [hrest.1, hh.1]
    simp

theorem launch_bucket_launches (env : Env) (launcher : FmFileLauncher)
    (b : String × List FmFileInfo) :
    (launch_bucket env launcher b).2.filter is_launch_uris =
      ((resolve_app env launcher b.1 b.2).1.map
        (fun app => Effect.launch_uris app (b.2.map launch_id).reverse)).toList := by
  have hres : (resolve_app env launcher b.1 b.2).2.filter is_launch_uris = [] := by
    unfold resolve_app
    cases env.default_for_type b.1 with
    | some a => rfl
    | none =>
      cases launcher.get_app with
      | none => rfl
      | some g => simp [is_launch_uris]
  unfold launch_bucket
  cases h1 : (resolve_app env launcher b.1 b.2).1 with
  | none =>
    by_cases h : launcher.error.isSome = true <;>
      simp [h, h1, List.filter_append, hres, is_launch_uris]
  | some app =>
    cases h2 : env.app_info_launch_uris app (List.map launch_id b.2).reverse <;>
      by_cases h : launcher.error.isSome = true <;>
      simp [h, h1, h2, List.filter_append, hres, is_launch_uris]

theorem launch_buckets_launches (env : Env) (launcher : FmFileLauncher) (bs : Buckets)
    (h : (launch_buckets env launcher bs).1 = false) :
    (launch_buckets env launcher bs).2.filter is_launch_uris =
      bs.flatMap (fun b => ((resolve_app env launcher b.1 b.2).1.map
        (fun app => Effect.launch_uris app (b.2.map launch_id).reverse)).toList) := by
  induction bs with
  | nil => rfl
  | cons b rest ih =>
    simp only [launch_buckets] at h ⊢
    cases hb : (launch_bucket env launcher b).1 with
    | true => simp [hb] at h
    | false =>
      simp only [hb] at h ⊢
      simp only [Bool.false_eq_true, if_false] at h ⊢
      rw [List.filter_append, ih h, launch_bucket_launches]
      simp

theorem flatMap_congr_mem {α β : Type} (l : List α) (f g : α → List β)
    (h : ∀ x ∈ l, f x = g x) : l.flatMap f = l.flatMap g := by
  induction l with
  | nil => rfl
  | cons a rest ih =>
    simp only [List.flatMap_cons]
    rw [h a (List.mem_cons_self _ _), ih (fun x hx => h x (List.mem_cons_of_mem _ hx))]

/-- Batches of refs on the typed path (lines 290-296): the scan builds one bucket per
distinct content type, holding the refs of that type newest first, and makes no launch;
and when the call returns, the handler launches are, in the iteration order of the table,
one per bucket that resolves to a handler, each with the identifiers of the refs of that
type in input order. -/
theorem typed_batch_grouping (env : Env) (launcher : FmFileLauncher) (cwd : String)
    (file_infos : List FmFileInfo)
    (htyped : ∀ fi ∈ file_infos, (typed_key env launcher fi).isSome = true) :
    (scan env launcher ⟨[], [], cwd, false⟩ file_infos).1 =
      ⟨group (typed_key env launcher) [] file_infos, [], cwd, false⟩ ∧
    ((group (typed_key env launcher) [] file_infos).map Prod.fst).Nodup ∧
    (∀ t, t ∈ (group (typed_key env launcher) [] file_infos).map Prod.fst ↔
      ∃ fi ∈ file_infos, typed_key env launcher fi = some t) ∧
    (∀ b ∈ group (typed_key env launcher) [] file_infos,
      b.2 = (file_infos.filter
        (fun fi => decide (typed_key env launcher fi = some b.1))).reverse) ∧
    ((fm_launch_files env launcher cwd file_infos).ret = some true →
      (fm_launch_files env launcher cwd file_infos).trace.filter is_launch_uris =
        (env.hash_iter (group (typed_key env launcher) [] file_infos)).val.flatMap
          (fun b => ((resolve_app env launcher b.1 b.2).1.map
            (fun app => Effect.launch_uris app
              ((file_infos.filter
                (fun fi => decide (typed_key env launcher fi = some b.1))).map
                  launch_id))).toList)) := by
  have hs := scan_typed env launcher file_infos ⟨[], [], cwd, false⟩ rfl htyped
  have hs1 : (scan env launcher ⟨[], [], cwd, false⟩ file_infos).1 =
      ⟨group (typed_key env launcher) [] file_infos, [], cwd, false⟩ := hs.1
  have hk := group_keys (typed_key env launcher) file_infos [] (by simp)
  have hval : ∀ b ∈ group (typed_key env launcher) [] file_infos,
      b.2 = (file_infos.filter
        (fun fi => decide (typed_key env launcher fi = some b.1))).reverse := by
    intro b hb
    have h1 := lookup_of_mem _ hk.1 b.1 b.2 hb
    rw [group_lookup] at h1
    simpa [g_hash_table_lookup] using h1.symm
  refine ⟨hs1, hk.1, fun t => ?_, hval, fun hret => ?_⟩
  · rw [hk.2 t]; simp
  · have hb : (launch_buckets env launcher
        (env.hash_iter (group (typed_key env launcher) [] file_infos)).val).1 = false := by
      cases h : (launch_buckets env launcher
        (env.hash_iter (group (typed_key env launcher) [] file_infos)).val).1
      · rfl
      · unfold fm_launch_files at hret
        dsimp only at hret
        rw [hs1] at hret
        simp [h] at hret
    have htrace : (fm_launch_files env launcher cwd file_infos).trace =
        (scan env launcher ⟨[], [], cwd, false⟩ file_infos).2 ++
        (launch_buckets env launcher
          (env.hash_iter (group (typed_key env launcher) [] file_infos)).val).2 := by
      unfold fm_launch_files
      dsimp only
      rw [hs1]
      simp [hb, open_folders]
    rw [htrace, List.filter_append, hs.2, List.nil_append,
      launch_buckets_launches env launcher _ hb]
    apply flatMap_congr_mem
    intro b hb2
    have hmem : b ∈ group (typed_key env launcher) [] file_infos :=
      (env.hash_iter _).property.subset hb2
    rw [hval b hmem]
    simp [List.map_reverse]

/-- The grouping on the sample data: `a.txt` and `c.txt` of type `text/plain` around `b.png`
of type `image/png` give two launches, `[a.txt, c.txt]` for the editor and `[b.png]` for
the viewer. -/
theorem typed_batch_grouping_example :
    (fm_launch_files sample_env bare_launcher "/home/user"
        [plain_file "a.txt" "text/plain", plain_file "b.png" "image/png",
         plain_file "c.txt" "text/plain"]).trace.filter is_launch_uris =
      [Effect.launch_uris ⟨"editor"⟩ ["file:///home/user/a.txt", "file:///home/user/c.txt"],
       Effect.launch_uris ⟨"viewer"⟩ ["file:///home/user/b.png"]] := by
  rw [(typed_batch_grouping sample_env bare_launcher "/home/user"
        [plain_file "a.txt" "text/plain", plain_file "b.png" "image/png",
         plain_file "c.txt" "text/plain"] (by decide)).2.2.2.2 (by decide)]
  decide

/-! ### fm_launch_desktop_entry -/

theorem fm_launch_desktop_entry_cases (env : Env) (launcher : FmFileLauncher)
    (file_or_id : String) (uris : List String) :
    fm_launch_desktop_entry env launcher file_or_id uris =
      match desktop_entry_app env file_or_id with
      | some a =>
        (match env.app_info_launch_uris a uris with
         | none => (true, [Effect.launch_uris a uris])
         | some err =>
           (false, Effect.launch_uris a uris ::
             (if launcher.error.isSome then [Effect.error err] else [])))
      | none =>
        if launcher.error.isSome then
          (false, [Effect.error ⟨G_IO_ERROR, G_IO_ERROR_FAILED,
            "Invalid desktop entry file: '" ++ file_or_id ++ "'"⟩])
        else (false, []) := by
  rfl

/-- C11: `fm_launch_desktop_entry` returns TRUE exactly when the desktop entry resolves to an
application and the launch of that application succeeds; when the entry does not resolve
it returns FALSE and its only call is, with an error callback registered, one report of
the error "Invalid desktop entry file"; in every case the error callback is called at
most once, never without being registered, and no `NULL` pointer is called. -/
theorem desktop_entry_returns_launch_result (env : Env) (launcher : FmFileLauncher)
    (file_or_id : String) (uris : List String) :
    ((fm_launch_desktop_entry env launcher file_or_id uris).1 = true ↔
      ∃ app, desktop_entry_app env file_or_id = some app ∧
        env.app_info_launch_uris app uris = none) ∧
    (desktop_entry_app env file_or_id = none →
      (fm_launch_desktop_entry env launcher file_or_id uris).1 = false ∧
      (fm_launch_desktop_entry env launcher file_or_id uris).2 =
        if launcher.error.isSome then
          [Effect.error ⟨G_IO_ERROR, G_IO_ERROR_FAILED,
            "Invalid desktop entry file: '" ++ file_or_id ++ "'"⟩]
        else []) ∧
    ((fm_launch_desktop_entry env launcher file_or_id uris).2.filter is_error_call).length ≤ 1 ∧
    (launcher.error.isSome = false →
      (fm_launch_desktop_entry env launcher file_or_id uris).2.filter is_error_call = []) ∧
    (fm_launch_desktop_entry env launcher file_or_id uris).2.filter is_null_call = [] := by
  rw [fm_launch_desktop_entry_cases]
  cases happ : desktop_entry_app env file_or_id with
  | none =>
    by_cases herr : launcher.error.isSome = true <;>
      simp [herr, is_error_call, is_null_call]
  | some a =>
    cases hl : env.app_info_launch_uris a uris with
    | none => simp [hl, is_error_call, is_null_call]
    | some err =>
      by_cases herr : launcher.error.isSome = true <;>
        simp [hl, herr, is_error_call, is_null_call]

/-! ### on_ask_rename and on_error, continued -/

theorem cache_verdict_default_opt (d : FmProgressDisplay) (a : Bool) (res : Int) :
    (cache_verdict d a res).default_opt =
      if a = true ∧ (res = FM_FILE_OP_OVERWRITE ∨ res = FM_FILE_OP_SKIP) then res
      else d.default_opt := by
  unfold cache_verdict
  cases a
  · simp
  · by_cases h : res = RESPONSE_OVERWRITE ∨ res = FM_FILE_OP_SKIP
    · have h2 : res = FM_FILE_OP_OVERWRITE ∨ res = FM_FILE_OP_SKIP := h
      simp [h, h2]
    · have h2 : ¬ (res = FM_FILE_OP_OVERWRITE ∨ res = FM_FILE_OP_SKIP) := h
      simp [h, h2]

/-- Without a cached verdict, `on_ask_rename` runs the dialog. -/
theorem on_ask_rename_prompts (d : FmProgressDisplay) (ui : AskRenameDialog) (sd : Bool)
    (h : d.default_opt = 0) : (on_ask_rename d ui sd).dialog_run = true := by
  unfold on_ask_rename
  simp [h]

/-- C17: `on_ask_rename` caches a verdict as the default of the display only when the dialog
was run with "apply to all" checked and the verdict is Overwrite or Skip.  After Rename
(response 2), or after any response other than 1, 2 and 3 (dialog dismissed), the verdict
is Rename or Cancel, the default stays 0 even with "apply to all" checked, and the next
call runs the dialog again. -/
theorem verdict_cached_only_for_overwrite_or_skip (d : FmProgressDisplay)
    (ui : AskRenameDialog) (sd : Bool) :
    (on_ask_rename d ui sd).data.default_opt =
      (if d.default_opt ≠ 0 then d.default_opt
       else if ui.apply_all = true ∧
          (rename_verdict ui.response = FM_FILE_OP_OVERWRITE ∨
           rename_verdict ui.response = FM_FILE_OP_SKIP)
         then rename_verdict ui.response
       else 0) ∧
    (rename_verdict ui.response = FM_FILE_OP_OVERWRITE ↔ ui.response = RESPONSE_OVERWRITE) ∧
    (rename_verdict ui.response = FM_FILE_OP_SKIP ↔ ui.response = RESPONSE_SKIP) ∧
    (rename_verdict ui.response = FM_FILE_OP_RENAME ↔ ui.response = RESPONSE_RENAME) ∧
    (rename_verdict ui.response = FM_FILE_OP_CANCEL ↔
      (ui.response ≠ RESPONSE_OVERWRITE ∧ ui.response ≠ RESPONSE_RENAME ∧
       ui.response ≠ RESPONSE_SKIP)) ∧
    (d.default_opt = 0 → ui.response ≠ RESPONSE_OVERWRITE → ui.response ≠ RESPONSE_SKIP →
      (on_ask_rename d ui sd).data.default_opt = 0 ∧
      ∀ ui2 sd2, (on_ask_rename (on_ask_rename d ui sd).data ui2 sd2).dialog_run = true) := by
  have hv1 : rename_verdict ui.response = FM_FILE_OP_OVERWRITE ↔
      ui.response = RESPONSE_OVERWRITE := by
    unfold rename_verdict RESPONSE_RENAME RESPONSE_OVERWRITE RESPONSE_SKIP FM_FILE_OP_RENAME
      FM_FILE_OP_OVERWRITE FM_FILE_OP_SKIP FM_FILE_OP_CANCEL
    constructor
    · intro h; split_ifs at h <;> simp_all
    · intro h; simp [h]
  have hv2 : rename_verdict ui.response = FM_FILE_OP_SKIP ↔ ui.response = RESPONSE_SKIP := by
    unfold rename_verdict RESPONSE_RENAME RESPONSE_OVERWRITE RESPONSE_SKIP FM_FILE_OP_RENAME
      FM_FILE_OP_OVERWRITE FM_FILE_OP_SKIP FM_FILE_OP_CANCEL
    constructor
    · intro h; split_ifs at h <;> simp_all
    · intro h; simp [h]
  have hv3 : rename_verdict ui.response = FM_FILE_OP_RENAME ↔ ui.response = RESPONSE_RENAME := by
    unfold rename_verdict RESPONSE_RENAME RESPONSE_OVERWRITE RESPONSE_SKIP FM_FILE_OP_RENAME
      FM_FILE_OP_OVERWRITE FM_FILE_OP_SKIP FM_FILE_OP_CANCEL
    constructor
    · intro h; split_ifs at h <;> simp_all
    · intro h; simp [h]
  have hv4 : rename_verdict ui.response = FM_FILE_OP_CANCEL ↔
      (ui.response ≠ RESPONSE_OVERWRITE ∧ ui.response ≠ RESPONSE_RENAME ∧
       ui.response ≠ RESPONSE_SKIP) := by
    unfold rename_verdict RESPONSE_RENAME RESPONSE_OVERWRITE RESPONSE_SKIP FM_FILE_OP_RENAME
      FM_FILE_OP_OVERWRITE FM_FILE_OP_SKIP FM_FILE_OP_CANCEL
    constructor
    · intro h; split_ifs at h <;> simp_all
    · rintro ⟨h1, h2, h3⟩; simp [h1, h2, h3]
  have hmain : (on_ask_rename d ui sd).data.default_opt =
      (if d.default_opt ≠ 0 then d.default_opt
       else if ui.apply_all = true ∧
          (rename_verdict ui.response = FM_FILE_OP_OVERWRITE ∨
           rename_verdict ui.response = FM_FILE_OP_SKIP)
         then rename_verdict ui.response
       else 0) := by
    unfold on_ask_rename
    by_cases h0 : d.default_opt = 0
    · simp only [h0, ne_eq, not_true_eq_false, if_false]
      rw [set_timer_default_opt, cache_verdict_default_opt, ensure_dlg_default_opt,
        set_timer_default_opt, h0]
    · simp [h0]
  refine ⟨hmain, hv1, hv2, hv3, hv4, fun h0 h1 h2 => ?_⟩
  have hz : (on_ask_rename d ui sd).data.default_opt = 0 := by
    rw [hmain]
    simp [h0, hv1, hv2, h1, h2]
  exact ⟨hz, fun ui2 sd2 => on_ask_rename_prompts _ ui2 sd2 hz⟩

/-- C18: `on_error` returns `FM_JOB_ABORT` exactly for a cancellation (domain `G_IO_ERROR`,
code `G_IO_ERROR_CANCELLED`), and then leaves the whole display as it is: `has_error`
and the error log included. -/
theorem on_error_aborts_only_on_cancel (d : FmProgressDisplay) (err : GError) (sd : Bool) :
    ((on_error d err sd).1 = FmJobErrorAction.FM_JOB_ABORT ↔
      (err.domain = G_IO_ERROR ∧ err.code = G_IO_ERROR_CANCELLED)) ∧
    ((err.domain = G_IO_ERROR ∧ err.code = G_IO_ERROR_CANCELLED) →
      (on_error d err sd).2 = d ∧
      (on_error d err sd).2.has_error = d.has_error ∧
      (on_error d err sd).2.error_buf = d.error_buf) := by
  unfold on_error
  by_cases h1 : err.domain = G_IO_ERROR ∧ err.code = G_IO_ERROR_CANCELLED
  · simp [h1]
  · rw [if_neg h1]
    by_cases h2 : err.domain = G_IO_ERROR ∧ err.code = G_IO_ERROR_FAILED_HANDLED
    · rw [if_pos h2]
      exact ⟨⟨fun h => by simp at h, fun h => absurd h h1⟩, fun h => absurd h h1⟩
    · rw [if_neg h2]
      exact ⟨⟨fun h => by simp at h, fun h => absurd h h1⟩, fun h => absurd h h1⟩

/-! ### The executable decision, continued -/

/-- C14, as stated, fails: `/gone/tool.sh` is run directly, the switch to `/gone` fails and
is reported, the launch is attempted from the unchanged working directory, and no `chdir`
follows the launch: restoring the working directory is not attempted. -/
theorem no_restore_after_failed_switch_counterexample :
    exec_filename gone_env (exec_launcher FmFileLauncherExecAction.EXEC) gone_tool =
        some "/gone/tool.sh" ∧
    gone_env.chdir "/gone" = some 2 ∧
    handle gone_env (exec_launcher FmFileLauncherExecAction.EXEC)
        ⟨[], [], "/home/user", false⟩ gone_tool =
      (⟨[], [], "/home/user", false⟩,
       [Effect.exec_file gone_tool, Effect.chdir "/gone" false,
        Effect.error ⟨G_IO_ERROR, 1,
          "Cannot set working directory to '/gone': No such file or directory"⟩,
        Effect.launch ⟨"'/gone/tool.sh'"⟩ "/home/user"]) := by
  decide

/-- C14, amended: when the switch of the working directory to the directory of the
executable fails, the calls made for the ref are, in this order: the `exec_file` callback,
the failed `chdir`, the report of that failure through the error callback if one is
registered, the launch of the executable (attempted from the unchanged working directory),
and the report of a launch failure if any.  No `chdir` follows the launch: the saved
directory is dropped (line 249) and no restore is attempted, the working directory not
having changed. -/
theorem failed_switch_reported_then_launch (env : Env) (launcher : FmFileLauncher)
    (st : ScanState) (fi : FmFileInfo) (filename : String)
    (exec_file : FmFileInfo → FmFileLauncherExecAction) (app : GAppInfo) (errno : Nat)
    (hreach : st.crashed = false)
    (hexec : exec_filename env launcher fi = some filename)
    (hcb : launcher.exec_file = some exec_file)
    (hrun : exec_file fi = FmFileLauncherExecAction.EXEC ∨
            exec_file fi = FmFileLauncherExecAction.EXEC_IN_TERMINAL)
    (happ : env.create_from_commandline (env.shell_quote filename)
              (decide (exec_file fi = FmFileLauncherExecAction.EXEC_IN_TERMINAL)) = some app)
    (hdot : env.path_get_dirname filename ≠ ".")
    (hfail : env.chdir (env.path_get_dirname filename) = some errno) :
    handle env launcher st fi =
      (st,
       [Effect.exec_file fi, Effect.chdir (env.path_get_dirname filename) false] ++
       (if launcher.error.isSome then
          [Effect.error ⟨G_IO_ERROR, env.io_error_from_errno errno,
            "Cannot set working directory to '" ++ env.path_get_dirname filename ++ "': " ++
              env.strerror errno⟩]
        else []) ++
       [Effect.launch app st.cwd] ++
       (match env.app_info_launch app st.cwd with
        | none => []
        | some err => if launcher.error.isSome then [Effect.error err] else [])) := by
  rw [handle_exec env launcher st fi filename hreach hexec]
  have key : ∀ nt : Bool, env.create_from_commandline (env.shell_quote filename) nt = some app →
      run_executable env launcher st.cwd filename nt =
        (ExecFlow.next st.cwd,
         [Effect.chdir (env.path_get_dirname filename) false] ++
         (if launcher.error.isSome then
            [Effect.error ⟨G_IO_ERROR, env.io_error_from_errno errno,
              "Cannot set working directory to '" ++ env.path_get_dirname filename ++ "': " ++
                env.strerror errno⟩]
          else []) ++
         [Effect.launch app st.cwd] ++
         (match env.app_info_launch app st.cwd with
          | none => []
          | some err => if launcher.error.isSome then [Effect.error err] else [])) := by
    intro nt hnt
    unfold run_executable
    simp only [hnt]
    cases hl : env.app_info_launch app st.cwd <;>
      by_cases herr : launcher.error.isSome = true <;>
      simp [hdot, hfail, hl, herr]
  rcases hrun with h | h
  · rw [h] at happ
    have he := key false (by simpa using happ)
    simp [execute_or_type, try_execute, hcb, h, he]
  · rw [h] at happ
    have he := key true (by simpa using happ)
    simp [execute_or_type, try_execute, hcb, h, he]

/-- Witness of C14 (amended) on the sample data: `/gone/tool.sh` run from `/home/user`. -/
theorem failed_switch_reported_then_launch_witness :
    handle gone_env (exec_launcher FmFileLauncherExecAction.EXEC)
        ⟨[], [], "/home/user", false⟩ gone_tool =
      (⟨[], [], "/home/user", false⟩,
       [Effect.exec_file gone_tool, Effect.chdir "/gone" false,
        Effect.error ⟨G_IO_ERROR, 1,
          "Cannot set working directory to '/gone': No such file or directory"⟩,
        Effect.launch ⟨"'/gone/tool.sh'"⟩ "/home/user"]) := by
  rw [failed_switch_reported_then_launch gone_env (exec_launcher FmFileLauncherExecAction.EXEC)
    ⟨[], [], "/home/user", false⟩ gone_tool "/gone/tool.sh"
    (fun _ => FmFileLauncherExecAction.EXEC) ⟨"'/gone/tool.sh'"⟩ 2 rfl (by decide) rfl
    (Or.inl rfl) (by decide) (by decide) (by decide)]
  decide

theorem typed_path_no_exec_decision (launcher : FmFileLauncher) (st : ScanState)
    (fi : FmFileInfo) :
    (typed_path launcher st fi).2.filter is_exec_decision = [] := by
  unfold typed_path
  cases h0 : fi.mime_type.bind (fun m => m.type) with
  | none => by_cases h : launcher.error.isSome = true <;> simp [h, is_exec_decision]
  | some t => simp

theorem launch_scheme_no_exec_decision (env : Env) (launcher : FmFileLauncher)
    (st : ScanState) (fi : FmFileInfo) (scheme : String) :
    (launch_scheme env launcher st fi scheme).2.filter is_exec_decision = [] := by
  unfold launch_scheme
  cases h1 : env.default_for_uri_scheme scheme with
  | none => by_cases h : launcher.error.isSome = true <;> simp [h, is_exec_decision]
  | some app =>
    cases h2 : env.app_info_launch_infos app [fi] <;>
      by_cases h : launcher.error.isSome = true <;> simp [h, h2, is_exec_decision]

theorem shortcut_by_target_no_exec_decision (env : Env) (launcher : FmFileLauncher)
    (st : ScanState) (fi : FmFileInfo) :
    (shortcut_by_target env launcher st fi).2.filter is_exec_decision = [] := by
  unfold shortcut_by_target
  by_cases h1 : env.mime_type_from_file_name fi.target = inode_directory
  · simp [h1]
  · cases h2 : (env.mime_type_from_file_name fi.target).type with
    | none => by_cases h : launcher.error.isSome = true <;> simp [h1, h2, h, is_exec_decision]
    | some t => simp [h1, h2]

theorem fm_launch_desktop_entry_no_exec_decision (env : Env) (launcher : FmFileLauncher)
    (file_or_id : String) (uris : List String) :
    (fm_launch_desktop_entry env launcher file_or_id uris).2.filter is_exec_decision = [] := by
  rw [fm_launch_desktop_entry_cases]
  cases happ : desktop_entry_app env file_or_id with
  | none => by_cases h : launcher.error.isSome = true <;> simp [h, is_exec_decision]
  | some a =>
    cases h2 : env.app_info_launch_uris a uris <;>
      by_cases h : launcher.error.isSome = true <;> simp [h, h2, is_exec_decision]

/-- C16, as stated, fails: the target `run.sh` of a native shortcut is not an absolute path,
`g_file_test` finds it executable (relative to the working directory), and the target is
run directly. -/
theorem relative_target_executed_counterexample :
    gone_env.path_is_absolute "run.sh" = false ∧
    (shortcut_file "run.lnk" "run.sh").is_shortcut = true ∧
    (shortcut_file "run.lnk" "run.sh").is_desktop_entry = false ∧
    handle gone_env (exec_launcher FmFileLauncherExecAction.EXEC)
        ⟨[], [], "/home/user", false⟩ (shortcut_file "run.lnk" "run.sh") =
      (⟨[], [], "/home/user", false⟩,
       [Effect.exec_file (shortcut_file "run.lnk" "run.sh"),
        Effect.launch ⟨"'run.sh'"⟩ "/home/user"]) := by
  decide

/-- C16, amended: the iteration of the loop on a shortcut ref calls `exec_file` or launches
a command line directly only if the ref is no desktop entry, is not grouped as a
directory, has a native path, and `g_file_test` reports its target executable (line 152);
the file name handed to the executable decision is then the target.  No test of the
target being an absolute path is made. -/
theorem shortcut_executed_only_if_target_executable (env : Env) (launcher : FmFileLauncher)
    (st : ScanState) (fi : FmFileInfo)
    (hsc : fi.is_shortcut = true)
    (hdec : (handle env launcher st fi).2.filter is_exec_decision ≠ []) :
    fi.is_desktop_entry = false ∧
    (launcher.open_folder.isSome && fi.is_dir) = false ∧
    fi.path.native = true ∧
    env.file_test_is_executable fi.target = true ∧
    exec_filename env launcher fi = some fi.target ∧
    handle env launcher st fi = execute_or_type env launcher st fi fi.target := by
  by_cases hc : st.crashed = true
  · rw [handle_of_crashed env launcher st fi hc] at hdec
    exact absurd rfl hdec
  have hc2 : st.crashed = false := by simpa using hc
  by_cases h1 : (launcher.open_folder.isSome && fi.is_dir) = true
  · have : handle env launcher st fi = ({ st with folders := fi :: st.folders }, []) := by
      unfold handle; simp [hc2, h1]
    rw [this] at hdec
    exact absurd rfl hdec
  by_cases h2 : fi.is_desktop_entry = true
  · have : handle env launcher st fi =
        (st, (fm_launch_desktop_entry env launcher fi.target []).2) := by
      unfold handle; simp [hc2, h1, h2, hsc]
    rw [this] at hdec
    exact absurd (fm_launch_desktop_entry_no_exec_decision env launcher _ _) hdec
  by_cases h3 : fi.path.native = true
  · by_cases h5 : env.file_test_is_executable fi.target = true
    · have hex : exec_filename env launcher fi = some fi.target := by
        unfold exec_filename; simp [h1, h2, h3, hsc, h5]
      refine ⟨by simpa using h2, by simpa using h1, h3, h5, hex, ?_⟩
      exact handle_exec env launcher st fi fi.target hc2 hex
    · exfalso
      apply hdec
      cases h6 : env.uri_parse_scheme fi.target with
      | none =>
        have : handle env launcher st fi = shortcut_by_target env launcher st fi := by
          unfold handle; simp [hc2, h1, h2, h3, hsc, h5, h6]
        rw [this]; exact shortcut_by_target_no_exec_decision env launcher st fi
      | some scheme =>
        by_cases h8 : scheme_is_internal scheme = true
        · have : handle env launcher st fi = shortcut_by_target env launcher st fi := by
            unfold handle; simp [hc2, h1, h2, h3, hsc, h5, h6, h8]
          rw [this]; exact shortcut_by_target_no_exec_decision env launcher st fi
        · have : handle env launcher st fi = launch_scheme env launcher st fi scheme := by
            unfold handle; simp [hc2, h1, h2, h3, hsc, h5, h6, h8]
          rw [this]; exact launch_scheme_no_exec_decision env launcher st fi scheme
  · exfalso
    apply hdec
    have : handle env launcher st fi = typed_path launcher st fi := by
      unfold handle; simp [hc2, h1, h2, h3]
    rw [this]; exact typed_path_no_exec_decision launcher st fi

/-- Witness of C16 (amended) on the sample data: the shortcut to `run.sh`. -/
theorem shortcut_executed_only_if_target_executable_witness :
    (shortcut_file "run.lnk" "run.sh").path.native = true ∧
    gone_env.file_test_is_executable (shortcut_file "run.lnk" "run.sh").target = true :=
  ⟨(shortcut_executed_only_if_target_executable gone_env
      (exec_launcher FmFileLauncherExecAction.EXEC) ⟨[], [], "/home/user", false⟩
      (shortcut_file "run.lnk" "run.sh") rfl (by decide)).2.2.1,
   (shortcut_executed_only_if_target_executable gone_env
      (exec_launcher FmFileLauncherExecAction.EXEC) ⟨[], [], "/home/user", false⟩
      (shortcut_file "run.lnk" "run.sh") rfl (by decide)).2.2.2.1⟩

/-! ### Refs whose content type cannot be determined -/

theorem execute_or_type_falls (env : Env) (launcher : FmFileLauncher)
    (st : ScanState) (fi : FmFileInfo) (filename : String)
    (hf : falls_through env launcher fi filename = true) :
    execute_or_type env launcher st fi filename =
      ((typed_path launcher st fi).1,
       (if launcher.exec_file.isSome then [Effect.exec_file fi] else []) ++
         (typed_path launcher st fi).2) := by
  unfold execute_or_type
  rw [try_execute_of_falls_through env launcher st.cwd fi filename hf]

theorem handle_of_reaches_typed_path (env : Env) (launcher : FmFileLauncher) (st : ScanState)
    (fi : FmFileInfo) (hreach : st.crashed = false)
    (hr : reaches_typed_path env launcher fi = true) :
    (handle env launcher st fi).1 = (typed_path launcher st fi).1 ∧
    ∃ pre, pre.filter is_error_call = [] ∧
      (handle env launcher st fi).2 = pre ++ (typed_path launcher st fi).2 := by
  have hex : ∀ filename, falls_through env launcher fi filename = true →
      (execute_or_type env launcher st fi filename).1 = (typed_path launcher st fi).1 ∧
      ∃ pre, pre.filter is_error_call = [] ∧
        (execute_or_type env launcher st fi filename).2 =
          pre ++ (typed_path launcher st fi).2 := by
    intro filename hf
    rw [execute_or_type_falls env launcher st fi filename hf]
    refine ⟨rfl, _, ?_, rfl⟩
    cases launcher.exec_file <;> simp [is_error_call]
  have hty : (typed_path launcher st fi).1 = (typed_path launcher st fi).1 ∧
      ∃ pre, pre.filter is_error_call = [] ∧
        (typed_path launcher st fi).2 = pre ++ (typed_path launcher st fi).2 :=
    ⟨rfl, [], rfl, rfl⟩
  unfold reaches_typed_path exec_filename at hr
  by_cases h1 : (launcher.open_folder.isSome && fi.is_dir) = true
  · simp [h1] at hr
  by_cases h2 : fi.is_desktop_entry = true
  · simp [h2] at hr
  by_cases h3 : fi.path.native = true
  · by_cases h4 : fi.is_shortcut = true
    · by_cases h5 : env.file_test_is_executable fi.target = true
      · simp [h1, h2, h3, h4, h5] at hr
        have hh : handle env launcher st fi = execute_or_type env launcher st fi fi.target := by
          unfold handle; simp [hreach, h1, h2, h3, h4, h5]
        rw [hh]
        exact hex _ hr
      · simp [h1, h2, h3, h4, h5] at hr
    · by_cases h5 : fi.is_executable_type = true
      · by_cases h6 : env.file_test_is_executable fi.path.str = true
        · simp [h1, h2, h3, h4, h5, h6] at hr
          have hh : handle env launcher st fi =
              execute_or_type env launcher st fi fi.path.str := by
            unfold handle; simp [hreach, h1, h2, h3, h4, h5, h6]
          rw [hh]
          exact hex _ hr
        · have hh : handle env launcher st fi = typed_path launcher st fi := by
            unfold handle; simp [hreach, h1, h2, h3, h4, h5, h6]
          rw [hh]
          exact hty
      · have hh : handle env launcher st fi = typed_path launcher st fi := by
          unfold handle; simp [hreach, h1, h2, h3, h4, h5]
        rw [hh]
        exact hty
  · have hh : handle env launcher st fi = typed_path launcher st fi := by
      unfold handle; simp [hreach, h1, h2, h3]
    rw [hh]
    exact hty

theorem handle_of_reaches_target_type (env : Env) (launcher : FmFileLauncher) (st : ScanState)
    (fi : FmFileInfo) (hreach : st.crashed = false)
    (hr : reaches_target_type env launcher fi = true) :
    handle env launcher st fi = shortcut_by_target env launcher st fi := by
  unfold reaches_target_type at hr
  simp only [Bool.and_eq_true, Bool.not_eq_true', Bool.not_eq_eq_eq_not, Bool.not_true] at hr
  obtain ⟨⟨⟨⟨⟨h1, h2⟩, h3⟩, h4⟩, h5⟩, h6⟩ := hr
  unfold handle
  cases h7 : env.uri_parse_scheme fi.target with
  | none => simp [hreach, h1, h2, h3, h4, h5]
  | some scheme =>
    rw [h7] at h6
    simp at h6
    simp [hreach, h1, h2, h3, h4, h5, h6]

/-- C20: with an error callback registered, the iteration of the loop on a ref that is on a
typed path (line 290, or line 191 for a shortcut classified by its target) and whose
content type cannot be determined calls the error callback exactly once and leaves the
buckets, the folder list and the working directory as they are (no bucket gets the ref);
and the scan of a list containing the ref ends in the same state, with the same calls
for all other refs, as the scan of the list without it. -/
theorem undetermined_type_reported_once (env : Env) (launcher : FmFileLauncher)
    (st : ScanState) (fi : FmFileInfo)
    (herr : launcher.error.isSome = true)
    (hreach : st.crashed = false)
    (hund : type_undetermined env launcher fi = true) :
    (handle env launcher st fi).1 = st ∧
    ((handle env launcher st fi).2.filter is_error_call).length = 1 ∧
    ∀ (st0 : ScanState) (l1 l2 : List FmFileInfo),
      (scan env launcher st0 (l1 ++ fi :: l2)).1 = (scan env launcher st0 (l1 ++ l2)).1 ∧
      (scan env launcher st0 (l1 ++ fi :: l2)).2 =
        (scan env launcher st0 l1).2 ++
          (handle env launcher (scan env launcher st0 l1).1 fi).2 ++
          (scan env launcher (scan env launcher st0 l1).1 l2).2 ∧
      (scan env launcher st0 (l1 ++ l2)).2 =
        (scan env launcher st0 l1).2 ++
          (scan env launcher (scan env launcher st0 l1).1 l2).2 := by
  have hstep : ∀ s : ScanState, s.crashed = false →
      (handle env launcher s fi).1 = s ∧
      ((handle env launcher s fi).2.filter is_error_call).length = 1 := by
    intro s hs
    unfold type_undetermined at hund
    simp only [Bool.or_eq_true, Bool.and_eq_true, Option.isNone_iff_eq_none] at hund
    rcases hund with ⟨hr, ht⟩ | ⟨hr, ht⟩
    · obtain ⟨h1, pre, hpre, h2⟩ := handle_of_reaches_typed_path env launcher s fi hs hr
      rw [h1, h2, List.filter_append, hpre]
      unfold typed_path
      simp [ht, herr, is_error_call]
    · rw [handle_of_reaches_target_type env launcher s fi hs hr]
      unfold shortcut_by_target
      have hne : env.mime_type_from_file_name fi.target ≠ inode_directory := by
        intro h
        rw [h] at ht
        simp [inode_directory] at ht
      simp [hne, ht, herr, is_error_call]
  have hstate : ∀ s : ScanState, (handle env launcher s fi).1 = s := by
    intro s
    cases hc : s.crashed
    · exact (hstep s hc).1
    · rw [handle_of_crashed env launcher s fi hc]
  exact ⟨(hstep st hreach).1, (hstep st hreach).2,
    fun st0 l1 l2 => scan_frame env launcher fi hstate st0 l1 l2⟩

/-- Witness of C20 on the sample data: a file of unknown type between two text files. -/
theorem undetermined_type_reported_once_witness :
    (handle sample_env error_launcher ⟨[], [], "/home/user", false⟩ untyped_file).1 =
      ⟨[], [], "/home/user", false⟩ ∧
    ((handle sample_env error_launcher ⟨[], [], "/home/user", false⟩ untyped_file).2.filter
      is_error_call).length = 1 ∧
    (scan sample_env error_launcher ⟨[], [], "/home/user", false⟩
        ([plain_file "a.txt" "text/plain"] ++ untyped_file :: [plain_file "b.txt" "text/plain"])).1
      = (scan sample_env error_launcher ⟨[], [], "/home/user", false⟩
        ([plain_file "a.txt" "text/plain"] ++ [plain_file "b.txt" "text/plain"])).1 :=
  ⟨(undetermined_type_reported_once sample_env error_launcher ⟨[], [], "/home/user", false⟩
      untyped_file rfl rfl (by decide)).1,
   (undetermined_type_reported_once sample_env error_launcher ⟨[], [], "/home/user", false⟩
      untyped_file rfl rfl (by decide)).2.1,
   ((undetermined_type_reported_once sample_env error_launcher ⟨[], [], "/home/user", false⟩
      untyped_file rfl rfl (by decide)).2.2 ⟨[], [], "/home/user", false⟩
      [plain_file "a.txt" "text/plain"] [plain_file "b.txt" "text/plain"]).1⟩

/-! ### Shortcuts with an external scheme -/

/-- C15, as stated, fails.  (1) Without an error callback, a native shortcut to a `gopher:`
address, a scheme without handler, is dropped without any error report.  (2) With a folder
opener registered, a native shortcut to an `smb:` share that is flagged as a directory is
put on the folder list although its target has an external scheme. -/
theorem external_scheme_counterexample :
    (scheme_env.uri_parse_scheme "gopher://example.org/" = some "gopher" ∧
      scheme_is_internal "gopher" = false ∧
      scheme_env.default_for_uri_scheme "gopher" = none ∧
      handle scheme_env bare_launcher ⟨[], [], "/home/user", false⟩
          (shortcut_file "gopher.lnk" "gopher://example.org/") =
        (⟨[], [], "/home/user", false⟩, [])) ∧
    (share_shortcut.is_shortcut = true ∧ share_shortcut.is_desktop_entry = false ∧
      share_shortcut.path.native = true ∧
      scheme_env.file_test_is_executable share_shortcut.target = false ∧
      scheme_env.uri_parse_scheme share_shortcut.target = some "smb" ∧
      scheme_is_internal "smb" = false ∧
      handle scheme_env folder_launcher ⟨[], [], "/home/user", false⟩ share_shortcut =
        (⟨[], [share_shortcut], "/home/user", false⟩, [])) := by
  decide

/-- C15, amended: with an error callback registered, a native shortcut that is no desktop
entry, is not grouped as a directory and whose target is not executable is handled as an
external-scheme resource exactly when its target has a URI scheme other than file, trash,
network, computer and menu.  Its iteration then leaves buckets and folder list as they are
and makes these calls only: the launch of the default handler of the scheme with that
single ref (followed by the report of the launch error, if any), or, without handler, one
error report; the scan of a list containing the ref ends in the same state, with the same
calls for the other refs, as without it.  With one of the five schemes, or without
scheme, the shortcut is classified by the guessed content type of its target. -/
theorem external_scheme_shortcut (env : Env) (launcher : FmFileLauncher)
    (st : ScanState) (fi : FmFileInfo)
    (herr : launcher.error.isSome = true)
    (hreach : st.crashed = false)
    (hdir : (launcher.open_folder.isSome && fi.is_dir) = false)
    (hde : fi.is_desktop_entry = false)
    (hnat : fi.path.native = true)
    (hsc : fi.is_shortcut = true)
    (hx : env.file_test_is_executable fi.target = false) :
    (∀ scheme, env.uri_parse_scheme fi.target = some scheme →
      scheme_is_internal scheme = false →
      handle env launcher st fi =
        (st,
         match env.default_for_uri_scheme scheme with
         | some app =>
           Effect.launch_infos app [fi] ::
             (match env.app_info_launch_infos app [fi] with
              | none => []
              | some err => [Effect.error err])
         | none =>
           [Effect.error ⟨G_IO_ERROR, G_IO_ERROR_FAILED,
             "No default application is set to launch URIs " ++ scheme ++ "://"⟩]) ∧
      ∀ (st0 : ScanState) (l1 l2 : List FmFileInfo),
        (scan env launcher st0 (l1 ++ fi :: l2)).1 = (scan env launcher st0 (l1 ++ l2)).1 ∧
        (scan env launcher st0 (l1 ++ fi :: l2)).2 =
          (scan env launcher st0 l1).2 ++
            (handle env launcher (scan env launcher st0 l1).1 fi).2 ++
            (scan env launcher (scan env launcher st0 l1).1 l2).2 ∧
        (scan env launcher st0 (l1 ++ l2)).2 =
          (scan env launcher st0 l1).2 ++
            (scan env launcher (scan env launcher st0 l1).1 l2).2) ∧
    ((env.uri_parse_scheme fi.target = none ∨
        ∃ scheme, env.uri_parse_scheme fi.target = some scheme ∧
          scheme_is_internal scheme = true) →
      handle env launcher st fi = shortcut_by_target env launcher st fi) := by
  constructor
  · intro scheme hs hext
    have hstep : ∀ s : ScanState, s.crashed = false →
        handle env launcher s fi =
          (s,
           match env.default_for_uri_scheme scheme with
           | some app =>
             Effect.launch_infos app [fi] ::
               (match env.app_info_launch_infos app [fi] with
                | none => []
                | some err => [Effect.error err])
           | none =>
             [Effect.error ⟨G_IO_ERROR, G_IO_ERROR_FAILED,
               "No default application is set to launch URIs " ++ scheme ++ "://"⟩]) := by
      intro s hc
      have hh : handle env launcher s fi = launch_scheme env launcher s fi scheme := by
        unfold handle; simp [hc, hdir, hde, hnat, hsc, hx, hs, hext]
      rw [hh]
      unfold launch_scheme
      cases h1 : env.default_for_uri_scheme scheme with
      | none => simp [herr]
      | some app => cases h2 : env.app_info_launch_infos app [fi] <;> simp [herr, h2]
    have hstate : ∀ s : ScanState, (handle env launcher s fi).1 = s := by
      intro s
      cases hc : s.crashed
      · rw [hstep s hc]
      · rw [handle_of_crashed env launcher s fi hc]
    exact ⟨hstep st hreach, fun st0 l1 l2 => scan_frame env launcher fi hstate st0 l1 l2⟩
  · intro h
    unfold handle
    rcases h with h | ⟨scheme, h, hint⟩
    · simp [hreach, hdir, hde, hnat, hsc, hx, h]
    · simp [hreach, hdir, hde, hnat, hsc, hx, h, hint]

/-- Witness of C15 (amended) on the sample data: a shortcut to a `mailto:` address, whose
handler fails to launch. -/
theorem external_scheme_shortcut_witness :
    handle sample_env error_launcher ⟨[], [], "/home/user", false⟩
        (shortcut_file "mail.lnk" "mailto:someone@example.org") =
      (⟨[], [], "/home/user", false⟩,
       [Effect.launch_infos ⟨"mailer"⟩ [shortcut_file "mail.lnk" "mailto:someone@example.org"],
        Effect.error spawn_failed]) := by
  rw [((external_scheme_shortcut sample_env error_launcher ⟨[], [], "/home/user", false⟩
        (shortcut_file "mail.lnk" "mailto:someone@example.org") rfl rfl rfl rfl rfl rfl
        (by decide)).1 "mailto" (by decide) (by decide)).1]
  decide

/-! ### Order of the calls -/

/-- What `fm_launch_paths` returns: FALSE without calling `fm_launch_files` when the query
fails or yields no file info; otherwise whatever the single call of `fm_launch_files` on
the file infos of the query returns. -/
theorem fm_launch_paths_result (env : Env) (job : FileInfoJob) (launcher : FmFileLauncher)
    (cwd : String) (paths : List FmPath) :
    ((job paths (fun err current =>
          (on_query_target_info_error launcher err current).1)).ret = false ∨
      (job paths (fun err current =>
          (on_query_target_info_error launcher err current).1)).file_infos = [] →
      (fm_launch_paths env job launcher cwd paths).ret = some false ∧
      (fm_launch_paths env job launcher cwd paths).launch = none) ∧
    ((job paths (fun err current =>
          (on_query_target_info_error launcher err current).1)).ret = true →
      (job paths (fun err current =>
          (on_query_target_info_error launcher err current).1)).file_infos ≠ [] →
      (fm_launch_paths env job launcher cwd paths).launch =
        some (fm_launch_files env launcher cwd
          (job paths (fun err current =>
            (on_query_target_info_error launcher err current).1)).file_infos) ∧
      (fm_launch_paths env job launcher cwd paths).ret =
        (fm_launch_files env launcher cwd
          (job paths (fun err current =>
            (on_query_target_info_error launcher err current).1)).file_infos).ret) := by
  unfold fm_launch_paths
  constructor
  · rintro (h | h)
    · simp [h]
    · cases hr : (job paths (fun err current =>
          (on_query_target_info_error launcher err current).1)).ret <;> simp [h]
  · intro h1 h2
    simp [h1, h2]

/-- C12: the query succeeds and yields one file info, a native shortcut to a `mailto:`
address; no error callback is registered and the handler of the scheme fails to launch.
`fm_launch_files` is called once with that file info and calls the `NULL` pointer
`launcher->error` (line 182): `fm_launch_paths` does not return TRUE, it does not
return. -/
theorem fm_launch_paths_does_not_return :
    (mail_job [⟨"/home/user/mail.lnk", "file:///home/user/mail.lnk", true⟩]
        (fun err current => (on_query_target_info_error bare_launcher err current).1)).ret
      = true ∧
    (mail_job [⟨"/home/user/mail.lnk", "file:///home/user/mail.lnk", true⟩]
        (fun err current =>
          (on_query_target_info_error bare_launcher err current).1)).file_infos =
      [shortcut_file "mail.lnk" "mailto:someone@example.org"] ∧
    fm_launch_paths sample_env mail_job bare_launcher "/home/user"
        [⟨"/home/user/mail.lnk", "file:///home/user/mail.lnk", true⟩] =
      ⟨none, [],
       some ⟨none,
         [Effect.launch_infos ⟨"mailer"⟩
            [shortcut_file "mail.lnk" "mailto:someone@example.org"],
          Effect.null_call],
         "/home/user"⟩⟩ := by
  decide

/-! ### The terminal notification of a job -/

/-- A run on the sample display: two files, the second with an error, cancelled by the
owner: `on_cancelled` then `on_finished` end the callbacks, and later events are mute. -/
theorem terminal_notification_example :
    (job_run ⟨JobState.Pending, false, some sample_display⟩
        [JobEvent.step, JobEvent.step, JobEvent.current_item "a.txt", JobEvent.percent 50,
         JobEvent.item_done, JobEvent.current_item "b.txt",
         JobEvent.item_error ⟨G_IO_ERROR, 14, "Permission denied"⟩ false false,
         JobEvent.cancel, JobEvent.item_done, JobEvent.percent 100, JobEvent.all_done]).2 =
      [Callback.prepared, Callback.cur_file "a.txt", Callback.percent 50,
       Callback.cur_file "b.txt",
       Callback.error ⟨G_IO_ERROR, 14, "Permission denied"⟩ false,
       Callback.cancelled, Callback.finished] := by
  decide

/-! ### fm_askv -/

theorem add_buttons_ids (options : List String) :
    ∀ (id : Int) (i : Nat), i < options.length →
      ((add_buttons id options).map Prod.snd)[i]? = some (id + i) := by
  induction options with
  | nil => intro id i hi; simp at hi
  | cons o rest ih =>
    intro id i hi
    cases i with
    | zero => simp [add_buttons]
    | succ j =>
      simp only [List.length_cons, Nat.add_lt_add_iff_right] at hi
      simp only [add_buttons, List.map_cons, List.getElem?_cons_succ]
      rw [ih (id + 1) j hi]
      congr 1
      push_cast
      ring

/-- C24: the k-th option's button of `fm_askv` has the response id k, and a dialog that
ends with it makes `fm_askv` return the zero-based index k-1; but a dialog that ends with
a response below 1 makes `fm_askv` return that response unchanged, since line 91,
`ret == -1;`, compares and assigns nothing: closing the dialog
(`GTK_RESPONSE_DELETE_EVENT`) gives -4, not -1, and -1 is returned only for the response
that is -1 itself (`GTK_RESPONSE_NONE`).  The caller `on_ask` hands back whatever its own
`fm_askv` call returns, -4 included. -/
theorem fm_askv_returns_response_below_one (options : List String) :
    (∀ i : Nat, i < options.length →
      ((fm_askv_buttons options).map Prod.snd)[i]? = some ((i : Int) + 1) ∧
      fm_askv options ((i : Int) + 1) = (i : Int)) ∧
    (∀ response : Int, response < 1 → fm_askv options response = response) ∧
    fm_askv options GTK_RESPONSE_DELETE_EVENT = -4 ∧
    fm_askv options GTK_RESPONSE_DELETE_EVENT ≠ -1 ∧
    fm_askv options GTK_RESPONSE_NONE = -1 ∧
    (∀ (d : FmProgressDisplay) (ret : Int) (sd : Bool),
      (on_ask d options ret sd).1 = ret) := by
  refine ⟨fun i hi => ⟨?_, ?_⟩, fun response h => ?_, ?_, ?_, ?_, fun d ret sd => rfl⟩
  · unfold fm_askv_buttons
    rw [add_buttons_ids options 1 i hi]
    congr 1
    ring
  · unfold fm_askv
    have h : (i : Int) + 1 ≥ 1 := by omega
    simp [h]
  · unfold fm_askv
    have h2 : ¬ response ≥ 1 := by omega
    simp [h2]
  · simp [fm_askv, GTK_RESPONSE_DELETE_EVENT]
  · simp [fm_askv, GTK_RESPONSE_DELETE_EVENT]
  · simp [fm_askv, GTK_RESPONSE_NONE]

/-! ### The error handler of the file-info query -/

/-- C22: the handler that `fm_launch_paths` connects to the "error" signal of the query
answers `FM_JOB_CONTINUE` when the launcher has no error callback or the callback returns
TRUE, and `FM_JOB_RETRY` exactly when a callback is registered and returns FALSE; it
never answers `FM_JOB_ABORT`; it calls the error callback once per raised error when it
is registered (with that error and the current file info) and not at all otherwise; and
the calls made during `fm_launch_paths` are those of the handler on the errors the query
raised, in order, at most one per error. -/
theorem query_error_continue_or_retry (launcher : FmFileLauncher) (err : GError)
    (current : Option FmFileInfo) :
    (launcher.error = none →
      on_query_target_info_error launcher err current =
        (FmJobErrorAction.FM_JOB_CONTINUE, [])) ∧
    (∀ f, launcher.error = some f → f err current = true →
      on_query_target_info_error launcher err current =
        (FmJobErrorAction.FM_JOB_CONTINUE, [(err, current)])) ∧
    (∀ f, launcher.error = some f → f err current = false →
      on_query_target_info_error launcher err current =
        (FmJobErrorAction.FM_JOB_RETRY, [(err, current)])) ∧
    ((on_query_target_info_error launcher err current).1 = FmJobErrorAction.FM_JOB_RETRY ↔
      ∃ f, launcher.error = some f ∧ f err current = false) ∧
    (on_query_target_info_error launcher err current).1 ≠ FmJobErrorAction.FM_JOB_ABORT ∧
    (on_query_target_info_error launcher err current).2.length ≤ 1 ∧
    (∀ (env : Env) (job : FileInfoJob) (cwd : String) (paths : List FmPath),
      (fm_launch_paths env job launcher cwd paths).error_calls =
        (job paths (fun e c => (on_query_target_info_error launcher e c).1)).raised.flatMap
          (fun r => (on_query_target_info_error launcher r.1 r.2).2) ∧
      (fm_launch_paths env job launcher cwd paths).error_calls.length ≤
        (job paths (fun e c => (on_query_target_info_error launcher e c).1)).raised.length) := by
  have hlen : (on_query_target_info_error launcher err current).2.length ≤ 1 := by
    unfold on_query_target_info_error
    cases h : launcher.error with
    | none => simp
    | some f => cases hf : f err current <;> simp [hf]
  have hcalls : ∀ (env : Env) (job : FileInfoJob) (cwd : String) (paths : List FmPath),
      (fm_launch_paths env job launcher cwd paths).error_calls =
        (job paths (fun e c => (on_query_target_info_error launcher e c).1)).raised.flatMap
          (fun r => (on_query_target_info_error launcher r.1 r.2).2) := by
    intro env job cwd paths
    unfold fm_launch_paths
    dsimp only
    split
    · split <;> rfl
    · rfl
  have hbound : ∀ l : List (GError × Option FmFileInfo),
      (l.flatMap (fun r => (on_query_target_info_error launcher r.1 r.2).2)).length ≤
        l.length := by
    intro l
    induction l with
    | nil => simp
    | cons r rest ih =>
      have h1 : (on_query_target_info_error launcher r.1 r.2).2.length ≤ 1 := by
        unfold on_query_target_info_error
        cases h : launcher.error with
        | none => simp
        | some f => cases hf : f r.1 r.2 <;> simp [hf]
      simp only [List.flatMap_cons, List.length_append, List.length_cons]
      omega
  refine ⟨?_, ?_, ?_, ?_, ?_, hlen, fun env job cwd paths => ⟨hcalls env job cwd paths, ?_⟩⟩
  · intro h
    unfold on_query_target_info_error
    simp [h]
  · intro f h hf
    unfold on_query_target_info_error
    simp [h, hf]
  · intro f h hf
    unfold on_query_target_info_error
    simp [h, hf]
  · unfold on_query_target_info_error
    cases h : launcher.error with
    | none => simp
    | some f => cases hf : f err current <;> simp [hf]
  · unfold on_query_target_info_error
    cases h : launcher.error with
    | none => simp
    | some f => cases hf : f err current <;> simp [hf]
  · rw [hcalls env job cwd paths]
    exact hbound _

/-! ### The calls of `launcher->error` without an error callback -/

/-- C23: with `launcher->error` absent, (1) a scheme handler whose launch fails makes lines
180-184 call the `NULL` pointer, (2) a bucket handler whose launch fails makes lines
347-351 call the `NULL` pointer, while (3) the direct execution of lines 232-277 tests the
pointer first and never calls it.  (4) On the sample data, the failed direct launch of
`/bin/fail.sh` passes without a call, and the failed launch of the handler of `song.mp3`
is followed by the call of the `NULL` pointer: `fm_launch_files` does not return. -/
theorem absent_error_callback_called_after_failed_launch (env : Env)
    (get_app : Option (List FmFileInfo → Option FmMimeType → Option GAppInfo))
    (open_folder : Option (List FmFileInfo → Option GError))
    (exec_file : Option (FmFileInfo → FmFileLauncherExecAction)) :
    (∀ (st : ScanState) (fi : FmFileInfo) (scheme : String) (app : GAppInfo) (err : GError),
      env.default_for_uri_scheme scheme = some app →
      env.app_info_launch_infos app [fi] = some err →
      launch_scheme env ⟨get_app, open_folder, exec_file, none⟩ st fi scheme =
        ({ st with crashed := true }, [Effect.launch_infos app [fi], Effect.null_call])) ∧
    (∀ (b : String × List FmFileInfo) (app : GAppInfo) (err : GError),
      (resolve_app env ⟨get_app, open_folder, exec_file, none⟩ b.1 b.2).1 = some app →
      env.app_info_launch_uris app (b.2.map launch_id).reverse = some err →
      launch_bucket env ⟨get_app, open_folder, exec_file, none⟩ b =
        (true, (resolve_app env ⟨get_app, open_folder, exec_file, none⟩ b.1 b.2).2 ++
          [Effect.launch_uris app (b.2.map launch_id).reverse, Effect.null_call])) ∧
    (∀ (cwd0 filename : String) (needs_terminal : Bool),
      (run_executable env ⟨get_app, open_folder, exec_file, none⟩ cwd0 filename
        needs_terminal).2.filter (fun e => is_null_call e || is_error_call e) = []) ∧
    fm_launch_files sample_env run_launcher "/home/user"
        [fail_sh, plain_file "song.mp3" "audio/mpeg"] =
      ⟨none,
       [Effect.exec_file fail_sh, Effect.chdir "/bin" true,
        Effect.launch ⟨"'/bin/fail.sh'"⟩ "/bin", Effect.chdir "/home/user" true,
        Effect.launch_uris ⟨"broken"⟩ ["file:///home/user/song.mp3"], Effect.null_call],
       "/home/user"⟩ := by
  refine ⟨?_, ?_, ?_, by decide⟩
  · intro st fi scheme app err h1 h2
    unfold launch_scheme
    simp [h1, h2]
  · intro b app err h1 h2
    unfold launch_bucket
    simp [h1, h2]
  · intro cwd0 filename needs_terminal
    unfold run_executable
    cases h1 : env.create_from_commandline (env.shell_quote filename) needs_terminal with
    | none => simp
    | some app =>
      by_cases h2 : env.path_get_dirname filename = "."
      · cases h3 : env.app_info_launch app cwd0 <;>
          simp [h2, h3, is_null_call, is_error_call]
      · cases h4 : env.chdir (env.path_get_dirname filename) with
        | none =>
          cases h3 : env.app_info_launch app
              (chdir_target env cwd0 (env.path_get_dirname filename)) <;>
            cases h5 : env.chdir cwd0 <;>
            simp [h2, h3, h4, h5, is_null_call, is_error_call]
        | some errno =>
          cases h3 : env.app_info_launch app cwd0 <;>
            simp [h2, h3, h4, is_null_call, is_error_call]

/-! ### Buckets only grow, at the front -/

theorem lookup_bucket_prepend (h : Buckets) (k t : String) (fi : FmFileInfo) :
    g_hash_table_lookup (bucket_prepend h k fi) t =
      if t = k then fi :: g_hash_table_lookup h k else g_hash_table_lookup h t := by
  unfold bucket_prepend
  exact lookup_insert h k t _

theorem typed_path_lookup (launcher : FmFileLauncher) (st : ScanState) (fi : FmFileInfo)
    (t : String) :
    g_hash_table_lookup (typed_path launcher st fi).1.hash t = g_hash_table_lookup st.hash t ∨
    g_hash_table_lookup (typed_path launcher st fi).1.hash t =
      fi :: g_hash_table_lookup st.hash t := by
  unfold typed_path
  cases h0 : fi.mime_type.bind (fun m => m.type) with
  | none => by_cases h : launcher.error.isSome = true <;> simp [h]
  | some k =>
    simp only [lookup_bucket_prepend]
    by_cases hk : t = k
    · subst hk; simp
    · simp [hk]

theorem execute_or_type_lookup (env : Env) (launcher : FmFileLauncher) (st : ScanState)
    (fi : FmFileInfo) (filename : String) (t : String) :
    g_hash_table_lookup (execute_or_type env launcher st fi filename).1.hash t =
      g_hash_table_lookup st.hash t ∨
    g_hash_table_lookup (execute_or_type env launcher st fi filename).1.hash t =
      fi :: g_hash_table_lookup st.hash t := by
  unfold execute_or_type
  split
  · exact Or.inl rfl
  · exact typed_path_lookup launcher st fi t

theorem launch_scheme_hash (env : Env) (launcher : FmFileLauncher) (st : ScanState)
    (fi : FmFileInfo) (scheme : String) :
    (launch_scheme env launcher st fi scheme).1.hash = st.hash := by
  unfold launch_scheme
  cases h1 : env.default_for_uri_scheme scheme with
  | none => by_cases h : launcher.error.isSome = true <;> simp [h]
  | some app =>
    cases h2 : env.app_info_launch_infos app [fi] <;>
      by_cases h : launcher.error.isSome = true <;> simp [h, h2]

theorem shortcut_by_target_lookup (env : Env) (launcher : FmFileLauncher) (st : ScanState)
    (fi : FmFileInfo) (t : String) :
    g_hash_table_lookup (shortcut_by_target env launcher st fi).1.hash t =
      g_hash_table_lookup st.hash t ∨
    g_hash_table_lookup (shortcut_by_target env launcher st fi).1.hash t =
      fi :: g_hash_table_lookup st.hash t := by
  unfold shortcut_by_target
  by_cases h1 : env.mime_type_from_file_name fi.target = inode_directory
  · simp [h1]
  · cases h2 : (env.mime_type_from_file_name fi.target).type with
    | none => by_cases h : launcher.error.isSome = true <;> simp [h1, h2, h]
    | some k =>
      by_cases hk : t = k
      · subst hk; simp [h1, h2, lookup_bucket_prepend]
      · simp [h1, h2, hk, lookup_bucket_prepend]

theorem handle_lookup (env : Env) (launcher : FmFileLauncher) (st : ScanState)
    (fi : FmFileInfo) (t : String) :
    g_hash_table_lookup (handle env launcher st fi).1.hash t = g_hash_table_lookup st.hash t ∨
    g_hash_table_lookup (handle env launcher st fi).1.hash t =
      fi :: g_hash_table_lookup st.hash t := by
  unfold handle
  split
  · exact Or.inl rfl
  split
  · exact Or.inl rfl
  split
  · exact Or.inl rfl
  split
  · split
    · split
      · exact execute_or_type_lookup env launcher st fi _ t
      · split
        · split
          · exact shortcut_by_target_lookup env launcher st fi t
          · rw [launch_scheme_hash]; exact Or.inl rfl
        · exact shortcut_by_target_lookup env launcher st fi t
    · split
      · split
        · exact execute_or_type_lookup env launcher st fi _ t
        · exact typed_path_lookup launcher st fi t
      · exact typed_path_lookup launcher st fi t
  · exact typed_path_lookup launcher st fi t

/-- The scan only ever prepends to a bucket: after the scan of a list the bucket of a
content type holds, in front of what it held before, some of the refs of the list, the
later ones first. -/
theorem scan_lookup (env : Env) (launcher : FmFileLauncher) (t : String)
    (l : List FmFileInfo) :
    ∀ st : ScanState, ∃ pre : List FmFileInfo, pre.Sublist l.reverse ∧
      g_hash_table_lookup (scan env launcher st l).1.hash t =
        pre ++ g_hash_table_lookup st.hash t := by
  induction l with
  | nil => intro st; exact ⟨[], List.Sublist.refl _, rfl⟩
  | cons fi rest ih =>
    intro st
    obtain ⟨pre, hpre, heq⟩ := ih (handle env launcher st fi).1
    simp only [scan, List.reverse_cons]
    rcases handle_lookup env launcher st fi t with h | h
    · refine ⟨pre, ?_, ?_⟩
      · exact hpre.trans (List.sublist_append_left _ _)
      · rw [heq, h]
    · refine ⟨pre ++ [fi], ?_, ?_⟩
      · exact List.Sublist.append hpre (List.Sublist.refl _)
      · rw [heq, h]; simp

/-! ### Executables opened as documents -/

theorem handle_of_plain_typed_ref (env : Env) (launcher : FmFileLauncher) (st : ScanState)
    (fi : FmFileInfo) (hreach : st.crashed = false)
    (hp : plain_typed_ref launcher fi = true) :
    handle env launcher st fi = typed_path launcher st fi := by
  unfold plain_typed_ref at hp
  simp only [Bool.and_eq_true, Bool.not_eq_true', Bool.not_eq_eq_eq_not, Bool.not_true] at hp
  obtain ⟨⟨⟨h1, h2⟩, h3⟩, h4⟩ := hp
  unfold handle
  by_cases h5 : fi.path.native = true
  · simp [hreach, h1, h2, h3, h4, h5]
  · simp [hreach, h1, h2, h5]

theorem typed_path_quiet (launcher : FmFileLauncher) (st : ScanState) (fi : FmFileInfo) :
    (typed_path launcher st fi).2.filter (fun e => is_direct_launch e || is_chdir e) = [] ∧
    (typed_path launcher st fi).1.cwd = st.cwd := by
  unfold typed_path
  cases h0 : fi.mime_type.bind (fun m => m.type) with
  | none =>
    by_cases h : launcher.error.isSome = true <;> simp [h, is_direct_launch, is_chdir]
  | some t => simp

/-- When the loop reaches it, a ref that arrives at the executable decision and is not run
directly (`exec_file` answers `FM_FILE_LAUNCHER_EXEC_OPEN`, or is not registered, or the
command-line application cannot be created) is handled by lines 290-304 exactly as a ref
that is not executable: the
loop state after its iteration is that of the typed path, its calls are the `exec_file`
call, if the callback is registered, followed by those of the typed path; no command line
is launched, no `chdir` is made and the working directory stays.  When its own content
type is known the ref is prepended to the bucket of that type, which then holds the ref in
front of the refs put there before it and behind those put there after it (the bucket is
reversed when it is launched, so this is its place in input order). -/
theorem executable_as_document_joins_own_bucket (env : Env) (launcher : FmFileLauncher)
    (st0 : ScanState) (l1 l2 : List FmFileInfo) (fi : FmFileInfo) (filename : String)
    (hreach : (scan env launcher st0 l1).1.crashed = false)
    (hexec : exec_filename env launcher fi = some filename)
    (hf : falls_through env launcher fi filename = true) :
    (handle env launcher (scan env launcher st0 l1).1 fi).1 =
      (typed_path launcher (scan env launcher st0 l1).1 fi).1 ∧
    (handle env launcher (scan env launcher st0 l1).1 fi).2 =
      (if launcher.exec_file.isSome then [Effect.exec_file fi] else []) ++
        (typed_path launcher (scan env launcher st0 l1).1 fi).2 ∧
    (∀ g : FmFileInfo, plain_typed_ref launcher g = true →
      handle env launcher (scan env launcher st0 l1).1 g =
        typed_path launcher (scan env launcher st0 l1).1 g) ∧
    (handle env launcher (scan env launcher st0 l1).1 fi).2.filter
      (fun e => is_direct_launch e || is_chdir e) = [] ∧
    (handle env launcher (scan env launcher st0 l1).1 fi).1.cwd =
      (scan env launcher st0 l1).1.cwd ∧
    (∀ t : String, fi.mime_type.bind (fun m => m.type) = some t →
      (handle env launcher (scan env launcher st0 l1).1 fi).1 =
        { (scan env launcher st0 l1).1 with
          hash := bucket_prepend (scan env launcher st0 l1).1.hash t fi } ∧
      (handle env launcher (scan env launcher st0 l1).1 fi).2 =
        (if launcher.exec_file.isSome then [Effect.exec_file fi] else []) ∧
      ∃ pre1 pre2 : List FmFileInfo, pre1.Sublist l1.reverse ∧ pre2.Sublist l2.reverse ∧
        g_hash_table_lookup (scan env launcher st0 (l1 ++ fi :: l2)).1.hash t =
          pre2 ++ fi :: (pre1 ++ g_hash_table_lookup st0.hash t)) := by
  have hh : handle env launcher (scan env launcher st0 l1).1 fi =
      ((typed_path launcher (scan env launcher st0 l1).1 fi).1,
       (if launcher.exec_file.isSome then [Effect.exec_file fi] else []) ++
         (typed_path launcher (scan env launcher st0 l1).1 fi).2) := by
    rw [handle_exec env launcher _ fi filename hreach hexec]
    exact execute_or_type_falls env launcher _ fi filename hf
  have hq := typed_path_quiet launcher (scan env launcher st0 l1).1 fi
  refine ⟨by rw [hh], by rw [hh], ?_, ?_, ?_, ?_⟩
  · intro g hg
    exact handle_of_plain_typed_ref env launcher _ g hreach hg
  · rw [hh]
    simp only [List.filter_append, hq.1, List.append_nil]
    cases launcher.exec_file <;> simp [is_direct_launch, is_chdir]
  · rw [hh]
    exact hq.2
  · intro t ht
    have htp := typed_path_of_type launcher (scan env launcher st0 l1).1 fi t ht
    have h1 : (handle env launcher (scan env launcher st0 l1).1 fi).1 =
        { (scan env launcher st0 l1).1 with
          hash := bucket_prepend (scan env launcher st0 l1).1.hash t fi } := by
      rw [hh, htp]
    refine ⟨h1, by rw [hh, htp]; simp, ?_⟩
    obtain ⟨pre1, hpre1, heq1⟩ := scan_lookup env launcher t l1 st0
    obtain ⟨pre2, hpre2, heq2⟩ :=
      scan_lookup env launcher t l2 (handle env launcher (scan env launcher st0 l1).1 fi).1
    refine ⟨pre1, pre2, hpre1, hpre2, ?_⟩
    rw [scan_append]
    simp only [scan]
    rw [heq2, h1]
    simp only [lookup_bucket_prepend, if_true]
    rw [heq1]

/-- The executable opened as a document on the sample data: the script `/bin/run.sh`
between two other shell scripts that are not executable, with `exec_file` answering
`FM_FILE_LAUNCHER_EXEC_OPEN`. -/
theorem executable_as_document_joins_own_bucket_witness :
    (handle sample_env (exec_launcher FmFileLauncherExecAction.EXEC_OPEN)
        (scan sample_env (exec_launcher FmFileLauncherExecAction.EXEC_OPEN)
          ⟨[], [], "/home/user", false⟩
          [plain_file "a.sh" "application/x-shellscript"]).1 run_sh).1 =
      ⟨[("application/x-shellscript",
          [run_sh, plain_file "a.sh" "application/x-shellscript"])],
        [], "/home/user", false⟩ ∧
    (handle sample_env (exec_launcher FmFileLauncherExecAction.EXEC_OPEN)
        (scan sample_env (exec_launcher FmFileLauncherExecAction.EXEC_OPEN)
          ⟨[], [], "/home/user", false⟩
          [plain_file "a.sh" "application/x-shellscript"]).1 run_sh).2 =
      [Effect.exec_file run_sh] := by
  have h := (executable_as_document_joins_own_bucket sample_env
    (exec_launcher FmFileLauncherExecAction.EXEC_OPEN) ⟨[], [], "/home/user", false⟩
    [plain_file "a.sh" "application/x-shellscript"]
    [plain_file "b.sh" "application/x-shellscript"] run_sh "/bin/run.sh"
    (by decide) (by decide) (by decide)).2.2.2.2.2 "application/x-shellscript" (by decide)
  rw [h.1, h.2.1]
  decide

/-! ### What becomes of each ref of a batch -/

theorem fm_launch_files_of_error (env : Env) (launcher : FmFileLauncher) (cwd : String)
    (file_infos : List FmFileInfo) (herr : launcher.error.isSome = true) :
    fm_launch_files env launcher cwd file_infos =
      ⟨some true,
       (scan env launcher ⟨[], [], cwd, false⟩ file_infos).2 ++
       (env.hash_iter (scan env launcher ⟨[], [], cwd, false⟩ file_infos).1.hash).val.flatMap
         (fun b => (launch_bucket env launcher b).2) ++
       open_folders launcher (scan env launcher ⟨[], [], cwd, false⟩ file_infos).1.folders,
       (scan env launcher ⟨[], [], cwd, false⟩ file_infos).1.cwd⟩ := by
  unfold fm_launch_files
  have hc := scan_not_crashed env launcher herr file_infos ⟨[], [], cwd, false⟩
  simp only [hc, launch_buckets_all env launcher herr]
  simp

theorem mem_of_lookup (h : Buckets) (t : String) (hne : g_hash_table_lookup h t ≠ []) :
    (t, g_hash_table_lookup h t) ∈ h := by
  induction h with
  | nil => simp [g_hash_table_lookup] at hne
  | cons e rest ih =>
    obtain ⟨k, v⟩ := e
    by_cases hk : k = t
    · subst hk; simp [g_hash_table_lookup]
    · simp only [g_hash_table_lookup, hk, if_false] at hne ⊢
      exact List.mem_cons_of_mem _ (ih hne)

theorem handle_folders_grow (env : Env) (launcher : FmFileLauncher) (st : ScanState)
    (fi : FmFileInfo) :
    (handle env launcher st fi).1.folders = st.folders ∨
    (handle env launcher st fi).1.folders = fi :: st.folders := by
  have hs : (shortcut_by_target env launcher st fi).1.folders = st.folders ∨
      (shortcut_by_target env launcher st fi).1.folders = fi :: st.folders := by
    rw [shortcut_by_target_folders]
    by_cases h : env.mime_type_from_file_name fi.target = inode_directory <;> simp [h]
  unfold handle
  split
  · exact Or.inl rfl
  split
  · exact Or.inr rfl
  split
  · exact Or.inl rfl
  split
  · split
    · split
      · exact Or.inl (execute_or_type_folders env launcher st fi _)
      · split
        · split
          · exact hs
          · exact Or.inl (launch_scheme_folders env launcher st fi _)
        · exact hs
    · split
      · split
        · exact Or.inl (execute_or_type_folders env launcher st fi _)
        · exact Or.inl (typed_path_folders launcher st fi)
      · exact Or.inl (typed_path_folders launcher st fi)
  · exact Or.inl (typed_path_folders launcher st fi)

theorem scan_folders_grow (env : Env) (launcher : FmFileLauncher) (l : List FmFileInfo) :
    ∀ st : ScanState, ∃ pre : List FmFileInfo,
      (scan env launcher st l).1.folders = pre ++ st.folders := by
  induction l with
  | nil => intro st; exact ⟨[], rfl⟩
  | cons fi rest ih =>
    intro st
    obtain ⟨pre, heq⟩ := ih (handle env launcher st fi).1
    simp only [scan]
    rcases handle_folders_grow env launcher st fi with h | h
    · exact ⟨pre, by rw [heq, h]⟩
    · exact ⟨pre ++ [fi], by rw [heq, h]; simp⟩

theorem typed_path_accounts (launcher : FmFileLauncher) (st : ScanState) (fi : FmFileInfo)
    (herr : launcher.error.isSome = true) :
    (∃ e ∈ (typed_path launcher st fi).2, is_error_call e = true) ∨
    (∃ t, g_hash_table_lookup (typed_path launcher st fi).1.hash t =
      fi :: g_hash_table_lookup st.hash t) := by
  unfold typed_path
  cases h0 : fi.mime_type.bind (fun m => m.type) with
  | none => exact Or.inl (by simp [herr, is_error_call])
  | some k => exact Or.inr ⟨k, by simp [lookup_bucket_prepend]⟩

theorem shortcut_by_target_accounts (env : Env) (launcher : FmFileLauncher) (st : ScanState)
    (fi : FmFileInfo) (herr : launcher.error.isSome = true) :
    (∃ e ∈ (shortcut_by_target env launcher st fi).2, is_error_call e = true) ∨
    (∃ t, g_hash_table_lookup (shortcut_by_target env launcher st fi).1.hash t =
      fi :: g_hash_table_lookup st.hash t) ∨
    (shortcut_by_target env launcher st fi).1.folders = fi :: st.folders := by
  unfold shortcut_by_target
  by_cases h1 : env.mime_type_from_file_name fi.target = inode_directory
  · exact Or.inr (Or.inr (by simp [h1]))
  · cases h2 : (env.mime_type_from_file_name fi.target).type with
    | none => exact Or.inl (by simp [h1, h2, herr, is_error_call])
    | some k => exact Or.inr (Or.inl ⟨k, by simp [h1, h2, lookup_bucket_prepend]⟩)

theorem launch_scheme_accounts (env : Env) (launcher : FmFileLauncher) (st : ScanState)
    (fi : FmFileInfo) (scheme : String) (herr : launcher.error.isSome = true) :
    (∃ e ∈ (launch_scheme env launcher st fi scheme).2, is_launch e = true) ∨
    (∃ e ∈ (launch_scheme env launcher st fi scheme).2, is_error_call e = true) := by
  unfold launch_scheme
  cases h1 : env.default_for_uri_scheme scheme with
  | none => exact Or.inr (by simp [herr, is_error_call])
  | some app =>
    cases h2 : env.app_info_launch_infos app [fi] <;>
      exact Or.inl (by simp [herr, h2, is_launch])

theorem fm_launch_desktop_entry_accounts (env : Env) (launcher : FmFileLauncher)
    (file_or_id : String) (uris : List String) (herr : launcher.error.isSome = true) :
    (∃ e ∈ (fm_launch_desktop_entry env launcher file_or_id uris).2, is_launch e = true) ∨
    (∃ e ∈ (fm_launch_desktop_entry env launcher file_or_id uris).2,
      is_error_call e = true) := by
  unfold fm_launch_desktop_entry
  cases h1 : (if env.path_is_absolute file_or_id then
      env.desktop_app_info_new_from_filename file_or_id
      else env.desktop_app_info_new file_or_id) with
  | none => exact Or.inr (by simp [herr, is_error_call])
  | some app =>
    cases h2 : env.app_info_launch_uris app uris <;>
      exact Or.inl (by simp [herr, h2, is_launch])

theorem run_executable_cases (env : Env) (launcher : FmFileLauncher) (cwd0 : String)
    (filename : String) (needs_terminal : Bool) :
    run_executable env launcher cwd0 filename needs_terminal = (ExecFlow.fall_through, []) ∨
    ∃ (c : String) (effs : List Effect),
      run_executable env launcher cwd0 filename needs_terminal = (ExecFlow.next c, effs) ∧
      ∃ e ∈ effs, is_launch e = true := by
  unfold run_executable
  cases h1 : env.create_from_commandline (env.shell_quote filename) needs_terminal with
  | none => exact Or.inl rfl
  | some app =>
    exact Or.inr ⟨_, _, rfl, Effect.launch app _,
      List.mem_append_left _ (List.mem_append_right _ (List.mem_cons_self _ _)), rfl⟩

theorem execute_or_type_accounts (env : Env) (launcher : FmFileLauncher) (st : ScanState)
    (fi : FmFileInfo) (filename : String) (herr : launcher.error.isSome = true) :
    (∃ e ∈ (execute_or_type env launcher st fi filename).2, is_launch e = true) ∨
    (∃ e ∈ (execute_or_type env launcher st fi filename).2, is_error_call e = true) ∨
    ((∃ f, launcher.exec_file = some f ∧ f fi = FmFileLauncherExecAction.EXEC_CANCEL) ∧
      (execute_or_type env launcher st fi filename).2 = [Effect.exec_file fi]) ∨
    (∃ t, g_hash_table_lookup (execute_or_type env launcher st fi filename).1.hash t =
      fi :: g_hash_table_lookup st.hash t) := by
  have htyped : ∀ pre : List Effect,
      (∃ e ∈ pre ++ (typed_path launcher st fi).2, is_error_call e = true) ∨
      (∃ t, g_hash_table_lookup (typed_path launcher st fi).1.hash t =
        fi :: g_hash_table_lookup st.hash t) := by
    intro pre
    rcases typed_path_accounts launcher st fi herr with ⟨e, he, h⟩ | h
    · exact Or.inl ⟨e, List.mem_append_right _ he, h⟩
    · exact Or.inr h
  have hrun : ∀ (needs_terminal : Bool),
      try_execute env launcher st.cwd fi filename =
        ((run_executable env launcher st.cwd filename needs_terminal).1,
         Effect.exec_file fi ::
           (run_executable env launcher st.cwd filename needs_terminal).2) →
      (∃ e ∈ (execute_or_type env launcher st fi filename).2, is_launch e = true) ∨
      (∃ e ∈ (execute_or_type env launcher st fi filename).2, is_error_call e = true) ∨
      ((∃ f, launcher.exec_file = some f ∧ f fi = FmFileLauncherExecAction.EXEC_CANCEL) ∧
        (execute_or_type env launcher st fi filename).2 = [Effect.exec_file fi]) ∨
      (∃ t, g_hash_table_lookup (execute_or_type env launcher st fi filename).1.hash t =
        fi :: g_hash_table_lookup st.hash t) := by
    intro needs_terminal htry
    rcases run_executable_cases env launcher st.cwd filename needs_terminal with
      h | ⟨c, effs, h, e, he, hl⟩
    · have heq : execute_or_type env launcher st fi filename =
          ((typed_path launcher st fi).1,
           [Effect.exec_file fi] ++ (typed_path launcher st fi).2) := by
        unfold execute_or_type
        rw [htry, h]
      rw [heq]
      rcases htyped [Effect.exec_file fi] with h2 | h2
      · exact Or.inr (Or.inl h2)
      · exact Or.inr (Or.inr (Or.inr h2))
    · have heq : execute_or_type env launcher st fi filename =
          ({ st with cwd := c }, Effect.exec_file fi :: effs) := by
        unfold execute_or_type
        rw [htry, h]
      rw [heq]
      exact Or.inl ⟨e, List.mem_cons_of_mem _ he, hl⟩
  cases hx : launcher.exec_file with
  | none =>
    have heq : execute_or_type env launcher st fi filename =
        ((typed_path launcher st fi).1, [] ++ (typed_path launcher st fi).2) := by
      unfold execute_or_type try_execute
      simp [hx]
    rw [heq]
    rcases htyped [] with h2 | h2
    · exact Or.inr (Or.inl h2)
    · exact Or.inr (Or.inr (Or.inr h2))
  | some f =>
    rw [← hx]
    cases ha : f fi with
    | EXEC =>
      apply hrun false
      unfold try_execute
      simp only [hx, ha]
    | EXEC_IN_TERMINAL =>
      apply hrun true
      unfold try_execute
      simp only [hx, ha]
    | EXEC_OPEN =>
      have heq : execute_or_type env launcher st fi filename =
          ((typed_path launcher st fi).1,
           [Effect.exec_file fi] ++ (typed_path launcher st fi).2) := by
        unfold execute_or_type try_execute
        simp [hx, ha]
      rw [heq]
      rcases htyped [Effect.exec_file fi] with h2 | h2
      · exact Or.inr (Or.inl h2)
      · exact Or.inr (Or.inr (Or.inr h2))
    | EXEC_CANCEL =>
      have heq : execute_or_type env launcher st fi filename =
          ({ st with cwd := st.cwd }, [Effect.exec_file fi]) := by
        unfold execute_or_type try_execute
        simp [hx, ha]
      rw [heq]
      exact Or.inr (Or.inr (Or.inl ⟨⟨f, hx, ha⟩, rfl⟩))

theorem launch_bucket_accounts (env : Env) (launcher : FmFileLauncher)
    (b : String × List FmFileInfo) (herr : launcher.error.isSome = true) :
    (∃ app, Effect.launch_uris app (b.2.map launch_id).reverse ∈
      (launch_bucket env launcher b).2) ∨
    Effect.error ⟨G_IO_ERROR, G_IO_ERROR_FAILED,
      "No default application is set for MIME type " ++ b.1⟩ ∈
        (launch_bucket env launcher b).2 := by
  unfold launch_bucket
  cases h1 : (resolve_app env launcher b.1 b.2).1 with
  | none => exact Or.inr (by simp [herr, h1])
  | some app =>
    refine Or.inl ⟨app, ?_⟩
    cases h2 : env.app_info_launch_uris app (List.map launch_id b.2).reverse <;>
      simp [herr, h1, h2]

theorem handle_accounts (env : Env) (launcher : FmFileLauncher) (st : ScanState)
    (fi : FmFileInfo) (herr : launcher.error.isSome = true) (hreach : st.crashed = false) :
    (∃ e ∈ (handle env launcher st fi).2, is_launch e = true) ∨
    (∃ e ∈ (handle env launcher st fi).2, is_error_call e = true) ∨
    ((∃ f, launcher.exec_file = some f ∧ f fi = FmFileLauncherExecAction.EXEC_CANCEL) ∧
      (handle env launcher st fi).2 = [Effect.exec_file fi]) ∨
    (∃ t, g_hash_table_lookup (handle env launcher st fi).1.hash t =
      fi :: g_hash_table_lookup st.hash t) ∨
    (handle env launcher st fi).1.folders = fi :: st.folders := by
  have hex : ∀ filename,
      handle env launcher st fi = execute_or_type env launcher st fi filename →
      (∃ e ∈ (handle env launcher st fi).2, is_launch e = true) ∨
      (∃ e ∈ (handle env launcher st fi).2, is_error_call e = true) ∨
      ((∃ f, launcher.exec_file = some f ∧ f fi = FmFileLauncherExecAction.EXEC_CANCEL) ∧
        (handle env launcher st fi).2 = [Effect.exec_file fi]) ∨
      (∃ t, g_hash_table_lookup (handle env launcher st fi).1.hash t =
        fi :: g_hash_table_lookup st.hash t) ∨
      (handle env launcher st fi).1.folders = fi :: st.folders := by
    intro filename hh
    rw [hh]
    rcases execute_or_type_accounts env launcher st fi filename herr with h | h | h | h
    · exact Or.inl h
    · exact Or.inr (Or.inl h)
    · exact Or.inr (Or.inr (Or.inl h))
    · exact Or.inr (Or.inr (Or.inr (Or.inl h)))
  have hty : handle env launcher st fi = typed_path launcher st fi →
      (∃ e ∈ (handle env launcher st fi).2, is_launch e = true) ∨
      (∃ e ∈ (handle env launcher st fi).2, is_error_call e = true) ∨
      ((∃ f, launcher.exec_file = some f ∧ f fi = FmFileLauncherExecAction.EXEC_CANCEL) ∧
        (handle env launcher st fi).2 = [Effect.exec_file fi]) ∨
      (∃ t, g_hash_table_lookup (handle env launcher st fi).1.hash t =
        fi :: g_hash_table_lookup st.hash t) ∨
      (handle env launcher st fi).1.folders = fi :: st.folders := by
    intro hh
    rw [hh]
    rcases typed_path_accounts launcher st fi herr with h | h
    · exact Or.inr (Or.inl h)
    · exact Or.inr (Or.inr (Or.inr (Or.inl h)))
  have hsh : handle env launcher st fi = shortcut_by_target env launcher st fi →
      (∃ e ∈ (handle env launcher st fi).2, is_launch e = true) ∨
      (∃ e ∈ (handle env launcher st fi).2, is_error_call e = true) ∨
      ((∃ f, launcher.exec_file = some f ∧ f fi = FmFileLauncherExecAction.EXEC_CANCEL) ∧
        (handle env launcher st fi).2 = [Effect.exec_file fi]) ∨
      (∃ t, g_hash_table_lookup (handle env launcher st fi).1.hash t =
        fi :: g_hash_table_lookup st.hash t) ∨
      (handle env launcher st fi).1.folders = fi :: st.folders := by
    intro hh
    rw [hh]
    rcases shortcut_by_target_accounts env launcher st fi herr with h | h | h
    · exact Or.inr (Or.inl h)
    · exact Or.inr (Or.inr (Or.inr (Or.inl h)))
    · exact Or.inr (Or.inr (Or.inr (Or.inr h)))
  by_cases h1 : (launcher.open_folder.isSome && fi.is_dir) = true
  · have hh : handle env launcher st fi = ({ st with folders := fi :: st.folders }, []) := by
      unfold handle; simp only [hreach, h1]; simp
    rw [hh]
    exact Or.inr (Or.inr (Or.inr (Or.inr rfl)))
  by_cases h2 : fi.is_desktop_entry = true
  · have hh : handle env launcher st fi =
        (st, (fm_launch_desktop_entry env launcher
          (if fi.is_shortcut then fi.target else fi.path.str) []).2) := by
      unfold handle; simp only [hreach, h1, h2]; simp
    rw [hh]
    rcases fm_launch_desktop_entry_accounts env launcher
      (if fi.is_shortcut then fi.target else fi.path.str) [] herr with h | h
    · exact Or.inl h
    · exact Or.inr (Or.inl h)
  by_cases h3 : fi.path.native = true
  · by_cases h4 : fi.is_shortcut = true
    · by_cases h5 : env.file_test_is_executable fi.target = true
      · apply hex fi.target
        unfold handle; simp [hreach, h1, h2, h3, h4, h5]
      · cases h6 : env.uri_parse_scheme fi.target with
        | none =>
          apply hsh
          unfold handle; simp [hreach, h1, h2, h3, h4, h5, h6]
        | some scheme =>
          by_cases h8 : scheme_is_internal scheme = true
          · apply hsh
            unfold handle; simp [hreach, h1, h2, h3, h4, h5, h6, h8]
          · have hh : handle env launcher st fi = launch_scheme env launcher st fi scheme := by
              unfold handle; simp [hreach, h1, h2, h3, h4, h5, h6, h8]
            rw [hh]
            rcases launch_scheme_accounts env launcher st fi scheme herr with h | h
            · exact Or.inl h
            · exact Or.inr (Or.inl h)
    · by_cases h5 : fi.is_executable_type = true
      · by_cases h6 : env.file_test_is_executable fi.path.str = true
        · apply hex fi.path.str
          unfold handle; simp [hreach, h1, h2, h3, h4, h5, h6]
        · apply hty
          unfold handle; simp [hreach, h1, h2, h3, h4, h5, h6]
      · apply hty
        unfold handle; simp [hreach, h1, h2, h3, h4, h5]
  · apply hty
    unfold handle; simp [hreach, h1, h2, h3]

/-- With an error callback registered `fm_launch_files` returns TRUE, the calls of the
iteration of every ref are part of its calls, and for every ref of the batch one of these
holds: its iteration launches an application (desktop entry, scheme handler, command
line); its iteration calls the error callback; its iteration is the `exec_file` call
answered with Cancel; the ref is in a bucket of the table after the scan, whose handling
(a launch with the identifiers of its refs in input order, or the report that no
application is set for the type) is part of the calls; or the ref is on the folder list
after the scan, which is given to `open_folder` when a folder opener is registered. -/
theorem refs_accounted_for (env : Env) (launcher : FmFileLauncher) (cwd : String)
    (l1 l2 : List FmFileInfo) (fi : FmFileInfo) (herr : launcher.error.isSome = true) :
    (fm_launch_files env launcher cwd (l1 ++ fi :: l2)).ret = some true ∧
    (∀ e ∈ (handle env launcher (scan env launcher ⟨[], [], cwd, false⟩ l1).1 fi).2,
      e ∈ (fm_launch_files env launcher cwd (l1 ++ fi :: l2)).trace) ∧
    ((∃ e ∈ (handle env launcher (scan env launcher ⟨[], [], cwd, false⟩ l1).1 fi).2,
        is_launch e = true) ∨
     (∃ e ∈ (handle env launcher (scan env launcher ⟨[], [], cwd, false⟩ l1).1 fi).2,
        is_error_call e = true) ∨
     ((∃ f, launcher.exec_file = some f ∧ f fi = FmFileLauncherExecAction.EXEC_CANCEL) ∧
       (handle env launcher (scan env launcher ⟨[], [], cwd, false⟩ l1).1 fi).2 =
         [Effect.exec_file fi]) ∨
     (∃ b ∈ (scan env launcher ⟨[], [], cwd, false⟩ (l1 ++ fi :: l2)).1.hash,
       fi ∈ b.2 ∧
       (∀ e ∈ (launch_bucket env launcher b).2,
         e ∈ (fm_launch_files env launcher cwd (l1 ++ fi :: l2)).trace) ∧
       ((∃ app, Effect.launch_uris app (b.2.map launch_id).reverse ∈
           (launch_bucket env launcher b).2) ∨
         Effect.error ⟨G_IO_ERROR, G_IO_ERROR_FAILED,
           "No default application is set for MIME type " ++ b.1⟩ ∈
             (launch_bucket env launcher b).2)) ∨
     (fi ∈ (scan env launcher ⟨[], [], cwd, false⟩ (l1 ++ fi :: l2)).1.folders ∧
       (launcher.open_folder.isSome = true →
         Effect.open_folder
           (scan env launcher ⟨[], [], cwd, false⟩ (l1 ++ fi :: l2)).1.folders.reverse ∈
             (fm_launch_files env launcher cwd (l1 ++ fi :: l2)).trace))) := by
  have hT := fm_launch_files_of_error env launcher cwd (l1 ++ fi :: l2) herr
  have hs1 : (scan env launcher ⟨[], [], cwd, false⟩ l1).1.crashed = false :=
    scan_not_crashed env launcher herr l1 ⟨[], [], cwd, false⟩
  have hS : (scan env launcher ⟨[], [], cwd, false⟩ (l1 ++ fi :: l2)).1 =
      (scan env launcher
        (handle env launcher (scan env launcher ⟨[], [], cwd, false⟩ l1).1 fi).1 l2).1 := by
    rw [scan_append]
    simp only [scan]
  have hown : ∀ e ∈ (handle env launcher (scan env launcher ⟨[], [], cwd, false⟩ l1).1 fi).2,
      e ∈ (scan env launcher ⟨[], [], cwd, false⟩ (l1 ++ fi :: l2)).2 := by
    intro e he
    rw [scan_append]
    simp only [scan]
    exact List.mem_append_right _ (List.mem_append_left _ he)
  refine ⟨by rw [hT], ?_, ?_⟩
  · intro e he
    rw [hT]
    exact List.mem_append_left _ (List.mem_append_left _ (hown e he))
  · rcases handle_accounts env launcher _ fi herr hs1 with h | h | h | ⟨t, ht⟩ | h
    · exact Or.inl h
    · exact Or.inr (Or.inl h)
    · exact Or.inr (Or.inr (Or.inl h))
    · refine Or.inr (Or.inr (Or.inr (Or.inl ?_)))
      obtain ⟨pre, _, hpre⟩ := scan_lookup env launcher t l2
        (handle env launcher (scan env launcher ⟨[], [], cwd, false⟩ l1).1 fi).1
      rw [ht, ← hS] at hpre
      have hmem : fi ∈ g_hash_table_lookup
          (scan env launcher ⟨[], [], cwd, false⟩ (l1 ++ fi :: l2)).1.hash t := by
        rw [hpre]
        exact List.mem_append_right _ (List.mem_cons_self _ _)
      have hne : g_hash_table_lookup
          (scan env launcher ⟨[], [], cwd, false⟩ (l1 ++ fi :: l2)).1.hash t ≠ [] :=
        List.ne_nil_of_mem hmem
      have hb := mem_of_lookup _ t hne
      refine ⟨_, hb, hmem, ?_, launch_bucket_accounts env launcher _ herr⟩
      intro e he
      rw [hT]
      apply List.mem_append_left
      apply List.mem_append_right
      rw [List.mem_flatMap]
      exact ⟨_, (env.hash_iter _).property.mem_iff.mpr hb, he⟩
    · refine Or.inr (Or.inr (Or.inr (Or.inr ?_)))
      obtain ⟨pre, hpre⟩ := scan_folders_grow env launcher l2
        (handle env launcher (scan env launcher ⟨[], [], cwd, false⟩ l1).1 fi).1
      rw [h, ← hS] at hpre
      have hmem : fi ∈ (scan env launcher ⟨[], [], cwd, false⟩ (l1 ++ fi :: l2)).1.folders := by
        rw [hpre]
        exact List.mem_append_right _ (List.mem_cons_self _ _)
      refine ⟨hmem, fun hof => ?_⟩
      rw [hT]
      apply List.mem_append_right
      obtain ⟨f, hf⟩ := Option.isSome_iff_exists.mp hof
      unfold open_folders
      simp [List.ne_nil_of_mem hmem, hf]

/-- The accounting on the sample data: with a folder opener registered the batch
`[a.txt, trash.lnk]` returns TRUE and the shortcut is on the folder list given to
`open_folder`. -/
theorem refs_accounted_for_example :
    (fm_launch_files trash_env folder_launcher "/home/user"
        ([plain_file "a.txt" "text/plain"] ++
          shortcut_file "trash.lnk" "trash:///" :: [])).ret = some true ∧
    Effect.open_folder [shortcut_file "trash.lnk" "trash:///"] ∈
      (fm_launch_files trash_env folder_launcher "/home/user"
        ([plain_file "a.txt" "text/plain"] ++
          shortcut_file "trash.lnk" "trash:///" :: [])).trace :=
  ⟨(refs_accounted_for trash_env folder_launcher "/home/user"
      [plain_file "a.txt" "text/plain"] [] (shortcut_file "trash.lnk" "trash:///") rfl).1,
   by decide⟩

/-- C25: with an error callback registered and no folder opener, a native shortcut to the
trash can (`trash:///`, a directory) is put on the folder list by lines 191-193 and the
list is then freed by lines 357-372 without a call: the batch `[a.txt, trash.lnk]`
launches the editor for `a.txt` and makes no other call, neither a launch nor an error
report, for the shortcut, which is in no bucket either.  With a folder opener the shortcut
is given to `open_folder`; and a directory itself, without a folder opener, goes through
line 130 to the bucket of its type and is handled there (here reported: no application is
set). -/
theorem folder_shortcut_dropped_without_opener :
    (error_launcher.error.isSome = true ∧ error_launcher.open_folder.isSome = false ∧
      trash_env.file_test_is_executable (shortcut_file "trash.lnk" "trash:///").target = false ∧
      trash_env.uri_parse_scheme (shortcut_file "trash.lnk" "trash:///").target =
        some "trash" ∧
      scheme_is_internal "trash" = true ∧
      trash_env.mime_type_from_file_name (shortcut_file "trash.lnk" "trash:///").target =
        inode_directory) ∧
    fm_launch_files trash_env error_launcher "/home/user"
        [plain_file "a.txt" "text/plain", shortcut_file "trash.lnk" "trash:///"] =
      ⟨some true, [Effect.launch_uris ⟨"editor"⟩ ["file:///home/user/a.txt"]],
       "/home/user"⟩ ∧
    (scan trash_env error_launcher ⟨[], [], "/home/user", false⟩
        [plain_file "a.txt" "text/plain", shortcut_file "trash.lnk" "trash:///"]) =
      (⟨[("text/plain", [plain_file "a.txt" "text/plain"])],
        [shortcut_file "trash.lnk" "trash:///"], "/home/user", false⟩, []) ∧
    (fm_launch_files trash_env folder_launcher "/home/user"
        [plain_file "a.txt" "text/plain", shortcut_file "trash.lnk" "trash:///"]).trace =
      [Effect.launch_uris ⟨"editor"⟩ ["file:///home/user/a.txt"],
       Effect.open_folder [shortcut_file "trash.lnk" "trash:///"]] ∧
    (fm_launch_files trash_env error_launcher "/home/user" [music_dir]).trace =
      [Effect.error ⟨G_IO_ERROR, G_IO_ERROR_FAILED,
        "No default application is set for MIME type inode/directory"⟩] := by
  decide

/-! ### Refs that come after a call of the `NULL` pointer -/

/-- C2: without an error callback, in the batch `[mail.lnk, calc.desktop]` the handler of
the `mailto:` shortcut fails to launch, lines 180-184 call the `NULL` pointer
`launcher->error`, and the desktop entry `calc.desktop`, which is not grouped as a
directory, is never launched: `fm_launch_desktop_entry` is not reached for it.  The same
entry is launched on its own when it comes alone, and in the same batch when an error
callback is registered. -/
theorem desktop_entry_not_launched_after_null_call :
    (calc_desktop.is_desktop_entry = true ∧
      (bare_launcher.open_folder.isSome && calc_desktop.is_dir) = false ∧
      bare_launcher.error.isSome = false) ∧
    fm_launch_files sample_env bare_launcher "/home/user"
        [shortcut_file "mail.lnk" "mailto:someone@example.org", calc_desktop] =
      ⟨none,
       [Effect.launch_infos ⟨"mailer"⟩ [shortcut_file "mail.lnk" "mailto:someone@example.org"],
        Effect.null_call],
       "/home/user"⟩ ∧
    (fm_launch_desktop_entry sample_env bare_launcher calc_desktop.path.str []).2 =
      [Effect.launch_uris ⟨"calc"⟩ []] ∧
    (fm_launch_files sample_env bare_launcher "/home/user" [calc_desktop]).trace =
      [Effect.launch_uris ⟨"calc"⟩ []] ∧
    (fm_launch_files sample_env error_launcher "/home/user"
        [shortcut_file "mail.lnk" "mailto:someone@example.org", calc_desktop]).trace =
      [Effect.launch_infos ⟨"mailer"⟩ [shortcut_file "mail.lnk" "mailto:someone@example.org"],
       Effect.error spawn_failed,
       Effect.launch_uris ⟨"calc"⟩ []] := by
  decide

/-- C21: without an `exec_file` and without an error callback, in the batch
`[mail.lnk, run.sh]` the handler of the `mailto:` shortcut fails to launch, lines 180-184
call the `NULL` pointer `launcher->error`, and the executable `/bin/run.sh`, which would
not be run directly (no `exec_file` is registered), is never appended to the bucket of its
content type: the table stays empty.  The same ref joins the bucket of
`application/x-shellscript` when it comes alone, and in the same batch when an error
callback is registered. -/
theorem executable_not_bucketed_after_null_call :
    (exec_filename sample_env bare_launcher run_sh = some "/bin/run.sh" ∧
      falls_through sample_env bare_launcher run_sh "/bin/run.sh" = true ∧
      run_sh.mime_type = some ⟨some "application/x-shellscript"⟩ ∧
      bare_launcher.error.isSome = false) ∧
    fm_launch_files sample_env bare_launcher "/home/user"
        [shortcut_file "mail.lnk" "mailto:someone@example.org", run_sh] =
      ⟨none,
       [Effect.launch_infos ⟨"mailer"⟩ [shortcut_file "mail.lnk" "mailto:someone@example.org"],
        Effect.null_call],
       "/home/user"⟩ ∧
    (scan sample_env bare_launcher ⟨[], [], "/home/user", false⟩
        [shortcut_file "mail.lnk" "mailto:someone@example.org", run_sh]).1 =
      ⟨[], [], "/home/user", true⟩ ∧
    (scan sample_env bare_launcher ⟨[], [], "/home/user", false⟩ [run_sh]).1 =
      ⟨[("application/x-shellscript", [run_sh])], [], "/home/user", false⟩ ∧
    (scan sample_env error_launcher ⟨[], [], "/home/user", false⟩
        [shortcut_file "mail.lnk" "mailto:someone@example.org", run_sh]).1 =
      ⟨[("application/x-shellscript", [run_sh])], [], "/home/user", false⟩ := by
  decide

/-! ### Order of the calls, continued -/

/-- The working directory of a direct launch: a shortcut to `tools/run.sh`, run from
`/home/user`, is launched in `/home/user/tools` (the `chdir` call gets the relative path),
and the process is back in `/home/user` afterwards. -/
theorem relative_run_path_example :
    handle tools_env (exec_launcher FmFileLauncherExecAction.EXEC)
        ⟨[], [], "/home/user", false⟩ (shortcut_file "run.lnk" "tools/run.sh") =
      (⟨[], [], "/home/user", false⟩,
       [Effect.exec_file (shortcut_file "run.lnk" "tools/run.sh"),
        Effect.chdir "tools" true,
        Effect.launch ⟨"'tools/run.sh'"⟩ "/home/user/tools",
        Effect.chdir "/home/user" true]) := by
  decide

end LibFm
